import Mathlib

/-!
# The RTSP server engine of `go-rtsp/rtsp-server.go`

A shallow embedding of `RtspServer` (carry-over buffer, interleaved-frame
demultiplexer, session/authentication gate, method dispatch) together with the
properties of the engine that the specification states.

Conventions of the embedding.

* A Go `[]byte` is a `List (Fin 256)`.
* Go functions that can fault at run time (index or slice out of range, nil
  dereference) return an `Outcome`; the `fault` case carries the events emitted
  before the fault.
* Everything the engine calls but that is defined in other files of the
  package (message codec, transport descriptor codec, authenticator, SDP
  codec, track internals, clock, random source, output sink) is a field of
  `Env`; the application's capability callbacks are the `ServerHandle` inside
  it.  Theorems quantify over every `Env`.
* `map[string]*RtspTrack` is an association list; the order of the list is the
  order in which `range` visits the map.
* The engine state carries a ghost `trace` of the observable events (track
  deliveries, capability callbacks, written responses) in the order in which
  the code performs them.
-/

namespace Rtsp

/-! ## Data model -/

/-- Go `[]byte`. -/
abbrev Bytes := List (Fin 256)

/-- Errors as the engine distinguishes them: `errNeedMore` against any other. -/
inductive RtspError
  | errNeedMore
  | failure (code : Nat)
deriving DecidableEq, Repr

/-- Lower transport of a transport descriptor (`transport.Proto`). -/
inductive LowerTransport
  | UDP
  | TCP
deriving DecidableEq, Repr

/-- Header fields `HeadFiled` (`map[string]string`). -/
structure HeadFiled where
  entries : List (String × String)
deriving DecidableEq, Repr

/-- Go `make(HeadFiled)`. -/
def HeadFiled.empty : HeadFiled := ⟨[]⟩

/-- Membership test `Fileds.Has(key)`. -/
def HeadFiled.Has (f : HeadFiled) (k : String) : Bool :=
  f.entries.any (fun p => p.1 == k)

/-- Map read `Fileds[key]`: the empty string when the key is absent. -/
def HeadFiled.get (f : HeadFiled) (k : String) : String :=
  match f.entries.find? (fun p => p.1 == k) with
  | some p => p.2
  | none => ""

/-- Map write `Fileds[key] = value`. -/
def HeadFiled.set (f : HeadFiled) (k v : String) : HeadFiled :=
  ⟨f.entries.filter (fun p => !(p.1 == k)) ++ [(k, v)]⟩

/-- A parsed request (`RtspRequest`). -/
structure RtspRequest where
  Method : String
  Uri : String
  Version : String
  Fileds : HeadFiled
  Body : String
deriving DecidableEq, Repr

/-- A response under construction or written (`RtspResponse`). -/
structure RtspResponse where
  Version : String
  StatusCode : Nat
  Fileds : HeadFiled
  Body : String
deriving DecidableEq, Repr

/-- Transport descriptor (`RtspTransport`): the fields the engine touches. -/
structure RtspTransport where
  Proto : LowerTransport
  Client_ports : Nat × Nat
  Server_ports : Nat × Nat
  Interleaved : Int × Int
deriving DecidableEq, Repr

/-- Packet sink of a track (`track.OnPacket`): either one the application
installed, or the interleaving closure of `handleRequest` (lines 251-262),
which captures the transport descriptor of its SETUP. -/
inductive PacketSink
  | app (id : Nat)
  | interleavedSink (transport : RtspTransport)
deriving DecidableEq, Repr

/-- A track (`RtspTrack`): the fields the engine reads or writes.  `transport`
is `none` until `SetTransport`. -/
structure RtspTrack where
  TrackName : String
  uri : String
  transport : Option RtspTransport
  initSequence : Nat
  onPacket : Option PacketSink
deriving DecidableEq, Repr

/-- One media block of the SDP context (`sdp.Media`). -/
structure SdpMedia where
  MediaType : String
  EncodeName : String
  PayloadType : Nat
  ClockRate : Nat
  ChannelCount : Nat
  ControlUrl : String
  fmtp : String
deriving DecidableEq, Repr

/-- An RTP-Info entry (`RtpInfo`). -/
structure RtpInfo where
  Url : String
  Seq : Nat
deriving DecidableEq, Repr

/-- Authenticator state (`authenticate`), as far as the engine configures it. -/
structure Authenticator where
  scheme : String
  userName : String
  passwd : String
  realm : String
  method : String
deriving DecidableEq, Repr

/-- One invocation of a capability callback of `ServerHandle`, with the
arguments the engine passes. -/
inductive HandleCall
  | option (req : RtspRequest)
  | describe (req : RtspRequest)
  | setup (req : RtspRequest) (transport : RtspTransport) (track : RtspTrack)
  | announce (req : RtspRequest) (tracks : List (String × RtspTrack))
  | play (req : RtspRequest) (range : Option String) (info : List RtpInfo)
  | record (req : RtspRequest) (range : Option String) (info : List RtpInfo)
  | teardown (req : RtspRequest)
  | pause (req : RtspRequest)
  | setParameter (req : RtspRequest)
  | getParameter (req : RtspRequest)
deriving DecidableEq, Repr

/-- Observable events of the engine, in program order. `interleave` logs the
allocation of a channel pair (lines 248-250). -/
inductive Event
  | deliver (track : String) (payload : Bytes) (isRtcp : Bool)
  | callback (call : HandleCall)
  | write (res : RtspResponse)
  | interleave (track : String) (rtp rtcp : Int)
deriving DecidableEq, Repr

/-- Result of a Go function: it returns, or faults at run time (`fault`), or
never returns (`hang`); the last two carry the events emitted so far. -/
inductive Outcome (α : Type)
  | ret (a : α)
  | fault (trace : List Event)
  | hang (trace : List Event)
deriving Repr

/-- The engine state (`RtspServer`).  `handle` is the state of the
application object behind the `ServerHandle` interface, `output` tells whether
`SetOutput` installed a sink, `sdpMedias` is `sdpContext.Medias`, `trace` is
the ghost event log.  The channel counter `interleaved` is a Go `int`, taken
as an unbounded integer: it grows by two per SETUP and cannot reach 2^63
within a connection. -/
structure RtspServer (H : Type) where
  buffer : Bytes
  tracks : List (String × RtspTrack)
  userName : String
  passwd : String
  realm : String
  auth : Option Authenticator
  output : Bool
  handle : H
  sessionId : String
  sdpMedias : List SdpMedia
  sdpAttrs : List (String × String)
  interleaved : Int
  isRecord : Bool
  trace : List Event

/-- What a capability callback does: it updates the application state, may
rewrite the response it was handed, and may register tracks through
`svr.AddTrack`.  (The fields of the engine are unexported: an application
reaches the engine through its methods only.  Callbacks that call `Input` or
`SetOutput` from inside a callback are not modelled.) -/
structure HandleResult (H : Type) where
  handle : H
  res : RtspResponse
  addTracks : List RtspTrack

/-- What `HandleSetup` does: it updates the application state, may rewrite the
response and the decoded transport descriptor, and may install its own packet
sink on the track (`track.OnPacket`). -/
structure SetupResult (H : Type) where
  handle : H
  res : RtspResponse
  transport : RtspTransport
  onPacket : Option Nat

/-- What `HandleAnnounce` does (it is handed no response). -/
structure AnnounceResult (H : Type) where
  handle : H
  addTracks : List RtspTrack

/-- The capability interface `ServerHandle` of `rtsp-handle.go`. -/
structure ServerHandle (H : Type) where
  HandleOption : H → RtspRequest → RtspResponse → HandleResult H
  HandleDescribe : H → RtspRequest → RtspResponse → HandleResult H
  HandleSetup : H → RtspRequest → RtspResponse → RtspTransport → RtspTrack → SetupResult H
  HandleAnnounce : H → RtspRequest → List (String × RtspTrack) → AnnounceResult H
  HandlePlay : H → RtspRequest → RtspResponse → Option String → List RtpInfo → HandleResult H
  HandlePause : H → RtspRequest → RtspResponse → HandleResult H
  HandleTeardown : H → RtspRequest → RtspResponse → HandleResult H
  HandleGetParameter : H → RtspRequest → RtspResponse → HandleResult H
  HandleSetParameter : H → RtspRequest → RtspResponse → HandleResult H
  HandleRecord : H → RtspRequest → RtspResponse → Option String → List RtpInfo → HandleResult H

/-- The collaborators of the engine that live outside `rtsp-server.go`.
`now`, `rand` and `output` may depend on the events so far. -/
structure Env (H : Type) where
  handle : ServerHandle H
  parseRequest : Bytes → Nat × Except RtspError RtspRequest
  parseResponse : Bytes → Nat × Option RtspError
  trackInput : RtspTrack → Bytes → Bool → Option RtspError
  createAuthByAuthenticate : String → Option Authenticator
  check : Authenticator → String → Bool
  wwwAuthenticate : Authenticator → String
  decodeTransport : String → RtspTransport
  encodeTransport : RtspTransport → String
  parseRange : String → Option String
  encodeRange : String → String
  encodeRtpInfo : RtpInfo → String
  parserSdp : List SdpMedia → String → List SdpMedia × Option RtspError
  mediaDescripe : RtspTrack → String
  sdpEncode : List (String × String) → List SdpMedia → String
  NewAudioTrack : SdpMedia → RtspTrack
  NewVideoTrack : SdpMedia → RtspTrack
  NewMetaTrack : SdpMedia → RtspTrack
  now : List Event → String
  rand : List Event → Nat → Nat
  output : List Event → RtspResponse → Option RtspError

/-! ## Constants of the message codec

The method names, header names and status codes are declared in the message
codec, outside `rtsp-server.go`; their values are those of §6 of the
specification. -/

/-- Modelled from the spec: the method name `OPTIONS` (§6). -/
def OPTIONS : String := "OPTIONS"

/-- Modelled from the spec: the method name `DESCRIBE` (§6). -/
def DESCRIBE : String := "DESCRIBE"

/-- Modelled from the spec: the method name `SETUP` (§6). -/
def SETUP : String := "SETUP"

/-- Modelled from the spec: the method name `ANNOUNCE` (§6). -/
def ANNOUNCE : String := "ANNOUNCE"

/-- Modelled from the spec: the method name `PLAY` (§6). -/
def PLAY : String := "PLAY"

/-- Modelled from the spec: the method name `RECORD` (§6). -/
def RECORD : String := "RECORD"

/-- Modelled from the spec: the method name `TEARDOWN` (§6). -/
def TEARDOWN : String := "TEARDOWN"

/-- Modelled from the spec: the method name `PAUSE` (§6). -/
def PAUSE : String := "PAUSE"

/-- Modelled from the spec: the method name `SET_PARAMETER` (§6). -/
def SET_PARAMETER : String := "SET_PARAMETER"

/-- Modelled from the spec: the method name `GET_PARAMETER` (§6). -/
def GET_PARAMETER : String := "GET_PARAMETER"

/-- Modelled from the spec: the header name `CSeq` (§6). -/
def CSeq : String := "CSeq"

/-- Modelled from the spec: the header name `Date` (§6). -/
def Date : String := "Date"

/-- Modelled from the spec: the header name `Session` (§6). -/
def Session : String := "Session"

/-- Modelled from the spec: the header name `Transport` (§6). -/
def Transport : String := "Transport"

/-- Modelled from the spec: the header name `Authorization` (§6). -/
def Authorization : String := "Authorization"

/-- Modelled from the spec: the header name `WWW-Authenticate` (§6). -/
def WWWAuthenticate : String := "WWW-Authenticate"

/-- Modelled from the spec: the header name `Public` (§6). -/
def Public : String := "Public"

/-- Modelled from the spec: the header name `Content-Type` (§6). -/
def ContentType : String := "Content-Type"

/-- Modelled from the spec: the header name `Range` (§6). -/
def Range : String := "Range"

/-- Modelled from the spec: the header name `RTP-Info` (§6). -/
def RTPInfo : String := "RTP-Info"

/-- Modelled from the spec: the protocol version token of a response line. -/
def RTSP_1_0 : String := "RTSP/1.0"

/-- Modelled from the spec: the status code 200 OK (§6). -/
def OK : Nat := 200

/-- Modelled from the spec: the status code 400 Bad Request (§6). -/
def BAD_REQUEST : Nat := 400

/-- Modelled from the spec: the status code 401 Unauthorized (§6). -/
def Unauthorized : Nat := 401

/-- Modelled from the spec: the status code 454 Session Not Found (§6). -/
def Session_Not_Found : Nat := 454

/-- Modelled from the spec: the status code 461 Unsupported Transport (§6). -/
def Unsupported_Transport : Nat := 461

/-! ## Go primitives used by the engine -/

/-- Go `bytes.IndexFunc(msg, r != ' ')`: the index of the first byte that is
not a space, `none` for Go's `-1`.  (A space is the single byte `0x20`, and
every other byte starts a rune different from it.) -/
def indexNonSpace : Bytes → Option Nat
  | [] => none
  | b :: bs => if b = 32 then (indexNonSpace bs).map (· + 1) else some 0

/-- Go `s[lo:hi]` on a slice whose capacity is its length: `none` is the
run-time fault "slice bounds out of range". -/
def goSlice (s : Bytes) (lo hi : Nat) : Option Bytes :=
  if lo ≤ hi ∧ hi ≤ s.length then some ((s.take hi).drop lo) else none

/-- Go `binary.BigEndian.Uint16(packet[2:])`. -/
def bigEndianUint16 (packet : Bytes) : Nat :=
  (packet.getD 2 0).val * 256 + (packet.getD 3 0).val

/-- Go `byte(x)` for an `int`. -/
def byteOfInt (x : Int) : Fin 256 := Fin.ofNat (x % 256).toNat

/-- Substring test on character lists. -/
def containsChars : List Char → List Char → Bool
  | [], sub => sub.isPrefixOf []
  | c :: cs, sub => sub.isPrefixOf (c :: cs) || containsChars cs sub

/-- Go `strings.Contains(s, substr)`. -/
def stringsContains (s substr : String) : Bool := containsChars s.data substr.data

/-- Go `strings.Join(elems, sep)`. -/
def stringsJoin (elems : List String) (sep : String) : String := sep.intercalate elems

/-- Map write `tracks[key] = track`. -/
def insertTrack : List (String × RtspTrack) → String → RtspTrack → List (String × RtspTrack)
  | [], k, t => [(k, t)]
  | (k0, t0) :: rest, k, t =>
    if k0 = k then (k, t) :: rest else (k0, t0) :: insertTrack rest k t

/-! ## Construction and registration -/

/-- The options `WithUserInfo`, `WithAuthType`, `WithRealm`. -/
inductive ServerOption
  | WithUserInfo (userName passwd : String)
  | WithAuthType (authType : String)
  | WithRealm (realm : String)
deriving DecidableEq, Repr

/-- Applying one option to the server under construction. -/
def ServerOption.apply {H : Type} (env : Env H) (o : ServerOption) (rs : RtspServer H) :
    RtspServer H :=
  match o with
  | .WithUserInfo userName passwd => { rs with userName := userName, passwd := passwd }
  | .WithAuthType authType => { rs with auth := env.createAuthByAuthenticate authType }
  | .WithRealm realm => { rs with realm := realm }

/-- The literal `&RtspServer{...}` at the head of `NewRtspServer`. -/
def RtspServer.initial {H : Type} (handle : H) : RtspServer H :=
  { buffer := [], tracks := [], userName := "", passwd := "", realm := "gomedia server",
    auth := none, output := false, handle := handle, sessionId := "", sdpMedias := [],
    sdpAttrs := [], interleaved := 0, isRecord := false, trace := [] }

/-- Go `NewRtspServer`.  It faults when `createAuthByAuthenticate("Digest")`
is nil and credentials were given. -/
def NewRtspServer {H : Type} (env : Env H) (handle : H) (opt : List ServerOption) :
    Outcome (RtspServer H) :=
  let server := opt.foldl (fun rs o => o.apply env rs) (RtspServer.initial handle)
  if server.auth = none ∧ server.userName ≠ "" ∧ server.passwd ≠ "" then
    match env.createAuthByAuthenticate "Digest" with
    | none => .fault []
    | some a =>
      .ret { server with
        auth := some { a with userName := server.userName, passwd := server.passwd,
                              realm := server.realm },
        sdpAttrs := [("control", "*")] }
  else
    .ret { server with sdpAttrs := [("control", "*")] }

/-- Go `AddTrack`. -/
def AddTrack {H : Type} (env : Env H) (server : RtspServer H) (track : RtspTrack) :
    RtspServer H :=
  let track1 := { track with uri := "track" ++ toString server.tracks.length }
  { server with
    tracks := insertTrack server.tracks track1.TrackName track1,
    sdpMedias := (env.parserSdp server.sdpMedias (env.mediaDescripe track1)).1 }

/-- Go `SetOutput` (with a non-nil callback). -/
def SetOutput {H : Type} (server : RtspServer H) : RtspServer H :=
  { server with output := true }

/-! ## Interleaved frames -/

/-- The frame the packet sink installed on SETUP builds for packet `b`
(lines 252-260): marker, channel byte, big-endian `uint16(len(b))`, payload. -/
def interleavedPacket (transport : RtspTransport) (b : Bytes) (isRtcp : Bool) : Bytes :=
  [36,
   if isRtcp then byteOfInt transport.Interleaved.2 else byteOfInt transport.Interleaved.1,
   Fin.ofNat ((b.length % 65536) / 256),
   Fin.ofNat ((b.length % 65536) % 256)] ++ b

/-- The `range server.tracks` loop of `hanleRtpOverRtsp` (lines 148-161).
Reading the channel pair of a track that has no transport descriptor is a nil
dereference.  The slice bound `4+length` of line 157 is computed in `uint16`,
the type of `length`; it is either at most `len(packet)` or, wrapped around,
below 4. -/
def rtpRoute {H : Type} (env : Env H) (server : RtspServer H) (packet : Bytes)
    (channel length : Nat) :
    List (String × RtspTrack) → Outcome (RtspServer H × Nat × Option RtspError)
  | [] => .ret (server, 4 + length, none)
  | (_, track) :: rest =>
    match track.transport with
    | none => .fault server.trace
    | some transport =>
      let isRtcp : Bool := decide (transport.Interleaved.2 = (channel : Int))
      if transport.Interleaved.1 = (channel : Int) ∨ isRtcp = true then
        match goSlice packet 4 ((4 + length) % 65536) with
        | none => .fault server.trace
        | some payload =>
          .ret ({ server with
                  trace := server.trace ++ [Event.deliver track.TrackName payload isRtcp] },
                4 + length, env.trackInput track payload isRtcp)
      else rtpRoute env server packet channel length rest

/-- Go `hanleRtpOverRtsp`. -/
def hanleRtpOverRtsp {H : Type} (env : Env H) (server : RtspServer H) (packet : Bytes) :
    Outcome (RtspServer H × Nat × Option RtspError) :=
  if packet.length < 4 then .ret (server, 0, some .errNeedMore)
  else
    let channel := (packet.getD 1 0).val
    let length := bigEndianUint16 packet
    if packet.length - 4 < length then .ret (server, 0, some .errNeedMore)
    else rtpRoute env server packet channel length server.tracks

/-! ## Request handling -/

/-- The header stamping of `sendRespones` (lines 365-366): CSeq of the
request, Date of the clock. -/
def stampResponse {H : Type} (env : Env H) (trace : List Event) (req : RtspRequest)
    (res : RtspResponse) : RtspResponse :=
  { res with
    Fileds := (res.Fileds.set CSeq (req.Fileds.get CSeq)).set Date (env.now trace) }

/-- Go `sendRespones`: stamp the response and write it to the output sink if
one is installed. -/
def sendRespones {H : Type} (env : Env H) (server : RtspServer H) (req : RtspRequest)
    (res : RtspResponse) : RtspServer H × Option RtspError :=
  let res1 := stampResponse env server.trace req res
  if server.output then
    ({ server with trace := server.trace ++ [Event.write res1] }, env.output server.trace res1)
  else (server, none)

/-- Go `handleUnAuth`, with the (non-nil) authenticator `a`. -/
def handleUnAuth {H : Type} (env : Env H) (server : RtspServer H) (a : Authenticator)
    (request : RtspRequest) : RtspServer H × Option RtspError :=
  let response : RtspResponse :=
    { Version := "", StatusCode := 401,
      Fileds := HeadFiled.empty.set WWWAuthenticate (env.wwwAuthenticate a), Body := "" }
  sendRespones env server request response

/-- The session id of lines 240-245: ten draws of `number[rand.Intn(10)]`. -/
def newSessionId {H : Type} (env : Env H) (trace : List Event) : String :=
  String.mk ((List.range 10).map
    (fun i => "0123456789".data.getD (env.rand trace i % 10) (Char.ofNat 48)))

/-- The engine applying what a capability callback did: log the call, take
the new application state, run the `AddTrack` calls it made. -/
def applyHandle {H : Type} (env : Env H) (server : RtspServer H) (call : HandleCall)
    (r : HandleResult H) : RtspServer H :=
  r.addTracks.foldl (AddTrack env)
    { server with handle := r.handle, trace := server.trace ++ [Event.callback call] }

/-- The first track, in `range` order, whose control URI is contained in the
request URI (lines 229-232), with its position and key. -/
def matchTrack (uri : String) : List (String × RtspTrack) → Option (Nat × String × RtspTrack)
  | [] => none
  | (k, t) :: rest =>
    if stringsContains uri t.uri then some (0, k, t)
    else (matchTrack uri rest).map (fun r => (r.1 + 1, r.2))

/-- The SETUP case (lines 227-272). -/
def handleSetup {H : Type} (env : Env H) (server : RtspServer H) (request : RtspRequest)
    (res : RtspResponse) : RtspServer H × RtspResponse :=
  match matchTrack request.Uri server.tracks with
  | none => (server, { res with StatusCode := BAD_REQUEST })
  | some (i, key, track0) =>
    let track : RtspTrack := { track0 with uri := request.Uri }
    let transport := env.decodeTransport (request.Fileds.get Transport)
    let r := env.handle.HandleSetup server.handle request res transport track
    let track1 : RtspTrack :=
      match r.onPacket with
      | some id => { track with onPacket := some (.app id) }
      | none => track
    let server1 : RtspServer H :=
      { server with
        handle := r.handle,
        trace := server.trace ++ [Event.callback (.setup request transport track)] }
    if r.res.StatusCode = 200 then
      let sessionId :=
        if server1.sessionId = "" then newSessionId env server1.trace else server1.sessionId
      if r.transport.Proto = .TCP then
        let transport1 : RtspTransport :=
          { r.transport with Interleaved := (server1.interleaved, server1.interleaved + 1) }
        let track2 : RtspTrack :=
          { track1 with onPacket := some (.interleavedSink transport1),
                        transport := some transport1 }
        ({ server1 with
           sessionId := sessionId,
           interleaved := server1.interleaved + 2,
           tracks := server1.tracks.set i (key, track2),
           trace := server1.trace ++
             [Event.interleave track2.TrackName server1.interleaved (server1.interleaved + 1)] },
         { r.res with
           Fileds := (r.res.Fileds.set Transport (env.encodeTransport transport1)).set
             Session sessionId })
      else
        let track2 : RtspTrack := { track1 with transport := some r.transport }
        ({ server1 with sessionId := sessionId, tracks := server1.tracks.set i (key, track2) },
         { r.res with
           Fileds := (r.res.Fileds.set Transport (env.encodeTransport r.transport)).set
             Session sessionId })
    else
      ({ server1 with tracks := server1.tracks.set i (key, track1) }, r.res)

/-- The track ANNOUNCE builds for one media block (lines 283-291). -/
def announceTrack {H : Type} (env : Env H) (media : SdpMedia) : RtspTrack :=
  let track :=
    if media.MediaType = "audio" then env.NewAudioTrack media
    else if media.MediaType = "video" then env.NewVideoTrack media
    else env.NewMetaTrack media
  { track with uri := media.ControlUrl }

/-- The ANNOUNCE case (lines 273-294); an SDP error is returned at once. -/
def handleAnnounce {H : Type} (env : Env H) (server : RtspServer H) (request : RtspRequest) :
    RtspServer H × Option RtspError :=
  let parsed := env.parserSdp server.sdpMedias request.Body
  match parsed.2 with
  | some err => ({ server with sdpMedias := parsed.1 }, some err)
  | none =>
    let tracks := parsed.1.foldl
      (fun ts media => insertTrack ts media.MediaType (announceTrack env media)) server.tracks
    let server1 : RtspServer H :=
      { server with sdpMedias := parsed.1, isRecord := true, tracks := tracks }
    let r := env.handle.HandleAnnounce server1.handle request tracks
    (r.addTracks.foldl (AddTrack env)
      { server1 with
        handle := r.handle,
        trace := server1.trace ++ [Event.callback (.announce request tracks)] }, none)

/-- The RTP-Info list of PLAY and RECORD (lines 297, 301-305): one entry is
built for each track, and none is appended to `info`. -/
def gatherRtpInfo (tracks : List (String × RtspTrack)) : List RtpInfo :=
  tracks.foldl (fun info _ => info) []

/-- The response shaping shared by PLAY and RECORD (lines 307-319). -/
def shapePlay {H : Type} (env : Env H) (res : RtspResponse) (tr : Option String)
    (info : List RtpInfo) : RtspResponse :=
  if res.StatusCode = 200 then
    let res1 : RtspResponse :=
      match tr with
      | some t => { res with Fileds := res.Fileds.set Range (env.encodeRange t) }
      | none => res
    if info.length > 0 then
      { res1 with
        Fileds := res1.Fileds.set RTPInfo (stringsJoin (info.map env.encodeRtpInfo) ",") }
    else res1
  else res

/-- The `switch request.Method` of `handleRequest` (lines 213-353): the new
state and the response to send, or the error ANNOUNCE returns at once. -/
def handleMethod {H : Type} (env : Env H) (server : RtspServer H) (request : RtspRequest)
    (res : RtspResponse) : RtspServer H × Except RtspError RtspResponse :=
  if request.Method = OPTIONS then
    let methods := [OPTIONS, SET_PARAMETER, GET_PARAMETER, SETUP, DESCRIBE, PLAY, ANNOUNCE,
      RECORD, TEARDOWN, PAUSE]
    let r := env.handle.HandleOption server.handle request res
    let server1 := applyHandle env server (.option request) r
    if r.res.StatusCode = 200 then
      (server1, .ok { r.res with Fileds := r.res.Fileds.set Public (stringsJoin methods ",") })
    else (server1, .ok r.res)
  else if request.Method = DESCRIBE then
    let r := env.handle.HandleDescribe server.handle request res
    let server1 := applyHandle env server (.describe request) r
    if r.res.StatusCode = OK then
      (server1, .ok { r.res with
        Body := env.sdpEncode server1.sdpAttrs server1.sdpMedias,
        Fileds := r.res.Fileds.set ContentType "application/sdp" })
    else (server1, .ok r.res)
  else if request.Method = SETUP then
    let sr := handleSetup env server request res
    (sr.1, .ok sr.2)
  else if request.Method = ANNOUNCE then
    match handleAnnounce env server request with
    | (server1, some err) => (server1, .error err)
    | (server1, none) => (server1, .ok res)
  else if request.Method = PLAY then
    let tr := if request.Fileds.Has Range then env.parseRange (request.Fileds.get Range) else none
    let info := gatherRtpInfo server.tracks
    let r := env.handle.HandlePlay server.handle request res tr info
    (applyHandle env server (.play request tr info) r, .ok (shapePlay env r.res tr info))
  else if request.Method = RECORD then
    let tr := if request.Fileds.Has Range then env.parseRange (request.Fileds.get Range) else none
    let info := gatherRtpInfo server.tracks
    let r := env.handle.HandleRecord server.handle request res tr info
    (applyHandle env server (.record request tr info) r, .ok (shapePlay env r.res tr info))
  else if request.Method = TEARDOWN then
    let r := env.handle.HandleTeardown server.handle request res
    (applyHandle env server (.teardown request) r, .ok r.res)
  else if request.Method = PAUSE then
    let r := env.handle.HandlePause server.handle request res
    (applyHandle env server (.pause request) r, .ok r.res)
  else if request.Method = SET_PARAMETER then
    let r := env.handle.HandleSetParameter server.handle request res
    (applyHandle env server (.setParameter request) r, .ok r.res)
  else if request.Method = GET_PARAMETER then
    let r := env.handle.HandleGetParameter server.handle request res
    (applyHandle env server (.getParameter request) r, .ok r.res)
  else (server, .ok res)

/-- Lines 203-354 of `handleRequest`: the session gate, the method switch and
the final `sendRespones`. -/
def handleSession {H : Type} (env : Env H) (server : RtspServer H) (request : RtspRequest) :
    RtspServer H × Option RtspError :=
  let res : RtspResponse :=
    { Version := RTSP_1_0, StatusCode := 200, Fileds := HeadFiled.empty, Body := "" }
  if server.sessionId ≠ "" ∧
      (request.Fileds.Has Session = false ∨ request.Fileds.get Session ≠ server.sessionId) then
    sendRespones env server request { res with StatusCode := Session_Not_Found }
  else
    match handleMethod env server request res with
    | (server1, .error err) => (server1, some err)
    | (server1, .ok res1) => sendRespones env server1 request res1

/-- Go `handleRequest`: parse, authentication gate (lines 196-201), then the
rest.  A nil authenticator with configured credentials is a fault. -/
def handleRequest {H : Type} (env : Env H) (server : RtspServer H) (req : Bytes) :
    Outcome (RtspServer H × Nat × Option RtspError) :=
  match env.parseRequest req with
  | (ret, .error err) => .ret (server, ret, some err)
  | (ret, .ok request) =>
    if server.userName ≠ "" ∧ server.passwd ≠ "" then
      match server.auth with
      | none => .fault server.trace
      | some a =>
        let a1 : Authenticator := { a with method := request.Method }
        let server1 : RtspServer H := { server with auth := some a1 }
        if request.Fileds.Has Authorization = false ∨
            env.check a1 (request.Fileds.get Authorization) = false then
          let r := handleUnAuth env server1 a1 request
          .ret (r.1, ret, r.2)
        else
          let r := handleSession env server1 request
          .ret (r.1, ret, r.2)
    else
      let r := handleSession env server request
      .ret (r.1, ret, r.2)

/-- Go `handleResponse`: the response is parsed and dropped. -/
def handleResponse {H : Type} (env : Env H) (server : RtspServer H) (res : Bytes) :
    Outcome (RtspServer H × Nat × Option RtspError) :=
  let r := env.parseResponse res
  .ret (server, r.1, r.2)

/-- Go `handleRtspMessage`: `msg[idx:]` faults when `idx` is `-1`. -/
def handleRtspMessage {H : Type} (env : Env H) (server : RtspServer H) (msg : Bytes) :
    Outcome (RtspServer H × Nat × Option RtspError) :=
  match indexNonSpace msg with
  | none => .fault server.trace
  | some idx =>
    let msg1 := msg.drop idx
    if ([82, 84, 83, 80] : Bytes).isPrefixOf msg1 then handleResponse env server msg1
    else handleRequest env server msg1

/-! ## The input loop -/

/-- One iteration of the loop of `Input` up to the error test (lines 96-101),
on a non-empty `buf`. -/
def inputUnit {H : Type} (env : Env H) (server : RtspServer H) (buf : Bytes) :
    Outcome (RtspServer H × Nat × Option RtspError) :=
  if buf.head? = some 36 then hanleRtpOverRtsp env server buf
  else handleRtspMessage env server buf

/-- The loop `for len(buf) > 0` of `Input` (lines 94-107), by recursion on a
bound `fuel` on the number of iterations.  It returns the state, the
unconsumed `buf` and the error that ended the loop.  An iteration that
consumes nothing without an error repeats forever (`hang`); `buf[ret:]` with
`ret > len(buf)` is a fault. -/
def inputLoop {H : Type} (env : Env H) :
    Nat → RtspServer H → Bytes → Outcome (RtspServer H × Bytes × Option RtspError)
  | 0, server, buf => if buf.length = 0 then .ret (server, buf, none) else .hang server.trace
  | fuel + 1, server, buf =>
    if buf.length = 0 then .ret (server, buf, none)
    else
      match inputUnit env server buf with
      | .fault t => .fault t
      | .hang t => .hang t
      | .ret (server1, _, some err) => .ret (server1, buf, some err)
      | .ret (server1, ret, none) =>
        if ret = 0 then .hang server1.trace
        else if buf.length < ret then .fault server1.trace
        else inputLoop env fuel server1 (buf.drop ret)

/-- The tail of `Input` (lines 117-126) once the loop ended without a fatal
error: the carry-over buffer becomes the unconsumed bytes. -/
def storeRest {H : Type} (server : RtspServer H) (buf : Bytes) : RtspServer H :=
  if buf.length = 0 then { server with buffer := [] }
  else
    let server1 : RtspServer H :=
      if server.buffer.length > 0 then { server with buffer := [] } else server
    { server1 with buffer := server1.buffer ++ buf }

/-- The head of `Input` (lines 84-91): with bytes carried over, `data` is
appended to the buffer and the loop runs on the whole buffer; otherwise the
loop runs on `data`.  Returns the state and `buf`. -/
def stageInput {H : Type} (server : RtspServer H) (data : Bytes) : RtspServer H × Bytes :=
  if server.buffer.length > 0 then
    ({ server with buffer := server.buffer ++ data }, server.buffer ++ data)
  else (server, data)

/-- Go `Input`. Each successful iteration consumes at least one byte, so
`len(buf)` iterations suffice. -/
def Input {H : Type} (env : Env H) (server : RtspServer H) (data : Bytes) :
    Outcome (RtspServer H × Option RtspError) :=
  let staged := stageInput server data
  match inputLoop env staged.2.length staged.1 staged.2 with
  | .fault t => .fault t
  | .hang t => .hang t
  | .ret (server1, rest, some err) =>
    if err = .errNeedMore then .ret (storeRest server1 rest, none)
    else .ret (server1, some err)
  | .ret (server1, rest, none) => .ret (storeRest server1 rest, none)

/-- Feeding chunks one after the other, as the read loop of a connection does
(it calls `Input` on each chunk read and does not look at the error). -/
def feed {H : Type} (env : Env H) : RtspServer H → List Bytes → Outcome (RtspServer H)
  | server, [] => .ret server
  | server, c :: cs =>
    match Input env server c with
    | .ret (server1, _) => feed env server1 cs
    | .fault t => .fault t
    | .hang t => .hang t

/-! ## A concrete environment

The message codec is not part of `rtsp-server.go`; the instance below follows
§4.1 of the specification and is used to run the engine on concrete byte
streams. -/

/-- Bytes of an ASCII string. -/
def bytesOf (s : String) : Bytes := s.data.map (fun c => Fin.ofNat c.toNat)

/-- Text of a byte sequence. -/
def textOf (b : Bytes) : String := String.mk (b.map (fun x => Char.ofNat x.val))

/-- Split at the first blank line (CR LF CR LF): the head before it and the
bytes after it. -/
def splitHead : Bytes → Option (Bytes × Bytes)
  | [] => none
  | b :: bs =>
    if ([13, 10, 13, 10] : Bytes).isPrefixOf (b :: bs) then some ([], bs.drop 3)
    else (splitHead bs).map (fun r => (b :: r.1, r.2))

/-- Split the head into its CR LF terminated lines (`cur` is the line being
read, reversed). -/
def splitLines (cur : Bytes) : Bytes → List Bytes
  | [] => [cur.reverse]
  | b :: bs =>
    if b = 10 then (if cur.head? = some 13 then cur.tail else cur).reverse :: splitLines [] bs
    else splitLines (b :: cur) bs

/-- Split a line at every space. -/
def splitWords (cur : Bytes) : Bytes → List Bytes
  | [] => [cur.reverse]
  | b :: bs => if b = 32 then cur.reverse :: splitWords [] bs else splitWords (b :: cur) bs

/-- Split a header line `Name: Value` at its first colon; spaces in front of
the value are dropped. -/
def splitField : Bytes → Option (Bytes × Bytes)
  | [] => none
  | b :: bs =>
    if b = 58 then some ([], bs.dropWhile (fun x => x = 32))
    else (splitField bs).map (fun r => (b :: r.1, r.2))

/-- Decimal value of a digit string (other bytes count as zero). -/
def decimalOf (b : Bytes) : Nat := b.foldl (fun n x => 10 * n + (x.val - 48)) 0

/-- The header fields of the lines after the first; `none` when a line has no
colon. -/
def parseFields : List Bytes → Option HeadFiled
  | [] => some HeadFiled.empty
  | l :: ls =>
    match splitField l, parseFields ls with
    | some (k, v), some f => some ⟨(textOf k, textOf v) :: f.entries⟩
    | _, _ => none

/-- Modelled from the spec: `RtspRequest.parse` of the message codec, which is
not in `rtsp-server.go` (§4.1: first line `METHOD URI VERSION`, then
`Name: Value` lines, a blank line, then `Content-Length` body bytes;
NeedMoreData and nothing consumed while the head or the body is incomplete;
MalformedMessage otherwise). -/
def parseRequestText (b : Bytes) : Nat × Except RtspError RtspRequest :=
  match splitHead b with
  | none => (0, .error .errNeedMore)
  | some (head, rest) =>
    match splitLines [] head with
    | [] => (0, .error (.failure 1))
    | first :: lines =>
      match splitWords [] first, parseFields lines with
      | [m, u, v], some fields =>
        let n := decimalOf (bytesOf (fields.get "Content-Length"))
        if rest.length < n then (0, .error .errNeedMore)
        else
          (head.length + 4 + n,
           .ok { Method := textOf m, Uri := textOf u, Version := textOf v, Fileds := fields,
                 Body := textOf (rest.take n) })
      | _, _ => (0, .error (.failure 1))

/-- Modelled from the spec: `RtspResponse.parse` of the message codec, reduced
to what `handleResponse` keeps of it (§4.1: the bytes consumed, or
NeedMoreData while the head is incomplete). -/
def parseResponseText (b : Bytes) : Nat × Option RtspError :=
  match splitHead b with
  | none => (0, some .errNeedMore)
  | some (head, _) => (head.length + 4, none)

/-- Modelled from the spec: `RtspTransport.DecodeString` after
`NewRtspTransport`, reduced to the protocol tag (§4.2: `RTP/AVP[/TCP]`). -/
def decodeTransportText (s : String) : RtspTransport :=
  { Proto := if stringsContains s "RTP/AVP/TCP" then .TCP else .UDP,
    Client_ports := (0, 0), Server_ports := (0, 0), Interleaved := (0, 0) }

/-- Modelled from the spec: `Sdp.ParserSdp` of the SDP codec, which is not in
`rtsp-server.go` (§3: the SDP context aggregates the media descriptions; §6:
one media block per stream).  The media blocks read from the text are
appended to those the context holds; here a description is a list of media
types separated by spaces, one block for each. -/
def parserSdpText (medias : List SdpMedia) (body : String) : List SdpMedia × Option RtspError :=
  (medias ++ (splitWords [] (bytesOf body)).map (fun w =>
    { MediaType := textOf w, EncodeName := "", PayloadType := 0, ClockRate := 0,
      ChannelCount := 0, ControlUrl := textOf w, fmtp := "" }), none)

/-- Modelled from the spec: `RtspTrack.mediaDescripe`, which is not in
`rtsp-server.go` (§3: each track has one media description); here it is the
media type of the track. -/
def mediaDescripeText (t : RtspTrack) : String := t.TrackName

/-- A callback that leaves everything as it was handed. -/
def keep (h : Unit) (res : RtspResponse) : HandleResult Unit :=
  { handle := h, res := res, addTracks := [] }

/-- A video track as `NewVideoTrack` leaves it. -/
def videoTrack : RtspTrack :=
  { TrackName := "video", uri := "", transport := none, initSequence := 0, onPacket := none }

/-- An application that accepts every request; DESCRIBE registers one video
track, as `HandleDescribe` of the play server example does. -/
def acceptAll : ServerHandle Unit :=
  { HandleOption := fun h _ res => keep h res,
    HandleDescribe := fun h _ res => { handle := h, res := res, addTracks := [videoTrack] },
    HandleSetup := fun h _ res transport _ =>
      { handle := h, res := res, transport := transport, onPacket := none },
    HandleAnnounce := fun h _ _ => { handle := h, addTracks := [] },
    HandlePlay := fun h _ res _ _ => keep h res,
    HandlePause := fun h _ res => keep h res,
    HandleTeardown := fun h _ res => keep h res,
    HandleGetParameter := fun h _ res => keep h res,
    HandleSetParameter := fun h _ res => keep h res,
    HandleRecord := fun h _ res _ _ => keep h res }

/-- The application of `example_rtsp_play_server.go`: as `acceptAll`, but
`HandleSetup` accepts UDP (installing its own sink) and answers 461 to any
other transport. -/
def playServer : ServerHandle Unit :=
  { acceptAll with
    HandleSetup := fun h _ res transport _ =>
      if transport.Proto = .UDP then
        { handle := h, res := res, transport := transport, onPacket := some 0 }
      else
        { handle := h, res := { res with StatusCode := Unsupported_Transport },
          transport := transport, onPacket := none } }

/-- A concrete environment around the application `handle`. -/
def textEnv (handle : ServerHandle Unit) : Env Unit :=
  { handle := handle,
    parseRequest := parseRequestText,
    parseResponse := parseResponseText,
    trackInput := fun _ _ _ => none,
    createAuthByAuthenticate := fun t =>
      if t = "Digest" ∨ t = "Basic" then
        some { scheme := t, userName := "", passwd := "", realm := "", method := "" }
      else none,
    check := fun a h => h == a.userName ++ ":" ++ a.passwd,
    wwwAuthenticate := fun a => a.scheme ++ " realm=" ++ a.realm,
    decodeTransport := decodeTransportText,
    encodeTransport := fun t =>
      if t.Proto = .TCP then "RTP/AVP/TCP;interleaved=" ++ toString t.Interleaved.1.toNat ++ "-"
        ++ toString t.Interleaved.2.toNat
      else "RTP/AVP",
    parseRange := fun s => some s,
    encodeRange := fun s => s,
    encodeRtpInfo := fun i => "url=" ++ i.Url ++ ";seq=" ++ toString i.Seq,
    parserSdp := parserSdpText,
    mediaDescripe := mediaDescripeText,
    sdpEncode := fun _ medias => stringsJoin (medias.map (fun m => m.MediaType)) ",",
    NewAudioTrack := fun _ => { videoTrack with TrackName := "audio" },
    NewVideoTrack := fun _ => videoTrack,
    NewMetaTrack := fun _ => { videoTrack with TrackName := "application" },
    now := fun _ => "01 Jan 70 00:00:00 GMT",
    rand := fun _ i => i,
    output := fun _ _ => none }

/-- A server as `NewRtspServer` without options returns it, with an output
sink installed. -/
def freshServer : RtspServer Unit :=
  SetOutput { RtspServer.initial () with sdpAttrs := [("control", "*")] }

/-- The request of the end-to-end example of the specification. -/
def optionsRequest : Bytes := bytesOf "OPTIONS rtsp://h/s RTSP/1.0\r\nCSeq: 1\r\n\r\n"

/-- The DESCRIBE request of a play session. -/
def describeRequest : Bytes := bytesOf "DESCRIBE rtsp://h/s RTSP/1.0\r\nCSeq: 2\r\n\r\n"

/-- A SETUP request for the first track over TCP-interleaved transport. -/
def setupTcpRequest : Bytes :=
  bytesOf "SETUP rtsp://h/s/track0 RTSP/1.0\r\nCSeq: 3\r\nTransport: RTP/AVP/TCP;unicast\r\n\r\n"

/-- The state a run returned with (the initial state if it did not return). -/
def serverOf {H : Type} (init : RtspServer H) : Outcome (RtspServer H) → RtspServer H
  | .ret s => s
  | _ => init

/-- The engine after DESCRIBE and a TCP-interleaved SETUP of its video track,
with an application that accepts both. -/
def tcpServer : RtspServer Unit :=
  serverOf freshServer (feed (textEnv acceptAll) freshServer [describeRequest, setupTcpRequest])

/-- The transport descriptor that SETUP leaves on the video track of
`tcpServer`: channel pair (0, 1). -/
def tcpTransport : RtspTransport :=
  { Proto := .TCP, Client_ports := (0, 0), Server_ports := (0, 0), Interleaved := (0, 1) }

/-- The video track of `tcpServer`. -/
def tcpTrack : RtspTrack :=
  { TrackName := "video", uri := "rtsp://h/s/track0", transport := some tcpTransport,
    initSequence := 0, onPacket := some (.interleavedSink tcpTransport) }

/-- An RTCP frame on channel 1 with declared length 65532 (`0xFFFC`), complete. -/
def rtcpFrame65532 : Bytes := [36, 1, 255, 252] ++ List.replicate 65532 0

/-! ## Observations on runs -/

/-- Events of a run, whether it returned or not. -/
def eventsOf {H : Type} : Outcome (RtspServer H) → List Event
  | .ret s => s.trace
  | .fault t => t
  | .hang t => t

/-- Whether a call ended in a run-time fault. -/
def faulted {α : Type} : Outcome α → Bool
  | .fault _ => true
  | _ => false

/-- The responses written, in order. -/
def responsesOf : List Event → List RtspResponse
  | [] => []
  | .write res :: es => res :: responsesOf es
  | _ :: es => responsesOf es

/-- The capability callbacks invoked, in order. -/
def callbacksOf : List Event → List HandleCall
  | [] => []
  | .callback c :: es => c :: callbacksOf es
  | _ :: es => callbacksOf es

/-- The channel pairs allocated, in order. -/
def pairsOf : List Event → List (Int × Int)
  | [] => []
  | .interleave _ a b :: es => (a, b) :: pairsOf es
  | _ :: es => pairsOf es

/-! ## Predicates used in the statements -/

/-- The complete units at the front of `buf` are processed: `Units env s buf
s1 rest` holds when the loop of `Input`, started in state `s` on `buf`,
processes some units one after the other, each without error and consuming
between one byte and all of what is left, and then stands in state `s1` in
front of `rest`. -/
inductive Units {H : Type} (env : Env H) :
    RtspServer H → Bytes → RtspServer H → Bytes → Prop
  | stop (server : RtspServer H) (buf : Bytes) : Units env server buf server buf
  | unit (server : RtspServer H) (buf : Bytes) (server1 : RtspServer H) (ret : Nat)
      (server2 : RtspServer H) (rest : Bytes)
      (hstep : inputUnit env server buf = .ret (server1, ret, none))
      (hpos : 0 < ret) (hle : ret ≤ buf.length)
      (hrest : Units env server1 (buf.drop ret) server2 rest) :
      Units env server buf server2 rest

/-- Whether the request passes the authentication gate (lines 196-201): no
credentials are configured, or the authenticator accepts the Authorization
header of the request. -/
def authPasses {H : Type} (env : Env H) (server : RtspServer H) (request : RtspRequest) :
    Bool :=
  if server.userName ≠ "" ∧ server.passwd ≠ "" then
    match server.auth with
    | none => false
    | some a =>
      request.Fileds.Has Authorization &&
        env.check { a with method := request.Method } (request.Fileds.get Authorization)
  else true

/-- The engine state behind the authentication gate: with credentials
configured, `setMethod` has been called on the authenticator. -/
def afterAuth {H : Type} (server : RtspServer H) (request : RtspRequest) : RtspServer H :=
  if server.userName ≠ "" ∧ server.passwd ≠ "" then
    { server with auth := server.auth.map (fun a => { a with method := request.Method }) }
  else server

/-- Whether the request passes the session gate (lines 207-212): no session id
is active, or the Session header of the request carries it. -/
def sessionPasses {H : Type} (server : RtspServer H) (request : RtspRequest) : Bool :=
  decide (server.sessionId = "") ||
    (request.Fileds.Has Session && decide (request.Fileds.get Session = server.sessionId))

/-- The events `sendRespones` adds for response `res`: the stamped response
when an output sink is installed, nothing otherwise. -/
def written {H : Type} (env : Env H) (output : Bool) (trace : List Event)
    (req : RtspRequest) (res : RtspResponse) : List Event :=
  if output then [Event.write (stampResponse env trace req res)] else []

/-- The response with which `handleRequest` starts (lines 203-206). -/
def okResponse : RtspResponse :=
  { Version := RTSP_1_0, StatusCode := 200, Fileds := HeadFiled.empty, Body := "" }

/-- The status codes of the responses written, in order. -/
def statusesOf (trace : List Event) : List Nat := (responsesOf trace).map (fun r => r.StatusCode)

/-- The call of `HandleSetup` that the SETUP case makes once it has matched
track `track0` (lines 234-237): the track carries the request URI, the
transport descriptor is the decoded Transport header. -/
def setupCall {H : Type} (env : Env H) (server : RtspServer H) (request : RtspRequest)
    (track0 : RtspTrack) : SetupResult H :=
  env.handle.HandleSetup server.handle request okResponse
    (env.decodeTransport (request.Fileds.get Transport)) { track0 with uri := request.Uri }

/-- The sink of the matched track after `HandleSetup` returned: the one the
callback installed, else the one the track had. -/
def sinkAfterCall {H : Type} (r : SetupResult H) (track0 : RtspTrack) : Option PacketSink :=
  match r.onPacket with
  | some id => some (.app id)
  | none => track0.onPacket

/-- The play server after DESCRIBE: one video track with control URI "track0". -/
def describedServer : RtspServer Unit :=
  serverOf freshServer (feed (textEnv playServer) freshServer [describeRequest])

/-- Between `s` and `s1` the session id and the channel counter are the same,
no channel pair was allocated, and the output sink is the same. -/
def Untouched {H : Type} (s s1 : RtspServer H) : Prop :=
  s1.sessionId = s.sessionId ∧ s1.interleaved = s.interleaved ∧
    pairsOf s1.trace = pairsOf s.trace ∧ s1.output = s.output

/-- A string of exactly ten decimal digits. -/
def tenDigits (s : String) : Bool := s.data.length == 10 && s.data.all (fun c => c.isDigit)

/-- The pairs (0,1), (2,3), ..., (2n-2, 2n-1). -/
def pairsInOrder (n : Nat) : List (Int × Int) :=
  (List.range n).map (fun k => ((2 * k : Nat), (2 * k + 1 : Nat)))

/-- The event that logs the `HandleSetup` call for matched track `track0`. -/
def setupEvent {H : Type} (env : Env H) (request : RtspRequest) (track0 : RtspTrack) : Event :=
  Event.callback (.setup request (env.decodeTransport (request.Fileds.get Transport))
    { track0 with uri := request.Uri })

/-- The session id after a SETUP that the callback accepted (lines 239-246):
a fresh one if none was active, the active one otherwise. -/
def sessionAfter {H : Type} (env : Env H) (server : RtspServer H) (request : RtspRequest)
    (track0 : RtspTrack) : String :=
  if server.sessionId = "" then newSessionId env (server.trace ++ [setupEvent env request track0])
  else server.sessionId

/-- The request at the front of `b` is a SETUP that the engine commits: it
parses, passes both gates, matches track `track0` at position `i` under key
`key`, and `HandleSetup` leaves status 200. -/
def AcceptedSetup {H : Type} (env : Env H) (server : RtspServer H) (b : Bytes)
    (request : RtspRequest) (i : Nat) (key : String) (track0 : RtspTrack) : Prop :=
  (env.parseRequest b).2 = .ok request ∧ authPasses env server request = true ∧
    sessionPasses server request = true ∧ request.Method = SETUP ∧
    matchTrack request.Uri server.tracks = some (i, key, track0) ∧
    (setupCall env server request track0).res.StatusCode = 200

/-- What one unit of input may do to the session state: an active session id
stays, and either the channel counter stays and no pair is allocated, or the
pair (counter, counter + 1) is allocated and the counter advances by two. -/
def StepEffect {H : Type} (s s1 : RtspServer H) : Prop :=
  (s.sessionId ≠ "" → s1.sessionId = s.sessionId) ∧
    ((s1.interleaved = s.interleaved ∧ pairsOf s1.trace = pairsOf s.trace) ∨
     (s1.interleaved = s.interleaved + 2 ∧
      pairsOf s1.trace = pairsOf s.trace ++ [(s.interleaved, s.interleaved + 1)]))

/-- The session id is empty, or it is ten digits; the channel counter and the
log of allocated pairs agree: after n allocations the pairs are (0,1), ...,
(2n-2, 2n-1) and the counter is 2n. -/
def PairsInOrder {H : Type} (s : RtspServer H) : Prop :=
  pairsOf s.trace = pairsInOrder (pairsOf s.trace).length ∧
    s.interleaved = ((2 * (pairsOf s.trace).length : Nat) : Int)

/-- The channel pairs allocated, each with the name of the track it was given
to, in order. -/
def allocationsOf : List Event → List (String × Int × Int)
  | [] => []
  | .interleave t a b :: es => (t, a, b) :: allocationsOf es
  | _ :: es => allocationsOf es

/-- A second SETUP of the first track, within the session. -/
def setupAgainRequest : Bytes :=
  bytesOf "SETUP rtsp://h/s/track0 RTSP/1.0\r\nCSeq: 4\r\nSession: 0123456789\r\nTransport: RTP/AVP/TCP;unicast\r\n\r\n"

/-- ANNOUNCE of an audio and a video stream. -/
def announceRequest : Bytes :=
  bytesOf "ANNOUNCE rtsp://h/s RTSP/1.0\r\nCSeq: 1\r\nContent-Length: 11\r\n\r\naudio video"

/-- SETUP of the audio stream over TCP-interleaved transport. -/
def setupAudioRequest : Bytes :=
  bytesOf "SETUP rtsp://h/s/audio RTSP/1.0\r\nCSeq: 2\r\nTransport: RTP/AVP/TCP;unicast\r\n\r\n"

/-- SETUP of the video stream over TCP-interleaved transport, within the session. -/
def setupVideoRequest : Bytes :=
  bytesOf "SETUP rtsp://h/s/video RTSP/1.0\r\nCSeq: 3\r\nSession: 0123456789\r\nTransport: RTP/AVP/TCP;unicast\r\n\r\n"

/-- The engine after a record session announced and set up two streams. -/
def recordServer : RtspServer Unit :=
  serverOf freshServer (feed (textEnv acceptAll) freshServer
    [announceRequest, setupAudioRequest, setupVideoRequest])

/-- The request the message codec reads at the front of `b`, if any. -/
def requestOf (b : Bytes) : Option RtspRequest :=
  match (parseRequestText b).2 with
  | .ok r => some r
  | .error _ => none

/-- A SETUP request for a track that does not exist, without Session header. -/
def setupUnknownRequest : Bytes :=
  bytesOf "SETUP rtsp://h/s/nothing RTSP/1.0\r\nCSeq: 4\r\nTransport: RTP/AVP/TCP;unicast\r\n\r\n"

/-- A fresh engine configured with `WithUserInfo("u", "p")`, output installed. -/
def authFreshServer : RtspServer Unit :=
  SetOutput (serverOf freshServer
    (NewRtspServer (textEnv acceptAll) () [.WithUserInfo "u" "p"]))

/-- DESCRIBE with valid credentials. -/
def describeAuthRequest : Bytes :=
  bytesOf "DESCRIBE rtsp://h/s RTSP/1.0\r\nCSeq: 2\r\nAuthorization: u:p\r\n\r\n"

/-- SETUP of the first track with valid credentials. -/
def setupAuthRequest : Bytes :=
  bytesOf "SETUP rtsp://h/s/track0 RTSP/1.0\r\nCSeq: 3\r\nAuthorization: u:p\r\nTransport: RTP/AVP/TCP;unicast\r\n\r\n"

/-- The engine with credentials after DESCRIBE and SETUP: a session is active. -/
def authSessionServer : RtspServer Unit :=
  serverOf authFreshServer
    (feed (textEnv acceptAll) authFreshServer [describeAuthRequest, setupAuthRequest])

/-- The engine after the OPTIONS request of the specification. -/
def optionsServer : RtspServer Unit :=
  serverOf freshServer (feed (textEnv acceptAll) freshServer [optionsRequest])


/-- Whether a track owns channel `c`, that is whether `c` is one of the two
channels of its pair; `none` for a track without a transport descriptor. -/
def ownsChannel (t : RtspTrack) (c : Nat) : Option Bool :=
  t.transport.map
    (fun tr => decide (tr.Interleaved.1 = (c : Int) ∨ tr.Interleaved.2 = (c : Int)))

/-! ## Predicates and scenarios for method dispatch -/

/-- Between `s` and `s1` the output sink is the same and the events added are
not written responses. -/
def Quiet {H : Type} (s s1 : RtspServer H) : Prop :=
  s1.output = s.output ∧ ∃ pre, s1.trace = s.trace ++ pre ∧ responsesOf pre = []

/-- The time range PLAY and RECORD read from the Range header (lines 298-300,
323-325). -/
def rangeOf {H : Type} (env : Env H) (request : RtspRequest) : Option String :=
  if request.Fileds.Has Range then env.parseRange (request.Fileds.get Range) else none

/-- The response object as the capability callback of the request's method
leaves it: `none` when no callback is handed the response (ANNOUNCE, a SETUP
that matches no track, a method outside the switch). -/
def calledBack {H : Type} (env : Env H) (server : RtspServer H) (request : RtspRequest) :
    Option RtspResponse :=
  if request.Method = OPTIONS then
    some (env.handle.HandleOption server.handle request okResponse).res
  else if request.Method = DESCRIBE then
    some (env.handle.HandleDescribe server.handle request okResponse).res
  else if request.Method = SETUP then
    (matchTrack request.Uri server.tracks).map
      (fun m => (setupCall env server request m.2.2).res)
  else if request.Method = ANNOUNCE then none
  else if request.Method = PLAY then
    some (env.handle.HandlePlay server.handle request okResponse (rangeOf env request)
      (gatherRtpInfo server.tracks)).res
  else if request.Method = RECORD then
    some (env.handle.HandleRecord server.handle request okResponse (rangeOf env request)
      (gatherRtpInfo server.tracks)).res
  else if request.Method = TEARDOWN then
    some (env.handle.HandleTeardown server.handle request okResponse).res
  else if request.Method = PAUSE then
    some (env.handle.HandlePause server.handle request okResponse).res
  else if request.Method = SET_PARAMETER then
    some (env.handle.HandleSetParameter server.handle request okResponse).res
  else if request.Method = GET_PARAMETER then
    some (env.handle.HandleGetParameter server.handle request okResponse).res
  else none

/-- The value of the Public header of an OPTIONS response (lines 215-216). -/
def publicMethods : String :=
  "OPTIONS,SET_PARAMETER,GET_PARAMETER,SETUP,DESCRIBE,PLAY,ANNOUNCE,RECORD,TEARDOWN,PAUSE"

/-- The events a run added to the log `before`. -/
def addedTo (before : List Event) (o : Outcome (RtspServer Unit)) : List Event :=
  (eventsOf o).drop before.length

/-- PLAY within the session of `tcpServer`. -/
def playRequest : Bytes :=
  bytesOf "PLAY rtsp://h/s RTSP/1.0\r\nCSeq: 5\r\nSession: 0123456789\r\n\r\n"

/-- RECORD within the session of `tcpServer`. -/
def recordRequest : Bytes :=
  bytesOf "RECORD rtsp://h/s RTSP/1.0\r\nCSeq: 5\r\nSession: 0123456789\r\n\r\n"

/-- TEARDOWN within the session of `tcpServer`. -/
def teardownRequest : Bytes :=
  bytesOf "TEARDOWN rtsp://h/s RTSP/1.0\r\nCSeq: 6\r\nSession: 0123456789\r\n\r\n"

/-- OPTIONS within the session of `tcpServer`. -/
def optionsSessionRequest : Bytes :=
  bytesOf "OPTIONS rtsp://h/s RTSP/1.0\r\nCSeq: 7\r\nSession: 0123456789\r\n\r\n"

/-! ## Scenarios for track registration and the input loop -/

/-- The play server after two DESCRIBE requests: its `HandleDescribe`
registers the video track each time. -/
def describedTwiceServer : RtspServer Unit :=
  serverOf freshServer (feed (textEnv playServer) freshServer [describeRequest, describeRequest])

/-- The bodies of the responses written, in order. -/
def bodiesOf (trace : List Event) : List String := (responsesOf trace).map (fun r => r.Body)

/-- A SETUP request for the first track over UDP, addressed through another
host name; its URI contains the control URI "track0" that `AddTrack` gave the
track. -/
def setupUdpOtherHostRequest : Bytes :=
  bytesOf "SETUP rtsp://127.0.0.1/s/track0 RTSP/1.0\r\nCSeq: 4\r\nTransport: RTP/AVP;unicast\r\n\r\n"

/-- The play server after DESCRIBE and a SETUP over TCP, which its
`HandleSetup` rejects with 461. -/
def rejectedServer : RtspServer Unit :=
  serverOf describedServer (feed (textEnv playServer) describedServer [setupTcpRequest])

/-! ## Scenarios for a fatal error in the middle of the input -/

/-- The first line of the OPTIONS request of the specification: an incomplete
unit. -/
def optionsFirstLine : Bytes := bytesOf "OPTIONS rtsp://h/s RTSP/1.0\r\n"

/-- The rest of that OPTIONS request, followed by a complete unit that is
not a well-formed message. -/
def optionsRestThenMalformed : Bytes := bytesOf "CSeq: 1\r\n\r\nBAD\r\n\r\n"

/-- The state and error `Input` returned with. -/
def resultOf {H : Type} (init : RtspServer H) :
    Outcome (RtspServer H × Option RtspError) → RtspServer H × Option RtspError
  | .ret r => r
  | _ => (init, none)

/-- The engine after the first line of the OPTIONS request was read: the line
is carried over. -/
def carryServer : RtspServer Unit :=
  (resultOf freshServer (Input (textEnv acceptAll) freshServer optionsFirstLine)).1

/-- The engine after the next read, which completes the OPTIONS request and
ends in a malformed unit. -/
def fatalServer : RtspServer Unit :=
  (resultOf carryServer (Input (textEnv acceptAll) carryServer optionsRestThenMalformed)).1

/-! ## Scenarios for the construction options -/

/-- An engine configured with `WithUserInfo("u", "p")` and
`WithAuthType("Basic")`, output installed. -/
def authTypeServer : RtspServer Unit :=
  SetOutput (serverOf freshServer
    (NewRtspServer (textEnv acceptAll) () [.WithUserInfo "u" "p", .WithAuthType "Basic"]))

/-! ## Scenario for a callback that rejects a SETUP -/

/-- An application whose `HandleSetup` answers 461 to every transport, after
writing a Session and a Transport header into the response and installing its
own packet sink on the track. -/
def rejectLoud : ServerHandle Unit :=
  { acceptAll with
    HandleSetup := fun h _ res transport _ =>
      { handle := h,
        res := { res with
                 StatusCode := Unsupported_Transport,
                 Fileds := (res.Fileds.set Session "none").set Transport "RTP/AVP" },
        transport := transport, onPacket := some 7 } }


set_option maxRecDepth 100000

/-! ## Theorems: interleaved frames -/

theorem length_interleavedPacket (t : RtspTransport) (b : Bytes) (r : Bool) :
    (interleavedPacket t b r).length = 4 + b.length := by
  simp [interleavedPacket]; omega

theorem channel_interleavedPacket (t : RtspTransport) (b : Bytes) (r : Bool) :
    (interleavedPacket t b r).getD 1 0 =
      if r then byteOfInt t.Interleaved.2 else byteOfInt t.Interleaved.1 := by
  simp [interleavedPacket]

theorem uint16_interleavedPacket (t : RtspTransport) (b : Bytes) (r : Bool) :
    bigEndianUint16 (interleavedPacket t b r) = b.length % 65536 := by
  simp only [bigEndianUint16, interleavedPacket, List.cons_append, List.nil_append,
    List.getD_cons_succ, List.getD_cons_zero, Fin.ofNat]
  omega

theorem byteOfInt_val (c : Nat) (h : c ≤ 255) : (byteOfInt (c : Int)).val = c := by
  simp only [byteOfInt, Fin.ofNat]
  omega

/-- A complete frame goes to the routing loop with its channel and length. -/
theorem hanleRtpOverRtsp_complete {H : Type} (env : Env H) (server : RtspServer H)
    (packet : Bytes) (h4 : 4 ≤ packet.length)
    (hlen : bigEndianUint16 packet ≤ packet.length - 4) :
    hanleRtpOverRtsp env server packet =
      rtpRoute env server packet (packet.getD 1 0).val (bigEndianUint16 packet)
        server.tracks := by
  unfold hanleRtpOverRtsp
  rw [if_neg (by omega)]
  simp only []
  rw [if_neg (by omega)]

/-- A frame that is not complete yet asks for more data and changes nothing. -/
theorem hanleRtpOverRtsp_incomplete {H : Type} (env : Env H) (server : RtspServer H)
    (packet : Bytes)
    (hshort : packet.length < 4 ∨ packet.length < 4 + bigEndianUint16 packet) :
    hanleRtpOverRtsp env server packet = .ret (server, 0, some .errNeedMore) := by
  unfold hanleRtpOverRtsp
  by_cases h : packet.length < 4
  · rw [if_pos h]
  · rw [if_neg h]
    simp only []
    rw [if_pos (by omega)]

/-- A frame on a channel that no track owns is consumed and nothing is delivered. -/
theorem rtpRoute_unowned {H : Type} (env : Env H) (server : RtspServer H) (packet : Bytes)
    (c n : Nat) (tracks : List (String × RtspTrack))
    (hfree : ∀ kt ∈ tracks, ownsChannel kt.2 c = some false) :
    rtpRoute env server packet c n tracks = .ret (server, 4 + n, none) := by
  induction tracks with
  | nil => rfl
  | cons kt rest ih =>
    obtain ⟨k, t⟩ := kt
    have h0 := hfree (k, t) (List.mem_cons_self _ _)
    have hrest : ∀ kt ∈ rest, ownsChannel kt.2 c = some false :=
      fun kt hkt => hfree kt (List.mem_cons_of_mem _ hkt)
    unfold ownsChannel at h0
    simp only [] at h0
    unfold rtpRoute
    cases htr : t.transport with
    | none => simp [htr] at h0
    | some tr =>
      simp only [htr, Option.some.injEq, decide_eq_false_iff_not, not_or] at h0
      simp only []
      rw [if_neg (by simpa using h0)]
      exact ih hrest

/-- The first track in `range` order that owns the channel gets the frame, if
the slice `packet[4:4+length]` can be taken. -/
theorem rtpRoute_owned {H : Type} (env : Env H) (server : RtspServer H) (packet : Bytes)
    (c n : Nat) (pre post : List (String × RtspTrack)) (k : String) (t : RtspTrack)
    (tr : RtspTransport)
    (hpre : ∀ kt ∈ pre, ownsChannel kt.2 c = some false)
    (htr : t.transport = some tr)
    (hown : tr.Interleaved.1 = (c : Int) ∨ tr.Interleaved.2 = (c : Int)) :
    rtpRoute env server packet c n (pre ++ (k, t) :: post) =
      match goSlice packet 4 ((4 + n) % 65536) with
      | none => .fault server.trace
      | some payload =>
        .ret ({ server with
                trace := server.trace ++
                  [Event.deliver t.TrackName payload (decide (tr.Interleaved.2 = (c : Int)))] },
              4 + n, env.trackInput t payload (decide (tr.Interleaved.2 = (c : Int)))) := by
  induction pre with
  | nil =>
    simp only [List.nil_append]
    unfold rtpRoute
    simp only [htr]
    rw [if_pos (by simpa using hown)]
  | cons kt rest ih =>
    obtain ⟨k0, t0⟩ := kt
    have h0 := hpre (k0, t0) (List.mem_cons_self _ _)
    have hrest : ∀ kt ∈ rest, ownsChannel kt.2 c = some false :=
      fun kt hkt => hpre kt (List.mem_cons_of_mem _ hkt)
    unfold ownsChannel at h0
    simp only [List.cons_append]
    unfold rtpRoute
    cases htr0 : t0.transport with
    | none => simp [htr0] at h0
    | some tr0 =>
      simp only [htr0, Option.map_some', Option.some.injEq, decide_eq_false_iff_not, not_or] at h0
      simp only []
      rw [if_neg (by simpa using h0)]
      exact ih hrest

theorem goSlice_payload (packet : Bytes) (n : Nat) (hn : n ≤ 65531)
    (hlen : 4 + n ≤ packet.length) :
    goSlice packet 4 ((4 + n) % 65536) = some ((packet.drop 4).take n) := by
  have h1 : (4 + n) % 65536 = 4 + n := Nat.mod_eq_of_lt (by omega)
  unfold goSlice
  rw [h1, if_pos ⟨by omega, hlen⟩]
  congr 1
  rw [List.drop_take]
  congr 1
  omega

theorem goSlice_wrapped (packet : Bytes) (n : Nat) (hn : 65532 ≤ n) (hn2 : n ≤ 65535) :
    goSlice packet 4 ((4 + n) % 65536) = none := by
  have h1 : (4 + n) % 65536 < 4 := by omega
  unfold goSlice
  rw [if_neg (by omega)]

/-- Round trip of the interleaved framing for payloads of at most 65531 bytes:
the frame the sink of a track builds is consumed whole by `hanleRtpOverRtsp`,
and the track owning the channel is handed the payload again. -/
theorem interleaved_roundtrip_upto_65531 {H : Type} (env : Env H) (server : RtspServer H)
    (pre post : List (String × RtspTrack)) (k : String) (t : RtspTrack)
    (tr : RtspTransport) (b : Bytes) (r : Bool) (c : Nat)
    (htracks : server.tracks = pre ++ (k, t) :: post)
    (hpre : ∀ kt ∈ pre, ownsChannel kt.2 c = some false)
    (htr : t.transport = some tr)
    (hc : c ≤ 255)
    (hchan : (if r then tr.Interleaved.2 else tr.Interleaved.1) = (c : Int))
    (hpair : r = false → tr.Interleaved.2 ≠ (c : Int))
    (hb : b.length ≤ 65531) :
    hanleRtpOverRtsp env server (interleavedPacket tr b r) =
      .ret ({ server with trace := server.trace ++ [Event.deliver t.TrackName b r] },
            4 + b.length, env.trackInput t b r) := by
  have hlen := length_interleavedPacket tr b r
  have hu := uint16_interleavedPacket tr b r
  have hmod : b.length % 65536 = b.length := Nat.mod_eq_of_lt (by omega)
  have hch : ((interleavedPacket tr b r).getD 1 0).val = c := by
    rw [channel_interleavedPacket]
    cases r
    · simp only [Bool.false_eq_true, if_false] at hchan ⊢
      rw [hchan]; exact byteOfInt_val c hc
    · simp only [if_true] at hchan ⊢
      rw [hchan]; exact byteOfInt_val c hc
  rw [hanleRtpOverRtsp_complete env server _ (by omega) (by omega), hu, hmod, hch, htracks]
  have hown : tr.Interleaved.1 = (c : Int) ∨ tr.Interleaved.2 = (c : Int) := by
    cases r
    · exact Or.inl (by simpa using hchan)
    · exact Or.inr (by simpa using hchan)
  rw [rtpRoute_owned env server _ c b.length pre post k t tr hpre htr hown,
    goSlice_payload _ _ hb (by omega)]
  have hpay : ((interleavedPacket tr b r).drop 4).take b.length = b := by
    simp [interleavedPacket]
  have hr : decide (tr.Interleaved.2 = (c : Int)) = r := by
    cases r
    · simpa using hpair rfl
    · simpa using hchan
  simp only [hpay, hr, htracks]

theorem bigEndianUint16_le (packet : Bytes) : bigEndianUint16 packet ≤ 65535 := by
  have h2 := (packet.getD 2 0).isLt
  have h3 := (packet.getD 3 0).isLt
  unfold bigEndianUint16
  omega

/-- A complete frame whose declared length is 65532 or more, on a channel that
a track owns, faults: the slice bound `4+length` wraps around in `uint16`. -/
theorem hanleRtpOverRtsp_wrap_fault {H : Type} (env : Env H) (server : RtspServer H)
    (packet : Bytes) (pre post : List (String × RtspTrack)) (k : String) (t : RtspTrack)
    (tr : RtspTransport)
    (hn : 65532 ≤ bigEndianUint16 packet)
    (hlen : 4 + bigEndianUint16 packet ≤ packet.length)
    (htracks : server.tracks = pre ++ (k, t) :: post)
    (hpre : ∀ kt ∈ pre, ownsChannel kt.2 (packet.getD 1 0).val = some false)
    (htr : t.transport = some tr)
    (hown : tr.Interleaved.1 = ((packet.getD 1 0).val : Int) ∨
      tr.Interleaved.2 = ((packet.getD 1 0).val : Int)) :
    hanleRtpOverRtsp env server packet = .fault server.trace := by
  rw [hanleRtpOverRtsp_complete env server _ (by omega) (by omega), htracks,
    rtpRoute_owned env server _ _ _ pre post k t tr hpre htr hown,
    goSlice_wrapped _ _ hn (bigEndianUint16_le packet)]

/-- Routing of a complete frame whose declared length is at most 65531:
`4+length` bytes are consumed; the first track in `range` order that owns the
channel is handed the payload, as RTCP exactly when the channel is the second
of its pair; when no track owns the channel nothing is delivered. -/
theorem hanleRtpOverRtsp_routes {H : Type} (env : Env H) (server : RtspServer H)
    (packet : Bytes)
    (hn : bigEndianUint16 packet ≤ 65531)
    (hlen : 4 + bigEndianUint16 packet ≤ packet.length) :
    ((∀ kt ∈ server.tracks, ownsChannel kt.2 (packet.getD 1 0).val = some false) →
      hanleRtpOverRtsp env server packet =
        .ret (server, 4 + bigEndianUint16 packet, none)) ∧
    (∀ (pre post : List (String × RtspTrack)) (k : String) (t : RtspTrack)
        (tr : RtspTransport),
      server.tracks = pre ++ (k, t) :: post →
      (∀ kt ∈ pre, ownsChannel kt.2 (packet.getD 1 0).val = some false) →
      t.transport = some tr →
      (tr.Interleaved.1 = ((packet.getD 1 0).val : Int) ∨
        tr.Interleaved.2 = ((packet.getD 1 0).val : Int)) →
      hanleRtpOverRtsp env server packet =
        .ret ({ server with
                trace := server.trace ++
                  [Event.deliver t.TrackName ((packet.drop 4).take (bigEndianUint16 packet))
                    (decide (tr.Interleaved.2 = ((packet.getD 1 0).val : Int)))] },
              4 + bigEndianUint16 packet,
              env.trackInput t ((packet.drop 4).take (bigEndianUint16 packet))
                (decide (tr.Interleaved.2 = ((packet.getD 1 0).val : Int))))) := by
  constructor
  · intro hfree
    rw [hanleRtpOverRtsp_complete env server _ (by omega) (by omega)]
    exact rtpRoute_unowned env server _ _ _ _ hfree
  · intro pre post k t tr htracks hpre htr hown
    rw [hanleRtpOverRtsp_complete env server _ (by omega) (by omega), htracks,
      rtpRoute_owned env server _ _ _ pre post k t tr hpre htr hown,
      goSlice_payload _ _ hn hlen]
    simp only [htracks]

theorem tcpServer_tracks : tcpServer.tracks = [("video", tcpTrack)] := by decide

/-- C2 (failing input): the engine after a TCP-interleaved SETUP holds a video
track with channel pair (0, 1) and the interleaving sink; the frame that sink
builds for a 65535-byte RTP packet, handed to `hanleRtpOverRtsp` of that
engine, is not consumed: the call faults on the slice `packet[4:4+length]`. -/
theorem interleaved_roundtrip_faults_at_65535 :
    tcpServer.tracks = [("video", tcpTrack)] ∧
    tcpTrack.onPacket = some (.interleavedSink tcpTransport) ∧
    hanleRtpOverRtsp (textEnv acceptAll) tcpServer
      (interleavedPacket tcpTransport (List.replicate 65535 0) false) =
        .fault tcpServer.trace := by
  refine ⟨tcpServer_tracks, rfl, ?_⟩
  have hlen := length_interleavedPacket tcpTransport (List.replicate 65535 0) false
  have hu := uint16_interleavedPacket tcpTransport (List.replicate 65535 0) false
  have hch := channel_interleavedPacket tcpTransport (List.replicate 65535 0) false
  rw [List.length_replicate] at hlen hu
  have hc0 : ((interleavedPacket tcpTransport (List.replicate 65535 0) false).getD 1 0).val
      = 0 := by
    rw [hch]; decide
  refine hanleRtpOverRtsp_wrap_fault _ _ _ [] [] "video" tcpTrack tcpTransport
    (by omega) (by omega) tcpServer_tracks (by intro kt hkt; cases hkt) rfl ?_
  rw [hc0]; exact Or.inl rfl

/-- C10 (failing input): on the engine whose video track owns the channel pair
(0, 1), a complete frame on channel 1 with declared length 65532 is at the
front of the buffer; `hanleRtpOverRtsp` neither consumes it nor delivers its
payload as RTCP: the call faults on the slice `packet[4:4+length]`. -/
theorem hanleRtpOverRtsp_faults_at_65532 :
    rtcpFrame65532.length = 4 + 65532 ∧
    (rtcpFrame65532.getD 1 0).val = 1 ∧
    bigEndianUint16 rtcpFrame65532 = 65532 ∧
    tcpServer.tracks = [("video", tcpTrack)] ∧
    tcpTrack.transport = some tcpTransport ∧
    tcpTransport.Interleaved = (0, 1) ∧
    hanleRtpOverRtsp (textEnv acceptAll) tcpServer rtcpFrame65532 =
      .fault tcpServer.trace := by
  have hcons : rtcpFrame65532 = 36 :: 1 :: 255 :: 252 :: List.replicate 65532 0 := by
    simp only [rtcpFrame65532, List.cons_append, List.nil_append]
  have hlen : rtcpFrame65532.length = 65536 := by
    rw [hcons, List.length_cons, List.length_cons, List.length_cons, List.length_cons,
      List.length_replicate]
  have hch : (rtcpFrame65532.getD 1 0).val = 1 := by
    rw [hcons]; simp only [List.getD_cons_succ, List.getD_cons_zero]; decide
  have hu : bigEndianUint16 rtcpFrame65532 = 65532 := by
    rw [hcons]; simp only [bigEndianUint16, List.getD_cons_succ, List.getD_cons_zero]; decide
  refine ⟨hlen, hch, hu, tcpServer_tracks, rfl, rfl, ?_⟩
  refine hanleRtpOverRtsp_wrap_fault _ _ _ [] [] "video" tcpTrack tcpTransport
    (by omega) (by omega) tcpServer_tracks (by intro kt hkt; cases hkt) rfl ?_
  rw [hch]; exact Or.inr rfl

/-! ## Theorems: chunked input -/

theorem NewRtspServer_no_options :
    NewRtspServer (textEnv acceptAll) () [] =
      .ret { RtspServer.initial () with sdpAttrs := [("control", "*")] } := by
  rfl

/-- C1 (failing input): the stream made of one space followed by the OPTIONS
request of the specification, on a fresh engine.  Fed whole, the request is
dispatched (one `HandleOption` call, one 200 response written) and `Input`
returns.  Fed as the two chunks " " and the request, the first `Input` call
faults in `handleRtspMessage` before anything is dispatched. -/
theorem chunked_feed_differs_from_whole :
    eventsOf (feed (textEnv acceptAll) freshServer [[32] ++ optionsRequest]) =
      [Event.callback (.option
         { Method := "OPTIONS", Uri := "rtsp://h/s", Version := "RTSP/1.0",
           Fileds := ⟨[("CSeq", "1")]⟩, Body := "" }),
       Event.write
         { Version := "RTSP/1.0", StatusCode := 200,
           Fileds := ⟨[("Public", "OPTIONS,SET_PARAMETER,GET_PARAMETER,SETUP,DESCRIBE,PLAY,ANNOUNCE,RECORD,TEARDOWN,PAUSE"),
                       ("CSeq", "1"), ("Date", "01 Jan 70 00:00:00 GMT")]⟩,
           Body := "" }] ∧
    faulted (feed (textEnv acceptAll) freshServer [[32] ++ optionsRequest]) = false ∧
    faulted (feed (textEnv acceptAll) freshServer [[32], optionsRequest]) = true ∧
    eventsOf (feed (textEnv acceptAll) freshServer [[32], optionsRequest]) = [] := by
  refine ⟨by decide, by decide, by decide, by decide⟩

/-! ## Theorems: the input loop -/

theorem storeRest_eq {H : Type} (server : RtspServer H) (buf : Bytes) :
    storeRest server buf = { server with buffer := buf } := by
  unfold storeRest
  by_cases h : buf.length = 0
  · rw [if_pos h]
    have : buf = [] := List.length_eq_zero.mp h
    rw [this]
  · rw [if_neg h]
    by_cases hb : server.buffer.length > 0
    · simp only [if_pos hb, List.nil_append]
    · have : server.buffer = [] := List.length_eq_zero.mp (by omega)
      simp only [if_neg hb]
      simp only [this, List.nil_append]

theorem stageInput_bytes {H : Type} (server : RtspServer H) (data : Bytes) :
    (stageInput server data).2 = server.buffer ++ data := by
  unfold stageInput
  by_cases hb : server.buffer.length > 0
  · rw [if_pos hb]
  · have : server.buffer = [] := List.length_eq_zero.mp (by omega)
    rw [if_neg hb, this, List.nil_append]

/-- The loop of `Input` follows the units at the front of the buffer. -/
theorem inputLoop_units {H : Type} (env : Env H) (server : RtspServer H) (buf : Bytes)
    (server1 : RtspServer H) (rest : Bytes) (hunits : Units env server buf server1 rest)
    (fuel : Nat) (hfuel : buf.length ≤ fuel) :
    ∃ fuel1, rest.length ≤ fuel1 ∧
      inputLoop env fuel server buf = inputLoop env fuel1 server1 rest := by
  induction hunits generalizing fuel with
  | stop server buf => exact ⟨fuel, hfuel, rfl⟩
  | unit server buf s1 ret s2 rest hstep hpos hle _ ih =>
    cases fuel with
    | zero => omega
    | succ f =>
      have hlen : (buf.drop ret).length ≤ f := by
        rw [List.length_drop]; omega
      obtain ⟨fuel1, h1, h2⟩ := ih f hlen
      refine ⟨fuel1, h1, ?_⟩
      rw [← h2]
      conv => lhs; unfold inputLoop
      rw [if_neg (by omega), hstep]
      simp only []
      rw [if_neg (by omega), if_neg (by omega)]

/-- In front of an incomplete interleaved frame the loop of `Input` stops with
`errNeedMore`, in the same state. -/
theorem inputLoop_partial_frame {H : Type} (env : Env H) (server : RtspServer H)
    (rest : Bytes) (hmark : rest.head? = some 36)
    (hshort : rest.length < 4 ∨ rest.length < 4 + bigEndianUint16 rest)
    (fuel : Nat) (hfuel : rest.length ≤ fuel) :
    inputLoop env fuel server rest = .ret (server, rest, some .errNeedMore) := by
  have hne : rest.length ≠ 0 := by
    intro h
    rw [List.length_eq_zero.mp h] at hmark
    simp at hmark
  cases fuel with
  | zero => omega
  | succ f =>
    unfold inputLoop
    rw [if_neg hne]
    unfold inputUnit
    rw [if_pos hmark, hanleRtpOverRtsp_incomplete env server rest hshort]

/-- C3: when, after the complete units at the front of carry-over buffer ++
data are processed (leaving the engine in state `server1`), the remainder
`rest` starts with 0x24 but is shorter than 4 bytes or than 4 + its declared
length, `Input` returns without error; the state it returns is `server1`
(in particular no event is added for the partial frame) with the carry-over
buffer equal to `rest`. -/
theorem Input_keeps_partial_frame {H : Type} (env : Env H) (server : RtspServer H)
    (data : Bytes) (server1 : RtspServer H) (rest : Bytes)
    (hunits : Units env (stageInput server data).1 (server.buffer ++ data) server1 rest)
    (hmark : rest.head? = some 36)
    (hshort : rest.length < 4 ∨ rest.length < 4 + bigEndianUint16 rest) :
    Input env server data = .ret ({ server1 with buffer := rest }, none) := by
  unfold Input
  simp only [stageInput_bytes]
  obtain ⟨fuel1, h1, h2⟩ := inputLoop_units env _ _ _ _ hunits _ (le_refl _)
  rw [h2, inputLoop_partial_frame env server1 rest hmark hshort fuel1 h1]
  simp only [if_true, storeRest_eq]

theorem optionsServer_step :
    inputUnit (textEnv acceptAll) freshServer (optionsRequest ++ [36, 0, 0, 5, 1, 2]) =
      .ret (optionsServer, 40, none) := by
  rfl

theorem Input_keeps_partial_frame_witness :
    Input (textEnv acceptAll) freshServer (optionsRequest ++ [36, 0, 0, 5, 1, 2]) =
      .ret ({ optionsServer with buffer := [36, 0, 0, 5, 1, 2] }, none) :=
  Input_keeps_partial_frame (textEnv acceptAll) freshServer
    (optionsRequest ++ [36, 0, 0, 5, 1, 2]) optionsServer [36, 0, 0, 5, 1, 2]
    (Units.unit _ _ optionsServer 40 _ _ optionsServer_step (by decide) (by decide)
      (Units.stop _ _))
    rfl (by decide)

/-! ## Theorems: header fields and responses -/

theorem HeadFiled.get_set_self (f : HeadFiled) (k v : String) : (f.set k v).get k = v := by
  unfold HeadFiled.get HeadFiled.set
  have h : List.find? (fun p => p.1 == k)
      (List.filter (fun p => !(p.1 == k)) f.entries ++ [(k, v)]) = some (k, v) := by
    rw [List.find?_append]
    have h1 : List.find? (fun p => p.1 == k)
        (List.filter (fun p => !(p.1 == k)) f.entries) = none := by
      rw [List.find?_eq_none]
      intro x hx
      have := (List.mem_filter.mp hx).2
      simpa using this
    rw [h1]
    simp
  simp only [h]

theorem HeadFiled.get_set_ne (f : HeadFiled) (k k1 v : String) (hne : k ≠ k1) :
    (f.set k1 v).get k = f.get k := by
  unfold HeadFiled.get HeadFiled.set
  have h : List.find? (fun p => p.1 == k)
      (List.filter (fun p => !(p.1 == k1)) f.entries ++ [(k1, v)]) =
      List.find? (fun p => p.1 == k) f.entries := by
    rw [List.find?_append]
    have h2 : List.find? (fun p => p.1 == k) [(k1, v)] = none := by
      simp [Ne.symm hne]
    rw [h2, Option.or_none]
    induction f.entries with
    | nil => rfl
    | cons p ps ih =>
      by_cases hp : p.1 = k1
      · have hpk : (p.1 == k) = false := by
          simp only [beq_eq_false_iff_ne]; intro h; exact hne (h ▸ hp)
        rw [List.filter_cons_of_neg (by simp [hp])]
        simp only [List.find?_cons, hpk]
        exact ih
      · rw [List.filter_cons_of_pos (by simp [hp])]
        cases hpk : (p.1 == k)
        · simp only [List.find?_cons, hpk]
          exact ih
        · simp only [List.find?_cons, hpk]
  simp only [h]

theorem HeadFiled.Has_set_self (f : HeadFiled) (k v : String) : (f.set k v).Has k = true := by
  unfold HeadFiled.Has HeadFiled.set
  simp

theorem HeadFiled.Has_set_ne (f : HeadFiled) (k k1 v : String) (hne : k ≠ k1) :
    (f.set k1 v).Has k = f.Has k := by
  unfold HeadFiled.Has HeadFiled.set
  simp only [List.any_append, List.any_cons, List.any_nil, Bool.or_false]
  have h0 : ((k1, v).1 == k) = false := by simpa using Ne.symm hne
  rw [h0, Bool.or_false]
  induction f.entries with
  | nil => rfl
  | cons p ps ih =>
    by_cases hp : p.1 = k1
    · have hpk : (p.1 == k) = false := by
        simp only [beq_eq_false_iff_ne]; intro h; exact hne (h ▸ hp)
      rw [List.filter_cons_of_neg (by simp [hp]), List.any_cons, hpk, Bool.false_or]
      exact ih
    · rw [List.filter_cons_of_pos (by simp [hp]), List.any_cons, List.any_cons, ih]

theorem stampResponse_status {H : Type} (env : Env H) (trace : List Event) (req : RtspRequest)
    (res : RtspResponse) : (stampResponse env trace req res).StatusCode = res.StatusCode := rfl

theorem stampResponse_get {H : Type} (env : Env H) (trace : List Event) (req : RtspRequest)
    (res : RtspResponse) (k : String) (h1 : k ≠ CSeq) (h2 : k ≠ Date) :
    (stampResponse env trace req res).Fileds.get k = res.Fileds.get k := by
  unfold stampResponse
  simp only [HeadFiled.get_set_ne _ _ _ _ h2, HeadFiled.get_set_ne _ _ _ _ h1]

theorem stampResponse_Has {H : Type} (env : Env H) (trace : List Event) (req : RtspRequest)
    (res : RtspResponse) (k : String) (h1 : k ≠ CSeq) (h2 : k ≠ Date) :
    (stampResponse env trace req res).Fileds.Has k = res.Fileds.Has k := by
  unfold stampResponse
  simp only [HeadFiled.Has_set_ne _ _ _ _ h2, HeadFiled.Has_set_ne _ _ _ _ h1]

theorem sendRespones_state {H : Type} (env : Env H) (server : RtspServer H) (req : RtspRequest)
    (res : RtspResponse) :
    (sendRespones env server req res).1 =
      { server with trace := server.trace ++ written env server.output server.trace req res } := by
  unfold sendRespones written
  by_cases h : server.output = true
  · rw [if_pos h, if_pos h]
  · rw [if_neg h, if_neg h]
    simp only [List.append_nil]

/-! ## Theorems: the gates of `handleRequest` -/

/-- A request that passes the authentication gate goes on to the session gate. -/
theorem handleRequest_authorized {H : Type} (env : Env H) (server : RtspServer H) (b : Bytes)
    (ret : Nat) (request : RtspRequest)
    (hparse : env.parseRequest b = (ret, .ok request))
    (hauth : authPasses env server request = true) :
    handleRequest env server b =
      .ret ((handleSession env (afterAuth server request) request).1, ret,
            (handleSession env (afterAuth server request) request).2) := by
  unfold handleRequest authPasses afterAuth at *
  rw [hparse]
  simp only []
  by_cases hc : server.userName ≠ "" ∧ server.passwd ≠ ""
  · rw [if_pos hc] at hauth ⊢
    rw [if_pos hc]
    cases ha : server.auth with
    | none => simp [ha] at hauth
    | some a =>
      simp only [ha, Bool.and_eq_true] at hauth
      simp only [Option.map_some']
      rw [if_neg (by simp [hauth.1, hauth.2])]
  · rw [if_neg hc, if_neg hc]

/-- A request that fails the session gate is answered 454 at once. -/
theorem handleSession_mismatch {H : Type} (env : Env H) (server : RtspServer H)
    (request : RtspRequest) (hpass : sessionPasses server request = false) :
    handleSession env server request =
      sendRespones env server request { okResponse with StatusCode := Session_Not_Found } := by
  unfold handleSession
  unfold sessionPasses at hpass
  simp only [Bool.or_eq_false_iff, decide_eq_false_iff_not, Bool.and_eq_false_imp,
    decide_eq_false_iff_not] at hpass
  rw [if_pos]
  · rfl
  · refine ⟨hpass.1, ?_⟩
    by_cases hh : request.Fileds.Has Session = true
    · exact Or.inr (hpass.2 hh)
    · exact Or.inl (by simpa using hh)

/-- A request that passes the session gate reaches the method switch. -/
theorem handleSession_pass {H : Type} (env : Env H) (server : RtspServer H)
    (request : RtspRequest) (hpass : sessionPasses server request = true) :
    handleSession env server request =
      match handleMethod env server request okResponse with
      | (server1, .error err) => (server1, some err)
      | (server1, .ok res1) => sendRespones env server1 request res1 := by
  unfold handleSession
  unfold sessionPasses at hpass
  simp only [Bool.or_eq_true, decide_eq_true_eq, Bool.and_eq_true] at hpass
  rw [if_neg]
  · rfl
  · rintro ⟨h1, h2⟩
    rcases hpass with h | ⟨h3, h4⟩
    · exact h1 h
    · rcases h2 with h2 | h2
      · simp [h3] at h2
      · exact h2 h4

theorem callbacksOf_append (t1 t2 : List Event) :
    callbacksOf (t1 ++ t2) = callbacksOf t1 ++ callbacksOf t2 := by
  induction t1 with
  | nil => rfl
  | cons e es ih => cases e <;> simp [callbacksOf, ih]

theorem pairsOf_append (t1 t2 : List Event) :
    pairsOf (t1 ++ t2) = pairsOf t1 ++ pairsOf t2 := by
  induction t1 with
  | nil => rfl
  | cons e es ih => cases e <;> simp [pairsOf, ih]

theorem callbacksOf_written {H : Type} (env : Env H) (output : Bool) (trace : List Event)
    (req : RtspRequest) (res : RtspResponse) :
    callbacksOf (written env output trace req res) = [] := by
  unfold written
  cases output <;> rfl

theorem pairsOf_written {H : Type} (env : Env H) (output : Bool) (trace : List Event)
    (req : RtspRequest) (res : RtspResponse) :
    pairsOf (written env output trace req res) = [] := by
  unfold written
  cases output <;> rfl

theorem afterAuth_frame {H : Type} (server : RtspServer H) (request : RtspRequest) :
    (afterAuth server request).trace = server.trace ∧
    (afterAuth server request).output = server.output ∧
    (afterAuth server request).sessionId = server.sessionId ∧
    (afterAuth server request).interleaved = server.interleaved ∧
    (afterAuth server request).tracks = server.tracks ∧
    (afterAuth server request).handle = server.handle ∧
    (afterAuth server request).buffer = server.buffer := by
  unfold afterAuth
  by_cases hc : server.userName ≠ "" ∧ server.passwd ≠ ""
  · rw [if_pos hc]; exact ⟨rfl, rfl, rfl, rfl, rfl, rfl, rfl⟩
  · rw [if_neg hc]; exact ⟨rfl, rfl, rfl, rfl, rfl, rfl, rfl⟩

/-- C4 (amended): for every request that passes the authentication gate,
handled while the session id of the engine is non-empty: if the request has no
Session header, or one that differs from the session id, `handleRequest`
returns having written (to the output sink, if one is installed) exactly one
response, of status 454; no capability callback is invoked; session id,
channel counter, tracks and application state are unchanged. -/
theorem session_gate_answers_454 {H : Type} (env : Env H) (server : RtspServer H) (b : Bytes)
    (ret : Nat) (request : RtspRequest)
    (hparse : env.parseRequest b = (ret, .ok request))
    (hauth : authPasses env server request = true)
    (hsid : server.sessionId ≠ "")
    (hmiss : request.Fileds.Has Session = false ∨
      request.Fileds.get Session ≠ server.sessionId) :
    ∃ s err, handleRequest env server b = .ret (s, ret, err) ∧
      s.trace = server.trace ++ written env server.output server.trace request
        { okResponse with StatusCode := 454 } ∧
      callbacksOf s.trace = callbacksOf server.trace ∧
      s.sessionId = server.sessionId ∧ s.interleaved = server.interleaved ∧
      s.tracks = server.tracks ∧ s.handle = server.handle := by
  obtain ⟨h1, h2, h3, h4, h5, h6, _⟩ := afterAuth_frame server request
  have hpass : sessionPasses (afterAuth server request) request = false := by
    unfold sessionPasses
    rw [h3]
    rcases hmiss with h | h
    · simp [hsid, h]
    · simp [hsid, h]
  refine ⟨_, _, handleRequest_authorized env server b ret request hparse hauth, ?_⟩
  rw [handleSession_mismatch env _ request hpass, sendRespones_state]
  simp only [h1, h2, h3, h4, h5, h6, callbacksOf_append, callbacksOf_written,
    List.append_nil, and_self, and_true]
  rfl

theorem session_gate_answers_454_witness :
    ∃ s err, handleRequest (textEnv acceptAll) tcpServer optionsRequest = .ret (s, 40, err) ∧
      s.trace = tcpServer.trace ++ written (textEnv acceptAll) tcpServer.output tcpServer.trace
        { Method := "OPTIONS", Uri := "rtsp://h/s", Version := "RTSP/1.0",
          Fileds := ⟨[("CSeq", "1")]⟩, Body := "" }
        { okResponse with StatusCode := 454 } ∧
      callbacksOf s.trace = callbacksOf tcpServer.trace ∧
      s.sessionId = tcpServer.sessionId ∧ s.interleaved = tcpServer.interleaved ∧
      s.tracks = tcpServer.tracks ∧ s.handle = tcpServer.handle :=
  session_gate_answers_454 (textEnv acceptAll) tcpServer optionsRequest 40 _
    (by rfl) (by decide) (by decide) (by decide)

/-- C4 (counterexample): an engine configured with credentials, with session
id "0123456789" active, handles the OPTIONS request of the specification,
which has no Session header (and no Authorization header): the response
written has status 401, not 454. -/
theorem session_gate_behind_auth_gate :
    authSessionServer.sessionId = "0123456789" ∧
    (requestOf optionsRequest).map (fun r => r.Fileds.Has Session) = some false ∧
    statusesOf authSessionServer.trace = [200, 200] ∧
    statusesOf (eventsOf (feed (textEnv acceptAll) authSessionServer [optionsRequest])) =
      [200, 200, 401] := by
  refine ⟨by decide, by decide, by decide, by decide⟩

/-- An engine that `NewRtspServer` returns with credentials has an
authenticator. -/
theorem NewRtspServer_auth {H : Type} (env : Env H) (handle : H) (opt : List ServerOption)
    (server : RtspServer H) (hnew : NewRtspServer env handle opt = .ret server)
    (huser : server.userName ≠ "") (hpass : server.passwd ≠ "") :
    server.auth ≠ none := by
  unfold NewRtspServer at hnew
  simp only [] at hnew
  split at hnew
  · split at hnew
    · cases hnew
    · injection hnew with hnew
      rw [← hnew]
      simp
  · rename_i hcond
    injection hnew with hnew
    rw [← hnew] at huser hpass ⊢
    simp only [] at huser hpass ⊢
    intro hnone
    exact hcond ⟨hnone, huser, hpass⟩

/-- C5: on an engine configured with a non-empty user name and password (and
holding its authenticator `a`): a request without Authorization header, or
whose header the authenticator rejects, is answered by exactly one response,
of status 401, whose WWW-Authenticate header is the challenge of the
authenticator; no capability callback is invoked and the engine is otherwise
unchanged.  A request whose header the authenticator accepts goes on to the
session gate and the method dispatch (`handleSession`). -/
theorem auth_gate_answers_401 {H : Type} (env : Env H) (server : RtspServer H) (b : Bytes)
    (ret : Nat) (request : RtspRequest) (a : Authenticator)
    (hparse : env.parseRequest b = (ret, .ok request))
    (huser : server.userName ≠ "") (hpass : server.passwd ≠ "")
    (ha : server.auth = some a) :
    ((request.Fileds.Has Authorization = false ∨
        env.check { a with method := request.Method }
          (request.Fileds.get Authorization) = false) →
      ∃ s err res, handleRequest env server b = .ret (s, ret, err) ∧
        s.trace = server.trace ++ (if server.output then [Event.write res] else []) ∧
        res.StatusCode = 401 ∧
        res.Fileds.get WWWAuthenticate =
          env.wwwAuthenticate { a with method := request.Method } ∧
        callbacksOf s.trace = callbacksOf server.trace ∧
        s.handle = server.handle ∧ s.sessionId = server.sessionId ∧
        s.interleaved = server.interleaved ∧ s.tracks = server.tracks) ∧
    ((request.Fileds.Has Authorization = true ∧
        env.check { a with method := request.Method }
          (request.Fileds.get Authorization) = true) →
      handleRequest env server b =
        .ret ((handleSession env
                { server with auth := some { a with method := request.Method } } request).1,
              ret,
              (handleSession env
                { server with auth := some { a with method := request.Method } } request).2))
    := by
  constructor
  · intro hfail
    have hreq : handleRequest env server b =
        .ret ((handleUnAuth env { server with auth := some { a with method := request.Method } }
                { a with method := request.Method } request).1, ret,
              (handleUnAuth env { server with auth := some { a with method := request.Method } }
                { a with method := request.Method } request).2) := by
      unfold handleRequest
      rw [hparse]
      simp only []
      rw [if_pos ⟨huser, hpass⟩]
      simp only [ha]
      rw [if_pos hfail]
    refine ⟨_, _, stampResponse env server.trace request
      { Version := "", StatusCode := 401,
        Fileds := HeadFiled.empty.set WWWAuthenticate
          (env.wwwAuthenticate { a with method := request.Method }), Body := "" }, hreq, ?_⟩
    unfold handleUnAuth
    rw [sendRespones_state]
    refine ⟨rfl, rfl, ?_, ?_, rfl, rfl, rfl, rfl⟩
    · rw [stampResponse_get _ _ _ _ _ (by decide) (by decide)]
      exact HeadFiled.get_set_self _ _ _
    · show callbacksOf (server.trace ++ written env server.output server.trace request _) = _
      rw [callbacksOf_append, callbacksOf_written, List.append_nil]
  · intro hok
    unfold handleRequest
    rw [hparse]
    simp only []
    rw [if_pos ⟨huser, hpass⟩]
    simp only [ha]
    rw [if_neg (by simp [hok.1, hok.2])]

theorem auth_gate_answers_401_witness :
    ((requestOf optionsRequest).map (fun r => r.Fileds.Has Authorization) = some false) ∧
    ∃ s err res, handleRequest (textEnv acceptAll) authFreshServer optionsRequest =
        .ret (s, 40, err) ∧
      s.trace = authFreshServer.trace ++
        (if authFreshServer.output then [Event.write res] else []) ∧
      res.StatusCode = 401 ∧
      res.Fileds.get WWWAuthenticate = "Digest realm=gomedia server" ∧
      callbacksOf s.trace = callbacksOf authFreshServer.trace ∧
      s.handle = authFreshServer.handle ∧ s.sessionId = authFreshServer.sessionId ∧
      s.interleaved = authFreshServer.interleaved ∧ s.tracks = authFreshServer.tracks :=
  ⟨by decide,
   (auth_gate_answers_401 (textEnv acceptAll) authFreshServer optionsRequest 40
      { Method := "OPTIONS", Uri := "rtsp://h/s", Version := "RTSP/1.0",
        Fileds := ⟨[("CSeq", "1")]⟩, Body := "" }
      { scheme := "Digest", userName := "u", passwd := "p", realm := "gomedia server",
        method := "" }
      (by rfl) (by decide) (by decide) (by rfl)).1 (Or.inl (by decide))⟩

/-! ## Theorems: SETUP -/

theorem handleMethod_setup {H : Type} (env : Env H) (server : RtspServer H)
    (request : RtspRequest) (res : RtspResponse) (hm : request.Method = SETUP) :
    handleMethod env server request res =
      ((handleSetup env server request res).1, .ok (handleSetup env server request res).2) := by
  unfold handleMethod
  rw [hm, if_neg (by decide), if_neg (by decide), if_pos rfl]

theorem matchTrack_none (uri : String) (tracks : List (String × RtspTrack))
    (hnone : ∀ kt ∈ tracks, stringsContains uri kt.2.uri = false) :
    matchTrack uri tracks = none := by
  induction tracks with
  | nil => rfl
  | cons kt rest ih =>
    obtain ⟨k, t⟩ := kt
    unfold matchTrack
    have h0 := hnone (k, t) (List.mem_cons_self _ _)
    simp only [] at h0
    rw [if_neg (by simp [h0]), ih (fun kt hkt => hnone kt (List.mem_cons_of_mem _ hkt))]
    rfl

/-- A request that passes both gates, by method: the state and the response of
the method switch, then `sendRespones`. -/
theorem handleRequest_setup {H : Type} (env : Env H) (server : RtspServer H) (b : Bytes)
    (ret : Nat) (request : RtspRequest)
    (hparse : env.parseRequest b = (ret, .ok request))
    (hauth : authPasses env server request = true)
    (hsess : sessionPasses server request = true)
    (hm : request.Method = SETUP) :
    handleRequest env server b =
      .ret ((sendRespones env (handleSetup env (afterAuth server request) request okResponse).1
              request (handleSetup env (afterAuth server request) request okResponse).2).1,
            ret,
            (sendRespones env (handleSetup env (afterAuth server request) request okResponse).1
              request (handleSetup env (afterAuth server request) request okResponse).2).2) := by
  have hs : sessionPasses (afterAuth server request) request = true := by
    unfold sessionPasses at hsess ⊢
    rw [(afterAuth_frame server request).2.2.1]
    exact hsess
  rw [handleRequest_authorized env server b ret request hparse hauth,
    handleSession_pass env _ request hs, handleMethod_setup env _ request _ hm]

/-- C6 (amended): for every SETUP request that passes the authentication gate
and the session gate and whose URI contains the control URI of none of the
registered tracks (in particular when no track is registered), exactly one
response is written, of status 400; `HandleSetup` is not invoked; the session
id, the channel counter, the tracks and the application state are unchanged. -/
theorem setup_without_track_answers_400 {H : Type} (env : Env H) (server : RtspServer H)
    (b : Bytes) (ret : Nat) (request : RtspRequest)
    (hparse : env.parseRequest b = (ret, .ok request))
    (hauth : authPasses env server request = true)
    (hsess : sessionPasses server request = true)
    (hm : request.Method = SETUP)
    (hnone : ∀ kt ∈ server.tracks, stringsContains request.Uri kt.2.uri = false) :
    ∃ s err, handleRequest env server b = .ret (s, ret, err) ∧
      s.trace = server.trace ++ written env server.output server.trace request
        { okResponse with StatusCode := 400 } ∧
      callbacksOf s.trace = callbacksOf server.trace ∧
      pairsOf s.trace = pairsOf server.trace ∧
      s.sessionId = server.sessionId ∧ s.interleaved = server.interleaved ∧
      s.tracks = server.tracks ∧ s.handle = server.handle := by
  obtain ⟨h1, h2, h3, h4, h5, h6, _⟩ := afterAuth_frame server request
  refine ⟨_, _, handleRequest_setup env server b ret request hparse hauth hsess hm, ?_⟩
  have hset : handleSetup env (afterAuth server request) request okResponse =
      (afterAuth server request, { okResponse with StatusCode := BAD_REQUEST }) := by
    unfold handleSetup
    rw [matchTrack_none request.Uri _ (by rw [h5]; exact hnone)]
  rw [hset, sendRespones_state]
  simp only [h1, h2, h3, h4, h5, h6, callbacksOf_append, callbacksOf_written, pairsOf_append,
    pairsOf_written, List.append_nil, and_self, and_true]
  rfl

theorem setup_without_track_answers_400_witness :
    ∃ s err, handleRequest (textEnv acceptAll) freshServer setupTcpRequest =
        .ret (s, 77, err) ∧
      s.trace = freshServer.trace ++ written (textEnv acceptAll) freshServer.output
        freshServer.trace
        { Method := "SETUP", Uri := "rtsp://h/s/track0", Version := "RTSP/1.0",
          Fileds := ⟨[("CSeq", "3"), ("Transport", "RTP/AVP/TCP;unicast")]⟩, Body := "" }
        { okResponse with StatusCode := 400 } ∧
      callbacksOf s.trace = callbacksOf freshServer.trace ∧
      pairsOf s.trace = pairsOf freshServer.trace ∧
      s.sessionId = freshServer.sessionId ∧ s.interleaved = freshServer.interleaved ∧
      s.tracks = freshServer.tracks ∧ s.handle = freshServer.handle :=
  setup_without_track_answers_400 (textEnv acceptAll) freshServer setupTcpRequest 77 _
    (by rfl) (by decide) (by decide) (by decide) (by decide)

/-- C6 (counterexample): the engine with session id "0123456789" active and
one track (control URI "rtsp://h/s/track0") handles a SETUP request for
"rtsp://h/s/nothing" that has no Session header: the URI contains the control
URI of no registered track, and the response written has status 454, not
400. -/
theorem setup_without_track_behind_session_gate :
    tcpServer.sessionId = "0123456789" ∧
    tcpServer.tracks.map (fun kt => kt.2.uri) = ["rtsp://h/s/track0"] ∧
    (requestOf setupUnknownRequest).map (fun r => (r.Method, r.Uri, r.Fileds.Has Session)) =
      some ("SETUP", "rtsp://h/s/nothing", false) ∧
    stringsContains "rtsp://h/s/nothing" "rtsp://h/s/track0" = false ∧
    statusesOf tcpServer.trace = [200, 200] ∧
    statusesOf (eventsOf (feed (textEnv acceptAll) tcpServer [setupUnknownRequest])) =
      [200, 200, 454] := by
  refine ⟨by decide, by decide, by decide, by decide, by decide, by decide⟩

theorem setupCall_afterAuth {H : Type} (env : Env H) (server : RtspServer H)
    (request : RtspRequest) (track0 : RtspTrack) :
    setupCall env (afterAuth server request) request track0 =
      setupCall env server request track0 := by
  unfold setupCall
  rw [(afterAuth_frame server request).2.2.2.2.2.1]

/-- The SETUP case when the callback leaves a status other than 200. -/
theorem handleSetup_rejected {H : Type} (env : Env H) (server : RtspServer H)
    (request : RtspRequest) (i : Nat) (key : String) (track0 : RtspTrack)
    (hmatch : matchTrack request.Uri server.tracks = some (i, key, track0))
    (hrej : (setupCall env server request track0).res.StatusCode ≠ 200) :
    handleSetup env server request okResponse =
      ({ server with
         handle := (setupCall env server request track0).handle,
         trace := server.trace ++
           [Event.callback (.setup request (env.decodeTransport (request.Fileds.get Transport))
             { track0 with uri := request.Uri })],
         tracks := server.tracks.set i
           (key, { track0 with uri := request.Uri,
                               onPacket := sinkAfterCall (setupCall env server request track0)
                                 track0 }) },
       (setupCall env server request track0).res) := by
  unfold handleSetup
  rw [hmatch]
  simp only []
  unfold setupCall at hrej
  rw [if_neg hrej]
  unfold setupCall sinkAfterCall
  cases hsink : (env.handle.HandleSetup server.handle request okResponse
      (env.decodeTransport (request.Fileds.get Transport))
      { track0 with uri := request.Uri }).onPacket <;> rfl

/-- C7 (amended): for every SETUP request that reaches `HandleSetup` (track
`track0` matched at position `i`) and on which the callback leaves a status
other than 200: one response is written, which is the response of the callback with CSeq
and Date stamped (so it carries the callback's status, and has a Session or
Transport header only if the callback itself wrote one); the session id and
the channel counter are unchanged and no channel pair is allocated; of the
tracks only the matched one changes, its transport descriptor is what it was,
and its packet sink is what it was unless the callback installed its own. -/
theorem rejected_setup_commits_nothing {H : Type} (env : Env H) (server : RtspServer H)
    (b : Bytes) (ret : Nat) (request : RtspRequest) (i : Nat) (key : String)
    (track0 : RtspTrack)
    (hparse : env.parseRequest b = (ret, .ok request))
    (hauth : authPasses env server request = true)
    (hsess : sessionPasses server request = true)
    (hm : request.Method = SETUP)
    (hmatch : matchTrack request.Uri server.tracks = some (i, key, track0))
    (hrej : (setupCall env server request track0).res.StatusCode ≠ 200) :
    ∃ s err res t, handleRequest env server b = .ret (s, ret, err) ∧
      s.trace = server.trace ++
        [Event.callback (.setup request (env.decodeTransport (request.Fileds.get Transport))
          { track0 with uri := request.Uri })] ++
        (if server.output then [Event.write res] else []) ∧
      res.StatusCode = (setupCall env server request track0).res.StatusCode ∧
      res.Fileds.Has Session = (setupCall env server request track0).res.Fileds.Has Session ∧
      res.Fileds.Has Transport =
        (setupCall env server request track0).res.Fileds.Has Transport ∧
      s.sessionId = server.sessionId ∧
      s.interleaved = server.interleaved ∧
      pairsOf s.trace = pairsOf server.trace ∧
      s.tracks = server.tracks.set i (key, t) ∧
      t.transport = track0.transport ∧
      t.onPacket = sinkAfterCall (setupCall env server request track0) track0 := by
  obtain ⟨h1, h2, h3, h4, h5, h6, _⟩ := afterAuth_frame server request
  have hmatch1 : matchTrack request.Uri (afterAuth server request).tracks =
      some (i, key, track0) := by rw [h5]; exact hmatch
  have hrej1 : (setupCall env (afterAuth server request) request track0).res.StatusCode ≠ 200 := by
    rw [setupCall_afterAuth]; exact hrej
  have hreq := handleRequest_setup env server b ret request hparse hauth hsess hm
  rw [handleSetup_rejected env _ request i key track0 hmatch1 hrej1, setupCall_afterAuth,
    sendRespones_state] at hreq
  simp only [h1, h2, h3, h4, h5] at hreq
  refine ⟨_, _, stampResponse env (server.trace ++
      [Event.callback (.setup request (env.decodeTransport (request.Fileds.get Transport))
        { track0 with uri := request.Uri })]) request
      (setupCall env server request track0).res,
    { track0 with uri := request.Uri,
                  onPacket := sinkAfterCall (setupCall env server request track0) track0 },
    hreq, ?_⟩
  refine ⟨rfl, rfl, ?_, ?_, rfl, rfl, ?_, rfl, rfl, rfl⟩
  · exact stampResponse_Has _ _ _ _ _ (by decide) (by decide)
  · exact stampResponse_Has _ _ _ _ _ (by decide) (by decide)
  · rw [pairsOf_append, pairsOf_written, List.append_nil, pairsOf_append]
    simp [pairsOf]

theorem rejected_setup_commits_nothing_witness :
    ∃ s err res t, handleRequest (textEnv playServer) describedServer setupTcpRequest =
        .ret (s, 77, err) ∧
      s.trace = describedServer.trace ++
        [Event.callback (.setup
          { Method := "SETUP", Uri := "rtsp://h/s/track0", Version := "RTSP/1.0",
            Fileds := ⟨[("CSeq", "3"), ("Transport", "RTP/AVP/TCP;unicast")]⟩, Body := "" }
          { Proto := .TCP, Client_ports := (0, 0), Server_ports := (0, 0),
            Interleaved := (0, 0) }
          { videoTrack with uri := "rtsp://h/s/track0" })] ++
        (if describedServer.output then [Event.write res] else []) ∧
      res.StatusCode = 461 ∧
      res.Fileds.Has Session = false ∧
      res.Fileds.Has Transport = false ∧
      s.sessionId = "" ∧
      s.interleaved = 0 ∧
      pairsOf s.trace = [] ∧
      s.tracks = describedServer.tracks.set 0 ("video", t) ∧
      t.transport = none ∧
      t.onPacket = none :=
  rejected_setup_commits_nothing (textEnv playServer) describedServer setupTcpRequest 77
    { Method := "SETUP", Uri := "rtsp://h/s/track0", Version := "RTSP/1.0",
      Fileds := ⟨[("CSeq", "3"), ("Transport", "RTP/AVP/TCP;unicast")]⟩, Body := "" }
    0 "video" { videoTrack with uri := "track0" }
    (by rfl) (by decide) (by decide) (by decide) (by decide) (by decide)

/-- C7 (counterexample): `HandleSetup` of the application answers 461 after
writing a Session and a Transport header into the response and installing its
own packet sink on the track.  The response the engine writes has status 461
and carries both headers, and the track, which had no sink, holds the sink of
the callback. -/
theorem rejected_setup_keeps_what_callback_wrote :
    describedServer.tracks.map (fun kt => kt.2.onPacket) = [none] ∧
    (responsesOf (addedTo describedServer.trace
      (feed (textEnv rejectLoud) describedServer [setupTcpRequest]))).map
        (fun r => (r.StatusCode, r.Fileds.Has Session, r.Fileds.Has Transport)) =
      [(461, true, true)] ∧
    (serverOf describedServer
      (feed (textEnv rejectLoud) describedServer [setupTcpRequest])).tracks.map
        (fun kt => kt.2.onPacket) = [some (.app 7)] := by
  refine ⟨by decide, by decide, by decide⟩

/-! ## Theorems: what a request may change -/

theorem Untouched.refl {H : Type} (s : RtspServer H) : Untouched s s :=
  ⟨rfl, rfl, rfl, rfl⟩

theorem Untouched.trans {H : Type} {s s1 s2 : RtspServer H} (h1 : Untouched s s1)
    (h2 : Untouched s1 s2) : Untouched s s2 :=
  ⟨h2.1.trans h1.1, h2.2.1.trans h1.2.1, h2.2.2.1.trans h1.2.2.1, h2.2.2.2.trans h1.2.2.2⟩

theorem AddTrack_untouched {H : Type} (env : Env H) (server : RtspServer H) (track : RtspTrack) :
    Untouched server (AddTrack env server track) :=
  ⟨rfl, rfl, rfl, rfl⟩

theorem foldl_AddTrack_untouched {H : Type} (env : Env H) (tracks : List RtspTrack)
    (server : RtspServer H) : Untouched server (tracks.foldl (AddTrack env) server) := by
  induction tracks generalizing server with
  | nil => exact Untouched.refl server
  | cons t ts ih => exact (AddTrack_untouched env server t).trans (ih _)

theorem applyHandle_untouched {H : Type} (env : Env H) (server : RtspServer H)
    (call : HandleCall) (r : HandleResult H) :
    Untouched server (applyHandle env server call r) := by
  unfold applyHandle
  refine Untouched.trans ?_ (foldl_AddTrack_untouched env r.addTracks _)
  refine ⟨rfl, rfl, ?_, rfl⟩
  show pairsOf (server.trace ++ [Event.callback call]) = pairsOf server.trace
  rw [pairsOf_append]
  simp [pairsOf]

theorem handleAnnounce_untouched {H : Type} (env : Env H) (server : RtspServer H)
    (request : RtspRequest) : Untouched server (handleAnnounce env server request).1 := by
  unfold handleAnnounce
  simp only []
  cases (env.parserSdp server.sdpMedias request.Body).2 with
  | some err => exact ⟨rfl, rfl, rfl, rfl⟩
  | none =>
    simp only []
    refine Untouched.trans ?_ (foldl_AddTrack_untouched env _ _)
    refine ⟨rfl, rfl, ?_, rfl⟩
    show pairsOf (server.trace ++ [Event.callback _]) = pairsOf server.trace
    rw [pairsOf_append]
    simp [pairsOf]

theorem sendRespones_untouched {H : Type} (env : Env H) (server : RtspServer H)
    (req : RtspRequest) (res : RtspResponse) :
    Untouched server (sendRespones env server req res).1 := by
  rw [sendRespones_state]
  refine ⟨rfl, rfl, ?_, rfl⟩
  show pairsOf (server.trace ++ written env server.output server.trace req res) = _
  rw [pairsOf_append, pairsOf_written, List.append_nil]

/-- Every method but SETUP leaves session id and channel counter alone. -/
theorem handleMethod_untouched {H : Type} (env : Env H) (server : RtspServer H)
    (request : RtspRequest) (res : RtspResponse) (hm : request.Method ≠ SETUP) :
    Untouched server (handleMethod env server request res).1 := by
  unfold handleMethod
  simp only []
  split_ifs
  any_goals exact applyHandle_untouched env server _ _
  · have h := handleAnnounce_untouched env server request
    cases hA : handleAnnounce env server request with
    | mk s1 e =>
      rw [hA] at h
      cases e <;> exact h
  · exact Untouched.refl server

theorem handleSetup_unmatched {H : Type} (env : Env H) (server : RtspServer H)
    (request : RtspRequest) (hnone : matchTrack request.Uri server.tracks = none) :
    handleSetup env server request okResponse =
      (server, { okResponse with StatusCode := BAD_REQUEST }) := by
  unfold handleSetup
  rw [hnone]

/-- The SETUP case when the callback accepts a TCP-interleaved transport. -/
theorem handleSetup_accepted_tcp {H : Type} (env : Env H) (server : RtspServer H)
    (request : RtspRequest) (i : Nat) (key : String) (track0 : RtspTrack)
    (hmatch : matchTrack request.Uri server.tracks = some (i, key, track0))
    (hok : (setupCall env server request track0).res.StatusCode = 200)
    (htcp : (setupCall env server request track0).transport.Proto = .TCP) :
    handleSetup env server request okResponse =
      ({ server with
         handle := (setupCall env server request track0).handle,
         sessionId := sessionAfter env server request track0,
         interleaved := server.interleaved + 2,
         tracks := server.tracks.set i
           (key, { track0 with
                   uri := request.Uri,
                   onPacket := some (.interleavedSink
                     { (setupCall env server request track0).transport with
                       Interleaved := (server.interleaved, server.interleaved + 1) }),
                   transport := some
                     { (setupCall env server request track0).transport with
                       Interleaved := (server.interleaved, server.interleaved + 1) } }),
         trace := server.trace ++ [setupEvent env request track0] ++
           [Event.interleave track0.TrackName server.interleaved (server.interleaved + 1)] },
       { (setupCall env server request track0).res with
         Fileds := ((setupCall env server request track0).res.Fileds.set Transport
           (env.encodeTransport
             { (setupCall env server request track0).transport with
               Interleaved := (server.interleaved, server.interleaved + 1) })).set
           Session (sessionAfter env server request track0) }) := by
  unfold handleSetup
  rw [hmatch]
  simp only []
  unfold setupCall at hok htcp
  rw [if_pos hok, if_pos htcp]
  unfold setupCall sessionAfter setupEvent
  cases hsink : (env.handle.HandleSetup server.handle request okResponse
      (env.decodeTransport (request.Fileds.get Transport))
      { track0 with uri := request.Uri }).onPacket <;> rfl

/-- The SETUP case when the callback accepts another transport. -/
theorem handleSetup_accepted_udp {H : Type} (env : Env H) (server : RtspServer H)
    (request : RtspRequest) (i : Nat) (key : String) (track0 : RtspTrack)
    (hmatch : matchTrack request.Uri server.tracks = some (i, key, track0))
    (hok : (setupCall env server request track0).res.StatusCode = 200)
    (hudp : (setupCall env server request track0).transport.Proto ≠ .TCP) :
    handleSetup env server request okResponse =
      ({ server with
         handle := (setupCall env server request track0).handle,
         sessionId := sessionAfter env server request track0,
         tracks := server.tracks.set i
           (key, { track0 with
                   uri := request.Uri,
                   onPacket := sinkAfterCall (setupCall env server request track0) track0,
                   transport := some (setupCall env server request track0).transport }),
         trace := server.trace ++ [setupEvent env request track0] },
       { (setupCall env server request track0).res with
         Fileds := ((setupCall env server request track0).res.Fileds.set Transport
           (env.encodeTransport (setupCall env server request track0).transport)).set
           Session (sessionAfter env server request track0) }) := by
  unfold handleSetup
  rw [hmatch]
  simp only []
  unfold setupCall at hok hudp
  rw [if_pos hok, if_neg hudp]
  unfold setupCall sessionAfter setupEvent sinkAfterCall
  cases hsink : (env.handle.HandleSetup server.handle request okResponse
      (env.decodeTransport (request.Fileds.get Transport))
      { track0 with uri := request.Uri }).onPacket <;> rfl

theorem newSessionId_tenDigits {H : Type} (env : Env H) (trace : List Event) :
    tenDigits (newSessionId env trace) = true := by
  have hdigit : ∀ d, d < 10 → ("0123456789".data.getD d (Char.ofNat 48)).isDigit = true := by
    decide
  unfold tenDigits newSessionId
  simp only [List.length_map, List.length_range, beq_self_eq_true, Bool.true_and,
    List.all_eq_true, List.mem_map, List.mem_range]
  rintro c ⟨i, _, rfl⟩
  exact hdigit _ (Nat.mod_lt _ (by decide))

theorem tenDigits_ne_empty (s : String) (h : tenDigits s = true) : s ≠ "" := by
  intro he
  rw [he] at h
  revert h
  decide

theorem sessionPasses_afterAuth {H : Type} (server : RtspServer H) (request : RtspRequest) :
    sessionPasses (afterAuth server request) request = sessionPasses server request := by
  unfold sessionPasses
  rw [(afterAuth_frame server request).2.2.1]

theorem afterAuth_untouched {H : Type} (server : RtspServer H) (request : RtspRequest) :
    Untouched server (afterAuth server request) := by
  obtain ⟨h1, h2, h3, h4, _, _, _⟩ := afterAuth_frame server request
  exact ⟨h3, h4, by rw [h1], h2⟩

/-- A request that fails the authentication gate: the engine faults (nil
authenticator) or answers through `handleUnAuth`. -/
theorem handleRequest_denied {H : Type} (env : Env H) (server : RtspServer H) (b : Bytes)
    (ret : Nat) (request : RtspRequest)
    (hparse : env.parseRequest b = (ret, .ok request))
    (hauth : authPasses env server request = false) :
    handleRequest env server b = .fault server.trace ∨
    ∃ a, handleRequest env server b =
      .ret ((handleUnAuth env { server with auth := some a } a request).1, ret,
            (handleUnAuth env { server with auth := some a } a request).2) := by
  unfold handleRequest authPasses at *
  rw [hparse]
  simp only []
  by_cases hc : server.userName ≠ "" ∧ server.passwd ≠ ""
  · rw [if_pos hc] at hauth ⊢
    cases ha : server.auth with
    | none => exact Or.inl rfl
    | some a =>
      right
      simp only [ha, Bool.and_eq_false_imp] at hauth
      refine ⟨{ a with method := request.Method }, ?_⟩
      simp only []
      rw [if_pos]
      by_cases hh : request.Fileds.Has Authorization = true
      · exact Or.inr (hauth hh)
      · exact Or.inl (by simpa using hh)
  · rw [if_neg hc] at hauth
    cases hauth

/-- Unless the request is a SETUP that the engine commits, a call of
`handleRequest` that returns leaves session id and channel counter alone and
allocates no channel pair. -/
theorem handleRequest_untouched {H : Type} (env : Env H) (server : RtspServer H) (b : Bytes)
    (s : RtspServer H) (ret : Nat) (err : Option RtspError)
    (hret : handleRequest env server b = .ret (s, ret, err))
    (hno : ¬ ∃ request i key track0, AcceptedSetup env server b request i key track0) :
    Untouched server s := by
  rcases hp : env.parseRequest b with ⟨r0, e | request⟩
  · unfold handleRequest at hret
    rw [hp] at hret
    simp only [Outcome.ret.injEq, Prod.mk.injEq] at hret
    rw [← hret.1]
    exact Untouched.refl server
  · by_cases hauth : authPasses env server request = true
    · rw [handleRequest_authorized env server b r0 request hp hauth] at hret
      simp only [Outcome.ret.injEq, Prod.mk.injEq] at hret
      rw [← hret.1]
      refine (afterAuth_untouched server request).trans ?_
      by_cases hsess : sessionPasses (afterAuth server request) request = true
      · rw [handleSession_pass env _ request hsess]
        by_cases hm : request.Method = SETUP
        · rw [handleMethod_setup env _ request _ hm]
          simp only []
          refine Untouched.trans ?_ (sendRespones_untouched env _ request _)
          cases hmatch : matchTrack request.Uri (afterAuth server request).tracks with
          | none =>
            rw [handleSetup_unmatched env _ request hmatch]
            exact Untouched.refl _
          | some m =>
            obtain ⟨i, key, track0⟩ := m
            by_cases hok : (setupCall env (afterAuth server request) request track0).res.StatusCode
                = 200
            · exfalso
              apply hno
              refine ⟨request, i, key, track0, by rw [hp], hauth, ?_, hm, ?_, ?_⟩
              · rw [← sessionPasses_afterAuth]; exact hsess
              · rw [← (afterAuth_frame server request).2.2.2.2.1]; exact hmatch
              · rw [← setupCall_afterAuth]; exact hok
            · rw [handleSetup_rejected env _ request i key track0 hmatch hok]
              refine ⟨rfl, rfl, ?_, rfl⟩
              show pairsOf (_ ++ [Event.callback _]) = _
              rw [pairsOf_append]
              simp [pairsOf]
        · have hu := handleMethod_untouched env (afterAuth server request) request okResponse hm
          cases hM : handleMethod env (afterAuth server request) request okResponse with
          | mk s1 e =>
            rw [hM] at hu
            cases e with
            | error err1 => exact hu
            | ok res1 => exact hu.trans (sendRespones_untouched env _ request _)
      · rw [handleSession_mismatch env _ request (by simpa using hsess)]
        exact sendRespones_untouched env _ request _
    · rcases handleRequest_denied env server b r0 request hp (by simpa using hauth) with
        hf | ⟨a, ha⟩
      · rw [hf] at hret
        cases hret
      · rw [ha] at hret
        simp only [Outcome.ret.injEq, Prod.mk.injEq] at hret
        rw [← hret.1]
        unfold handleUnAuth
        exact Untouched.trans ⟨rfl, rfl, rfl, rfl⟩ (sendRespones_untouched env _ request _)

theorem sessionAfter_afterAuth {H : Type} (env : Env H) (server : RtspServer H)
    (request : RtspRequest) (track0 : RtspTrack) :
    sessionAfter env (afterAuth server request) request track0 =
      sessionAfter env server request track0 := by
  unfold sessionAfter
  rw [(afterAuth_frame server request).1, (afterAuth_frame server request).2.2.1]

/-- A SETUP that the engine commits: `handleRequest` returns; the session id
is the one of `sessionAfter`; the response (status 200) carries it in its
Session header; for a TCP-interleaved transport the pair (counter, counter+1)
is allocated to the matched track and the counter advances by two, for any
other transport no pair is allocated. -/
theorem handleRequest_committed {H : Type} (env : Env H) (server : RtspServer H) (b : Bytes)
    (request : RtspRequest) (i : Nat) (key : String) (track0 : RtspTrack)
    (hacc : AcceptedSetup env server b request i key track0) :
    ∃ s err res pre, handleRequest env server b = .ret (s, (env.parseRequest b).1, err) ∧
      s.sessionId = sessionAfter env server request track0 ∧
      s.trace = pre ++ (if server.output then [Event.write res] else []) ∧
      res.StatusCode = 200 ∧
      res.Fileds.get Session = s.sessionId ∧
      (((setupCall env server request track0).transport.Proto = .TCP ∧
          s.interleaved = server.interleaved + 2 ∧
          pairsOf s.trace =
            pairsOf server.trace ++ [(server.interleaved, server.interleaved + 1)] ∧
          ∃ t, s.tracks = server.tracks.set i (key, t) ∧
            t.TrackName = track0.TrackName ∧
            t.transport.map (fun tr => tr.Interleaved) =
              some (server.interleaved, server.interleaved + 1)) ∨
       ((setupCall env server request track0).transport.Proto ≠ .TCP ∧
          s.interleaved = server.interleaved ∧
          pairsOf s.trace = pairsOf server.trace)) := by
  obtain ⟨hp2, hauth, hsess, hm, hmatch, hok⟩ := hacc
  have hp : env.parseRequest b = ((env.parseRequest b).1, .ok request) := by
    rw [← hp2]
  obtain ⟨h1, h2, h3, h4, h5, h6, _⟩ := afterAuth_frame server request
  have hmatch1 : matchTrack request.Uri (afterAuth server request).tracks =
      some (i, key, track0) := by rw [h5]; exact hmatch
  have hreq := handleRequest_setup env server b _ request hp hauth hsess hm
  by_cases htcp : (setupCall env server request track0).transport.Proto = .TCP
  · rw [handleSetup_accepted_tcp env _ request i key track0 hmatch1
      (by rw [setupCall_afterAuth]; exact hok) (by rw [setupCall_afterAuth]; exact htcp),
      setupCall_afterAuth, sessionAfter_afterAuth, sendRespones_state] at hreq
    simp only [h1, h2, h3, h4, h5] at hreq
    refine ⟨_, _, _, _, hreq, rfl, rfl, hok, ?_, Or.inl ⟨htcp, rfl, ?_, _, rfl, rfl, rfl⟩⟩
    · rw [stampResponse_get _ _ _ _ _ (by decide) (by decide)]
      exact HeadFiled.get_set_self _ _ _
    · show pairsOf (server.trace ++ [setupEvent env request track0] ++
        [Event.interleave _ _ _] ++ written env _ _ _ _) = _
      rw [pairsOf_append, pairsOf_written, List.append_nil, pairsOf_append, pairsOf_append]
      simp [pairsOf, setupEvent]
  · rw [handleSetup_accepted_udp env _ request i key track0 hmatch1
      (by rw [setupCall_afterAuth]; exact hok) (by rw [setupCall_afterAuth]; exact htcp),
      setupCall_afterAuth, sessionAfter_afterAuth, sendRespones_state] at hreq
    simp only [h1, h2, h3, h4, h5] at hreq
    refine ⟨_, _, _, _, hreq, rfl, rfl, hok, ?_, Or.inr ⟨htcp, rfl, ?_⟩⟩
    · rw [stampResponse_get _ _ _ _ _ (by decide) (by decide)]
      exact HeadFiled.get_set_self _ _ _
    · show pairsOf (server.trace ++ [setupEvent env request track0] ++
        written env _ _ _ _) = _
      rw [pairsOf_append, pairsOf_written, List.append_nil, pairsOf_append]
      simp [pairsOf, setupEvent]

theorem sessionAfter_active {H : Type} (env : Env H) (server : RtspServer H)
    (request : RtspRequest) (track0 : RtspTrack) (h : server.sessionId ≠ "") :
    sessionAfter env server request track0 = server.sessionId := by
  unfold sessionAfter
  rw [if_neg h]

theorem sessionAfter_fresh {H : Type} (env : Env H) (server : RtspServer H)
    (request : RtspRequest) (track0 : RtspTrack) (h : server.sessionId = "") :
    tenDigits (sessionAfter env server request track0) = true := by
  unfold sessionAfter
  rw [if_pos h]
  exact newSessionId_tenDigits env _

theorem StepEffect.of_untouched {H : Type} {s s1 : RtspServer H} (h : Untouched s s1) :
    StepEffect s s1 :=
  ⟨fun _ => h.1, Or.inl ⟨h.2.1, h.2.2.1⟩⟩

/-- Every call of `handleRequest` that returns has a `StepEffect`. -/
theorem handleRequest_effect {H : Type} (env : Env H) (server : RtspServer H) (b : Bytes)
    (s : RtspServer H) (ret : Nat) (err : Option RtspError)
    (hret : handleRequest env server b = .ret (s, ret, err)) : StepEffect server s := by
  by_cases hacc : ∃ request i key track0, AcceptedSetup env server b request i key track0
  · obtain ⟨request, i, key, track0, hacc⟩ := hacc
    obtain ⟨s', err', res, pre, hreq, hsid, _, _, _, hch⟩ :=
      handleRequest_committed env server b request i key track0 hacc
    rw [hreq] at hret
    simp only [Outcome.ret.injEq, Prod.mk.injEq] at hret
    rw [← hret.1]
    refine ⟨fun hne => ?_, ?_⟩
    · rw [hsid, sessionAfter_active env server request track0 hne]
    · rcases hch with ⟨_, hi, hpairs, _⟩ | ⟨_, hi, hpairs⟩
      · exact Or.inr ⟨hi, hpairs⟩
      · exact Or.inl ⟨hi, hpairs⟩
  · exact StepEffect.of_untouched (handleRequest_untouched env server b s ret err hret hacc)

/-! ## Theorems: session id and channel pairs over a connection -/

theorem rtpRoute_untouched {H : Type} (env : Env H) (server : RtspServer H) (packet : Bytes)
    (c n : Nat) (tracks : List (String × RtspTrack)) (s1 : RtspServer H) (ret : Nat)
    (err : Option RtspError)
    (hret : rtpRoute env server packet c n tracks = .ret (s1, ret, err)) :
    Untouched server s1 := by
  induction tracks with
  | nil =>
    unfold rtpRoute at hret
    simp only [Outcome.ret.injEq, Prod.mk.injEq] at hret
    rw [← hret.1]
    exact Untouched.refl server
  | cons kt rest ih =>
    obtain ⟨k, t⟩ := kt
    unfold rtpRoute at hret
    cases htr : t.transport with
    | none => rw [htr] at hret; cases hret
    | some tr =>
      rw [htr] at hret
      simp only [] at hret
      split_ifs at hret with hown
      · cases hs : goSlice packet 4 ((4 + n) % 65536) with
        | none => rw [hs] at hret; cases hret
        | some payload =>
          rw [hs] at hret
          simp only [Outcome.ret.injEq, Prod.mk.injEq] at hret
          rw [← hret.1]
          refine ⟨rfl, rfl, ?_, rfl⟩
          show pairsOf (server.trace ++ [Event.deliver _ _ _]) = _
          rw [pairsOf_append]
          simp [pairsOf]
      · exact ih hret

theorem hanleRtpOverRtsp_untouched {H : Type} (env : Env H) (server : RtspServer H)
    (packet : Bytes) (s1 : RtspServer H) (ret : Nat) (err : Option RtspError)
    (hret : hanleRtpOverRtsp env server packet = .ret (s1, ret, err)) :
    Untouched server s1 := by
  by_cases hshort : packet.length < 4 ∨ packet.length < 4 + bigEndianUint16 packet
  · rw [hanleRtpOverRtsp_incomplete env server packet hshort] at hret
    simp only [Outcome.ret.injEq, Prod.mk.injEq] at hret
    rw [← hret.1]; exact Untouched.refl server
  · rw [hanleRtpOverRtsp_complete env server packet (by omega) (by omega)] at hret
    exact rtpRoute_untouched env server packet _ _ _ s1 ret err hret

/-- Every unit of input that is processed has a `StepEffect`. -/
theorem inputUnit_effect {H : Type} (env : Env H) (server : RtspServer H) (buf : Bytes)
    (s1 : RtspServer H) (ret : Nat) (err : Option RtspError)
    (hret : inputUnit env server buf = .ret (s1, ret, err)) : StepEffect server s1 := by
  unfold inputUnit at hret
  split_ifs at hret
  · exact StepEffect.of_untouched (hanleRtpOverRtsp_untouched env server buf s1 ret err hret)
  · unfold handleRtspMessage at hret
    cases hidx : indexNonSpace buf with
    | none => rw [hidx] at hret; cases hret
    | some idx =>
      rw [hidx] at hret
      simp only [] at hret
      split_ifs at hret
      · unfold handleResponse at hret
        simp only [Outcome.ret.injEq, Prod.mk.injEq] at hret
        rw [← hret.1]
        exact StepEffect.of_untouched (Untouched.refl server)
      · exact handleRequest_effect env server _ s1 ret err hret

/-- A property of the engine state that every `StepEffect` preserves holds
after the loop of `Input` if it held before. -/
theorem inputLoop_invariant {H : Type} (env : Env H) (P : RtspServer H → Prop)
    (hP : ∀ s s1, P s → StepEffect s s1 → P s1)
    (fuel : Nat) (server : RtspServer H) (buf : Bytes) (s1 : RtspServer H) (rest : Bytes)
    (err : Option RtspError) (h0 : P server)
    (hret : inputLoop env fuel server buf = .ret (s1, rest, err)) : P s1 := by
  induction fuel generalizing server buf with
  | zero =>
    unfold inputLoop at hret
    split_ifs at hret
    simp only [Outcome.ret.injEq, Prod.mk.injEq] at hret
    rw [← hret.1]; exact h0
  | succ f ih =>
    unfold inputLoop at hret
    split_ifs at hret
    · simp only [Outcome.ret.injEq, Prod.mk.injEq] at hret
      rw [← hret.1]; exact h0
    · cases hu : inputUnit env server buf with
      | fault t => rw [hu] at hret; cases hret
      | hang t => rw [hu] at hret; cases hret
      | ret r =>
        obtain ⟨s2, n, e⟩ := r
        rw [hu] at hret
        have h2 : P s2 := hP server s2 h0 (inputUnit_effect env server buf s2 n e hu)
        cases e with
        | some e1 =>
          simp only [Outcome.ret.injEq, Prod.mk.injEq] at hret
          rw [← hret.1]; exact h2
        | none =>
          simp only [] at hret
          split_ifs at hret
          exact ih s2 _ h2 hret

theorem withBuffer_effect {H : Type} (s : RtspServer H) (buf : Bytes) :
    StepEffect s { s with buffer := buf } :=
  StepEffect.of_untouched ⟨rfl, rfl, rfl, rfl⟩

theorem stageInput_effect {H : Type} (s : RtspServer H) (data : Bytes) :
    StepEffect s (stageInput s data).1 := by
  unfold stageInput
  split_ifs
  · exact withBuffer_effect s _
  · exact StepEffect.of_untouched (Untouched.refl s)

/-- The same for a whole call of `Input`. -/
theorem Input_invariant {H : Type} (env : Env H) (P : RtspServer H → Prop)
    (hP : ∀ s s1, P s → StepEffect s s1 → P s1)
    (server : RtspServer H) (data : Bytes) (s1 : RtspServer H) (err : Option RtspError)
    (h0 : P server) (hret : Input env server data = .ret (s1, err)) : P s1 := by
  unfold Input at hret
  simp only [] at hret
  have hst : P (stageInput server data).1 := hP _ _ h0 (stageInput_effect server data)
  cases hl : inputLoop env (stageInput server data).2.length (stageInput server data).1
      (stageInput server data).2 with
  | fault t => rw [hl] at hret; cases hret
  | hang t => rw [hl] at hret; cases hret
  | ret r =>
    obtain ⟨s2, rest, e⟩ := r
    rw [hl] at hret
    have h2 : P s2 := inputLoop_invariant env P hP _ _ _ s2 rest e hst hl
    have h3 : P (storeRest s2 rest) := by
      rw [storeRest_eq]; exact hP _ _ h2 (withBuffer_effect s2 rest)
    cases e with
    | none =>
      simp only [Outcome.ret.injEq, Prod.mk.injEq] at hret
      rw [← hret.1]; exact h3
    | some e1 =>
      simp only [] at hret
      split_ifs at hret
      · simp only [Outcome.ret.injEq, Prod.mk.injEq] at hret
        rw [← hret.1]; exact h3
      · simp only [Outcome.ret.injEq, Prod.mk.injEq] at hret
        rw [← hret.1]; exact h2

/-- The same for a sequence of `Input` calls. -/
theorem feed_invariant {H : Type} (env : Env H) (P : RtspServer H → Prop)
    (hP : ∀ s s1, P s → StepEffect s s1 → P s1)
    (chunks : List Bytes) (server : RtspServer H) (s1 : RtspServer H)
    (h0 : P server) (hret : feed env server chunks = .ret s1) : P s1 := by
  induction chunks generalizing server with
  | nil =>
    unfold feed at hret
    simp only [Outcome.ret.injEq] at hret
    rw [← hret]; exact h0
  | cons c cs ih =>
    unfold feed at hret
    cases hi : Input env server c with
    | fault t => rw [hi] at hret; cases hret
    | hang t => rw [hi] at hret; cases hret
    | ret r =>
      obtain ⟨s2, e⟩ := r
      rw [hi] at hret
      exact ih s2 (Input_invariant env P hP server c s2 e h0 hi) hret

theorem foldl_options_sessionId {H : Type} (env : Env H) (opt : List ServerOption)
    (rs : RtspServer H) :
    (opt.foldl (fun rs o => o.apply env rs) rs).sessionId = rs.sessionId ∧
    (opt.foldl (fun rs o => o.apply env rs) rs).interleaved = rs.interleaved ∧
    (opt.foldl (fun rs o => o.apply env rs) rs).trace = rs.trace := by
  induction opt generalizing rs with
  | nil => exact ⟨rfl, rfl, rfl⟩
  | cons o os ih =>
    simp only [List.foldl_cons]
    obtain ⟨h1, h2, h3⟩ := ih (o.apply env rs)
    rw [h1, h2, h3]
    cases o <;> exact ⟨rfl, rfl, rfl⟩

/-- A server that `NewRtspServer` returns has no session, counter 0, and an
empty event log. -/
theorem NewRtspServer_fresh {H : Type} (env : Env H) (handle : H) (opt : List ServerOption)
    (s0 : RtspServer H) (hnew : NewRtspServer env handle opt = .ret s0) :
    s0.sessionId = "" ∧ s0.interleaved = 0 ∧ s0.trace = [] := by
  obtain ⟨h1, h2, h3⟩ := foldl_options_sessionId env opt (RtspServer.initial handle)
  unfold NewRtspServer at hnew
  simp only [] at hnew
  split at hnew
  · split at hnew
    · cases hnew
    · injection hnew with hnew
      rw [← hnew]
      exact ⟨h1, h2, h3⟩
  · injection hnew with hnew
    rw [← hnew]
    exact ⟨h1, h2, h3⟩

/-- C8: the session id of an engine that `NewRtspServer` returns is empty.  A
call of `handleRequest` changes the session id only if it was empty and the
request is a SETUP that the engine commits (passes the gates, finds a track,
the callback leaves status 200).  Such a SETUP, with no session id yet, sets
it to a string of exactly ten decimal digits, and the response it writes
carries it in its Session header.  Once the session id is non-empty no
sequence of `Input` calls (requests of any method, interleaved frames)
changes it, and neither do `AddTrack` and `SetOutput`. -/
theorem sessionId_lifecycle {H : Type} (env : Env H) (server : RtspServer H) :
    (∀ handle opt s0, NewRtspServer env handle opt = .ret s0 → s0.sessionId = "") ∧
    (∀ b s ret err, handleRequest env server b = .ret (s, ret, err) →
      s.sessionId ≠ server.sessionId →
      server.sessionId = "" ∧
      ∃ request i key track0, AcceptedSetup env server b request i key track0) ∧
    (∀ b request i key track0, AcceptedSetup env server b request i key track0 →
      server.sessionId = "" →
      ∃ s err res pre, handleRequest env server b = .ret (s, (env.parseRequest b).1, err) ∧
        tenDigits s.sessionId = true ∧
        s.trace = pre ++ (if server.output then [Event.write res] else []) ∧
        res.Fileds.get Session = s.sessionId) ∧
    (∀ chunks s, server.sessionId ≠ "" → feed env server chunks = .ret s →
      s.sessionId = server.sessionId) ∧
    (∀ track, (AddTrack env server track).sessionId = server.sessionId) ∧
    (SetOutput server).sessionId = server.sessionId := by
  refine ⟨fun handle opt s0 h => (NewRtspServer_fresh env handle opt s0 h).1, ?_, ?_, ?_,
    fun _ => rfl, rfl⟩
  · intro b s ret err hret hne
    have heff := handleRequest_effect env server b s ret err hret
    have hempty : server.sessionId = "" := by
      by_contra h
      exact hne (heff.1 h)
    refine ⟨hempty, ?_⟩
    by_contra hno
    exact hne (handleRequest_untouched env server b s ret err hret hno).1
  · intro b request i key track0 hacc hempty
    obtain ⟨s, err, res, pre, hreq, hsid, htrace, _, hhdr, _⟩ :=
      handleRequest_committed env server b request i key track0 hacc
    refine ⟨s, err, res, pre, hreq, ?_, htrace, hhdr⟩
    rw [hsid]
    exact sessionAfter_fresh env server request track0 hempty
  · intro chunks s hne hfeed
    exact feed_invariant env (fun s => s.sessionId = server.sessionId)
      (fun s s1 hs heff => by
        rw [← hs]
        exact heff.1 (by rw [hs]; exact hne))
      chunks server s rfl hfeed

theorem sessionId_lifecycle_witness :
    ∃ s err res pre, handleRequest (textEnv acceptAll) describedServer setupTcpRequest =
        .ret (s, 77, err) ∧
      tenDigits s.sessionId = true ∧
      s.trace = pre ++ (if describedServer.output then [Event.write res] else []) ∧
      res.Fileds.get Session = s.sessionId :=
  (sessionId_lifecycle (textEnv acceptAll) describedServer).2.2.1 setupTcpRequest
    { Method := "SETUP", Uri := "rtsp://h/s/track0", Version := "RTSP/1.0",
      Fileds := ⟨[("CSeq", "3"), ("Transport", "RTP/AVP/TCP;unicast")]⟩, Body := "" }
    0 "video" { videoTrack with uri := "track0" }
    ⟨by rfl, by decide, by decide, by decide, by decide, by decide⟩ (by decide)

theorem pairsInOrder_succ (n : Nat) :
    pairsInOrder (n + 1) = pairsInOrder n ++ [(((2 * n : Nat) : Int), ((2 * n + 1 : Nat) : Int))] := by
  unfold pairsInOrder
  rw [List.range_succ, List.map_append]
  rfl

theorem length_pairsInOrder (n : Nat) : (pairsInOrder n).length = n := by
  unfold pairsInOrder
  rw [List.length_map, List.length_range]

/-- No channel number occurs twice among the pairs (0,1), ..., (2n-2, 2n-1). -/
theorem pairsInOrder_nodup (n : Nat) :
    ((pairsInOrder n).map (fun p => p.1) ++ (pairsInOrder n).map (fun p => p.2)).Nodup := by
  unfold pairsInOrder
  rw [List.map_map, List.map_map, List.nodup_append]
  refine ⟨?_, ?_, ?_⟩
  · refine List.Nodup.map ?_ (List.nodup_range n)
    intro a b hab
    simp only [Function.comp] at hab
    omega
  · refine List.Nodup.map ?_ (List.nodup_range n)
    intro a b hab
    simp only [Function.comp] at hab
    omega
  · intro x hx hy
    simp only [List.mem_map, List.mem_range, Function.comp] at hx hy
    obtain ⟨a, _, ha⟩ := hx
    obtain ⟨b, _, hb⟩ := hy
    omega

/-- Every `StepEffect` preserves the agreement of counter and pair log. -/
theorem PairsInOrder.step {H : Type} (s s1 : RtspServer H) (h : PairsInOrder s)
    (heff : StepEffect s s1) : PairsInOrder s1 := by
  obtain ⟨hp, hc⟩ := h
  rcases heff.2 with ⟨hi, hl⟩ | ⟨hi, hl⟩
  · unfold PairsInOrder
    rw [hl, hi]
    exact ⟨hp, hc⟩
  · unfold PairsInOrder
    rw [hl, hi, List.length_append, List.length_singleton, pairsInOrder_succ, ← hp, hc]
    refine ⟨?_, ?_⟩
    · congr 2
    · push_cast
      ring

/-- C9 (amended): on an engine whose channel counter is 0 and that has
allocated no pair yet, after every sequence of `Input` calls the channel pairs
allocated so far are, in order of allocation, (0,1), (2,3), ..., (2n-2, 2n-1),
the counter stands at 2n, and no channel number occurs twice among them.  A
call of `handleRequest` allocates at most one pair, and it allocates one only
for a SETUP that the engine commits with a TCP-interleaved transport: the pair
(counter, counter+1) becomes the channel pair of the one track the request
matched, no other track changes, and the counter advances by two. -/
theorem channel_pairs_in_order {H : Type} (env : Env H) (server : RtspServer H)
    (hcount : server.interleaved = 0) (hlog : pairsOf server.trace = []) :
    (∀ chunks s, feed env server chunks = .ret s →
      pairsOf s.trace = pairsInOrder (pairsOf s.trace).length ∧
      s.interleaved = ((2 * (pairsOf s.trace).length : Nat) : Int) ∧
      ((pairsOf s.trace).map (fun p => p.1) ++ (pairsOf s.trace).map (fun p => p.2)).Nodup) ∧
    (∀ (s0 : RtspServer H) b s ret err, handleRequest env s0 b = .ret (s, ret, err) →
      (pairsOf s.trace = pairsOf s0.trace ∧ s.interleaved = s0.interleaved) ∨
      (∃ request i key track0 t, AcceptedSetup env s0 b request i key track0 ∧
        (setupCall env s0 request track0).transport.Proto = .TCP ∧
        pairsOf s.trace = pairsOf s0.trace ++ [(s0.interleaved, s0.interleaved + 1)] ∧
        s.interleaved = s0.interleaved + 2 ∧
        s.tracks = s0.tracks.set i (key, t) ∧
        t.transport.map (fun tr => tr.Interleaved) =
          some (s0.interleaved, s0.interleaved + 1))) := by
  constructor
  · intro chunks s hfeed
    have h0 : PairsInOrder server := by
      unfold PairsInOrder
      rw [hlog, hcount]
      exact ⟨rfl, rfl⟩
    have hs := feed_invariant env PairsInOrder PairsInOrder.step chunks server s h0 hfeed
    refine ⟨hs.1, hs.2, ?_⟩
    rw [hs.1]
    exact pairsInOrder_nodup _
  · intro s0 b s ret err hret
    by_cases hacc : ∃ request i key track0, AcceptedSetup env s0 b request i key track0
    · obtain ⟨request, i, key, track0, hacc⟩ := hacc
      obtain ⟨s', err', res, pre, hreq, _, _, _, _, hch⟩ :=
        handleRequest_committed env s0 b request i key track0 hacc
      rw [hreq] at hret
      simp only [Outcome.ret.injEq, Prod.mk.injEq] at hret
      rw [← hret.1]
      rcases hch with ⟨htcp, hi, hpairs, t, ht, _, htr⟩ | ⟨_, hi, hpairs⟩
      · exact Or.inr ⟨request, i, key, track0, t, hacc, htcp, hpairs, hi, ht, htr⟩
      · exact Or.inl ⟨hpairs, hi⟩
    · have hu := handleRequest_untouched env s0 b s ret err hret hacc
      exact Or.inl ⟨hu.2.2.1, hu.2.1⟩

theorem channel_pairs_in_order_witness :
    feed (textEnv acceptAll) freshServer
      [announceRequest, setupAudioRequest, setupVideoRequest] = .ret recordServer ∧
    pairsOf recordServer.trace = [(0, 1), (2, 3)] ∧
    pairsOf recordServer.trace = pairsInOrder (pairsOf recordServer.trace).length ∧
    recordServer.interleaved = ((2 * (pairsOf recordServer.trace).length : Nat) : Int) ∧
    ((pairsOf recordServer.trace).map (fun p => p.1) ++
      (pairsOf recordServer.trace).map (fun p => p.2)).Nodup :=
  ⟨rfl, by decide,
   (channel_pairs_in_order (textEnv acceptAll) freshServer rfl rfl).1
     [announceRequest, setupAudioRequest, setupVideoRequest] recordServer rfl⟩

/-- C9 (counterexample): the video track of the engine was given the pair
(0, 1) by a first TCP-interleaved SETUP; a second SETUP of the same track
within the session gives it the pair (2, 3): the one track is given two
pairs. -/
theorem setup_twice_allocates_twice :
    allocationsOf tcpServer.trace = [("video", 0, 1)] ∧
    (requestOf setupAgainRequest).map (fun r => (r.Method, r.Uri, r.Fileds.get Session)) =
      some ("SETUP", "rtsp://h/s/track0", "0123456789") ∧
    allocationsOf (eventsOf (feed (textEnv acceptAll) tcpServer [setupAgainRequest])) =
      [("video", 0, 1), ("video", 2, 3)] ∧
    (serverOf tcpServer (feed (textEnv acceptAll) tcpServer [setupAgainRequest])).tracks.map
      (fun kt => (kt.1, kt.2.transport.map (fun tr => tr.Interleaved))) =
      [("video", some (2, 3))] := by
  refine ⟨by decide, by decide, by decide, by decide⟩

/-! ## Theorems: method dispatch -/

theorem responsesOf_append (t1 t2 : List Event) :
    responsesOf (t1 ++ t2) = responsesOf t1 ++ responsesOf t2 := by
  induction t1 with
  | nil => rfl
  | cons e es ih => cases e <;> simp [responsesOf, ih]

theorem foldl_AddTrack_trace {H : Type} (env : Env H) (tracks : List RtspTrack)
    (server : RtspServer H) :
    (tracks.foldl (AddTrack env) server).trace = server.trace ∧
    (tracks.foldl (AddTrack env) server).output = server.output ∧
    (tracks.foldl (AddTrack env) server).handle = server.handle ∧
    (tracks.foldl (AddTrack env) server).isRecord = server.isRecord ∧
    (tracks.foldl (AddTrack env) server).buffer = server.buffer := by
  induction tracks generalizing server with
  | nil => exact ⟨rfl, rfl, rfl, rfl, rfl⟩
  | cons t ts ih =>
    simp only [List.foldl_cons]
    obtain ⟨h1, h2, h3, h4, h5⟩ := ih (AddTrack env server t)
    rw [h1, h2, h3, h4, h5]
    exact ⟨rfl, rfl, rfl, rfl, rfl⟩

theorem applyHandle_trace {H : Type} (env : Env H) (server : RtspServer H) (call : HandleCall)
    (r : HandleResult H) :
    (applyHandle env server call r).trace = server.trace ++ [Event.callback call] ∧
    (applyHandle env server call r).output = server.output := by
  unfold applyHandle
  obtain ⟨h1, h2, _⟩ := foldl_AddTrack_trace env r.addTracks
    { server with handle := r.handle, trace := server.trace ++ [Event.callback call] }
  exact ⟨h1, h2⟩

theorem stringsJoin_methods :
    stringsJoin [OPTIONS, SET_PARAMETER, GET_PARAMETER, SETUP, DESCRIBE, PLAY, ANNOUNCE,
      RECORD, TEARDOWN, PAUSE] "," = publicMethods := by
  decide

theorem handleMethod_options {H : Type} (env : Env H) (server : RtspServer H)
    (request : RtspRequest) (res : RtspResponse) (hm : request.Method = OPTIONS) :
    handleMethod env server request res =
      (applyHandle env server (.option request)
         (env.handle.HandleOption server.handle request res),
       .ok (if (env.handle.HandleOption server.handle request res).res.StatusCode = 200 then
              { (env.handle.HandleOption server.handle request res).res with
                Fileds := (env.handle.HandleOption server.handle request res).res.Fileds.set
                  Public publicMethods }
            else (env.handle.HandleOption server.handle request res).res)) := by
  unfold handleMethod
  rw [if_pos hm]
  simp only [stringsJoin_methods]
  split_ifs <;> rfl

theorem handleMethod_describe {H : Type} (env : Env H) (server : RtspServer H)
    (request : RtspRequest) (res : RtspResponse) (hm : request.Method = DESCRIBE) :
    handleMethod env server request res =
      (applyHandle env server (.describe request)
         (env.handle.HandleDescribe server.handle request res),
       .ok (if (env.handle.HandleDescribe server.handle request res).res.StatusCode = OK then
              { (env.handle.HandleDescribe server.handle request res).res with
                Body := env.sdpEncode
                  (applyHandle env server (.describe request)
                    (env.handle.HandleDescribe server.handle request res)).sdpAttrs
                  (applyHandle env server (.describe request)
                    (env.handle.HandleDescribe server.handle request res)).sdpMedias,
                Fileds := (env.handle.HandleDescribe server.handle request res).res.Fileds.set
                  ContentType "application/sdp" }
            else (env.handle.HandleDescribe server.handle request res).res)) := by
  unfold handleMethod
  rw [hm, if_neg (by decide), if_pos rfl]
  simp only []
  split_ifs <;> rfl

theorem handleMethod_announce {H : Type} (env : Env H) (server : RtspServer H)
    (request : RtspRequest) (res : RtspResponse) (hm : request.Method = ANNOUNCE) :
    handleMethod env server request res =
      match handleAnnounce env server request with
      | (server1, some err) => (server1, .error err)
      | (server1, none) => (server1, .ok res) := by
  unfold handleMethod
  rw [hm, if_neg (by decide), if_neg (by decide), if_neg (by decide), if_pos rfl]

theorem handleMethod_play {H : Type} (env : Env H) (server : RtspServer H)
    (request : RtspRequest) (res : RtspResponse) (hm : request.Method = PLAY) :
    handleMethod env server request res =
      (applyHandle env server (.play request (rangeOf env request) (gatherRtpInfo server.tracks))
         (env.handle.HandlePlay server.handle request res (rangeOf env request)
           (gatherRtpInfo server.tracks)),
       .ok (shapePlay env
         (env.handle.HandlePlay server.handle request res (rangeOf env request)
           (gatherRtpInfo server.tracks)).res
         (rangeOf env request) (gatherRtpInfo server.tracks))) := by
  unfold handleMethod
  rw [hm, if_neg (by decide), if_neg (by decide), if_neg (by decide), if_neg (by decide),
    if_pos rfl]
  rfl

theorem handleMethod_record {H : Type} (env : Env H) (server : RtspServer H)
    (request : RtspRequest) (res : RtspResponse) (hm : request.Method = RECORD) :
    handleMethod env server request res =
      (applyHandle env server
         (.record request (rangeOf env request) (gatherRtpInfo server.tracks))
         (env.handle.HandleRecord server.handle request res (rangeOf env request)
           (gatherRtpInfo server.tracks)),
       .ok (shapePlay env
         (env.handle.HandleRecord server.handle request res (rangeOf env request)
           (gatherRtpInfo server.tracks)).res
         (rangeOf env request) (gatherRtpInfo server.tracks))) := by
  unfold handleMethod
  rw [hm, if_neg (by decide), if_neg (by decide), if_neg (by decide), if_neg (by decide),
    if_neg (by decide), if_pos rfl]
  rfl

theorem handleMethod_teardown {H : Type} (env : Env H) (server : RtspServer H)
    (request : RtspRequest) (res : RtspResponse) (hm : request.Method = TEARDOWN) :
    handleMethod env server request res =
      (applyHandle env server (.teardown request)
         (env.handle.HandleTeardown server.handle request res),
       .ok (env.handle.HandleTeardown server.handle request res).res) := by
  unfold handleMethod
  rw [hm, if_neg (by decide), if_neg (by decide), if_neg (by decide), if_neg (by decide),
    if_neg (by decide), if_neg (by decide), if_pos rfl]

theorem handleMethod_pause {H : Type} (env : Env H) (server : RtspServer H)
    (request : RtspRequest) (res : RtspResponse) (hm : request.Method = PAUSE) :
    handleMethod env server request res =
      (applyHandle env server (.pause request)
         (env.handle.HandlePause server.handle request res),
       .ok (env.handle.HandlePause server.handle request res).res) := by
  unfold handleMethod
  rw [hm, if_neg (by decide), if_neg (by decide), if_neg (by decide), if_neg (by decide),
    if_neg (by decide), if_neg (by decide), if_neg (by decide), if_pos rfl]

theorem handleMethod_setParameter {H : Type} (env : Env H) (server : RtspServer H)
    (request : RtspRequest) (res : RtspResponse) (hm : request.Method = SET_PARAMETER) :
    handleMethod env server request res =
      (applyHandle env server (.setParameter request)
         (env.handle.HandleSetParameter server.handle request res),
       .ok (env.handle.HandleSetParameter server.handle request res).res) := by
  unfold handleMethod
  rw [hm, if_neg (by decide), if_neg (by decide), if_neg (by decide), if_neg (by decide),
    if_neg (by decide), if_neg (by decide), if_neg (by decide), if_neg (by decide), if_pos rfl]

theorem handleMethod_getParameter {H : Type} (env : Env H) (server : RtspServer H)
    (request : RtspRequest) (res : RtspResponse) (hm : request.Method = GET_PARAMETER) :
    handleMethod env server request res =
      (applyHandle env server (.getParameter request)
         (env.handle.HandleGetParameter server.handle request res),
       .ok (env.handle.HandleGetParameter server.handle request res).res) := by
  unfold handleMethod
  rw [hm, if_neg (by decide), if_neg (by decide), if_neg (by decide), if_neg (by decide),
    if_neg (by decide), if_neg (by decide), if_neg (by decide), if_neg (by decide),
    if_neg (by decide), if_pos rfl]

/-- A request that passes both gates and whose method case yields a response:
that response goes to `sendRespones`. -/
theorem handleRequest_dispatch {H : Type} (env : Env H) (server : RtspServer H) (b : Bytes)
    (ret : Nat) (request : RtspRequest) (s1 : RtspServer H) (res1 : RtspResponse)
    (hparse : env.parseRequest b = (ret, .ok request))
    (hauth : authPasses env server request = true)
    (hsess : sessionPasses server request = true)
    (hM : handleMethod env (afterAuth server request) request okResponse = (s1, .ok res1)) :
    handleRequest env server b =
      .ret ((sendRespones env s1 request res1).1, ret,
            (sendRespones env s1 request res1).2) := by
  have hs : sessionPasses (afterAuth server request) request = true := by
    rw [sessionPasses_afterAuth]; exact hsess
  rw [handleRequest_authorized env server b ret request hparse hauth,
    handleSession_pass env _ request hs, hM]

/-- The RTP-Info list PLAY and RECORD gather is empty, whatever the tracks. -/
theorem gatherRtpInfo_nil (tracks : List (String × RtspTrack)) : gatherRtpInfo tracks = [] := by
  unfold gatherRtpInfo
  induction tracks with
  | nil => rfl
  | cons kt rest ih => simp

/-- C11 (failing input): the engine holds one registered track (control URI
"rtsp://h/s/track0", sequence number 0) and handles a PLAY request, then, from
the same state, a RECORD request, both within the session.  `HandlePlay` and
`HandleRecord` are passed an empty RTP-Info list, and the 200 responses
written have no RTP-Info header. -/
theorem play_and_record_pass_no_rtp_info :
    tcpServer.tracks.map (fun kt => (kt.2.uri, kt.2.initSequence)) =
      [("rtsp://h/s/track0", 0)] ∧
    addedTo tcpServer.trace (feed (textEnv acceptAll) tcpServer [playRequest]) =
      [Event.callback (.play
         { Method := "PLAY", Uri := "rtsp://h/s", Version := "RTSP/1.0",
           Fileds := ⟨[("CSeq", "5"), ("Session", "0123456789")]⟩, Body := "" } none []),
       Event.write
         { Version := "RTSP/1.0", StatusCode := 200,
           Fileds := ⟨[("CSeq", "5"), ("Date", "01 Jan 70 00:00:00 GMT")]⟩, Body := "" }] ∧
    addedTo tcpServer.trace (feed (textEnv acceptAll) tcpServer [recordRequest]) =
      [Event.callback (.record
         { Method := "RECORD", Uri := "rtsp://h/s", Version := "RTSP/1.0",
           Fileds := ⟨[("CSeq", "5"), ("Session", "0123456789")]⟩, Body := "" } none []),
       Event.write
         { Version := "RTSP/1.0", StatusCode := 200,
           Fileds := ⟨[("CSeq", "5"), ("Date", "01 Jan 70 00:00:00 GMT")]⟩, Body := "" }] := by
  refine ⟨by decide, by decide, by decide⟩

theorem Quiet_refl {H : Type} (s : RtspServer H) : Quiet s s :=
  ⟨rfl, [], by rw [List.append_nil], rfl⟩

theorem Quiet_trans {H : Type} {s s1 s2 : RtspServer H} (h1 : Quiet s s1) (h2 : Quiet s1 s2) :
    Quiet s s2 := by
  obtain ⟨ho1, pre1, ht1, hr1⟩ := h1
  obtain ⟨ho2, pre2, ht2, hr2⟩ := h2
  refine ⟨ho2.trans ho1, pre1 ++ pre2, ?_, ?_⟩
  · rw [ht2, ht1, List.append_assoc]
  · rw [responsesOf_append, hr1, hr2]; rfl

theorem applyHandle_quiet {H : Type} (env : Env H) (server : RtspServer H) (call : HandleCall)
    (r : HandleResult H) : Quiet server (applyHandle env server call r) :=
  ⟨(applyHandle_trace env server call r).2, [Event.callback call],
   (applyHandle_trace env server call r).1, rfl⟩

theorem afterAuth_quiet {H : Type} (server : RtspServer H) (request : RtspRequest) :
    Quiet server (afterAuth server request) :=
  ⟨(afterAuth_frame server request).2.1, [],
   by rw [List.append_nil]; exact (afterAuth_frame server request).1, rfl⟩

theorem handleAnnounce_quiet {H : Type} (env : Env H) (server : RtspServer H)
    (request : RtspRequest) : Quiet server (handleAnnounce env server request).1 := by
  unfold handleAnnounce
  simp only []
  cases (env.parserSdp server.sdpMedias request.Body).2 with
  | some err => exact ⟨rfl, [], by simp, rfl⟩
  | none =>
    simp only []
    obtain ⟨h1, h2, _⟩ := foldl_AddTrack_trace env
      (env.handle.HandleAnnounce server.handle request
        ((env.parserSdp server.sdpMedias request.Body).1.foldl
          (fun ts media => insertTrack ts media.MediaType (announceTrack env media))
          server.tracks)).addTracks
      { server with
        sdpMedias := (env.parserSdp server.sdpMedias request.Body).1,
        isRecord := true,
        tracks := (env.parserSdp server.sdpMedias request.Body).1.foldl
          (fun ts media => insertTrack ts media.MediaType (announceTrack env media))
          server.tracks,
        handle := (env.handle.HandleAnnounce server.handle request
          ((env.parserSdp server.sdpMedias request.Body).1.foldl
            (fun ts media => insertTrack ts media.MediaType (announceTrack env media))
            server.tracks)).handle,
        trace := server.trace ++ [Event.callback (.announce request
          ((env.parserSdp server.sdpMedias request.Body).1.foldl
            (fun ts media => insertTrack ts media.MediaType (announceTrack env media))
            server.tracks))] }
    exact ⟨h2, _, h1, rfl⟩

theorem handleSetup_quiet {H : Type} (env : Env H) (server : RtspServer H)
    (request : RtspRequest) : Quiet server (handleSetup env server request okResponse).1 := by
  cases hmatch : matchTrack request.Uri server.tracks with
  | none =>
    rw [handleSetup_unmatched env server request hmatch]
    exact Quiet_refl server
  | some m =>
    obtain ⟨i, key, track0⟩ := m
    by_cases hok : (setupCall env server request track0).res.StatusCode = 200
    · by_cases htcp : (setupCall env server request track0).transport.Proto = .TCP
      · rw [handleSetup_accepted_tcp env server request i key track0 hmatch hok htcp]
        exact ⟨rfl, _, List.append_assoc _ _ _, rfl⟩
      · rw [handleSetup_accepted_udp env server request i key track0 hmatch hok htcp]
        exact ⟨rfl, _, rfl, rfl⟩
    · rw [handleSetup_rejected env server request i key track0 hmatch hok]
      exact ⟨rfl, _, rfl, rfl⟩

/-- The method switch writes no response itself and keeps the output sink. -/
theorem handleMethod_quiet {H : Type} (env : Env H) (server : RtspServer H)
    (request : RtspRequest) : Quiet server (handleMethod env server request okResponse).1 := by
  by_cases hs : request.Method = SETUP
  · rw [handleMethod_setup env server request _ hs]
    exact handleSetup_quiet env server request
  · unfold handleMethod
    simp only []
    split_ifs
    any_goals exact applyHandle_quiet env server _ _
    · have h := handleAnnounce_quiet env server request
      cases hA : handleAnnounce env server request with
      | mk s1 e =>
        rw [hA] at h
        cases e <;> exact h
    · exact Quiet_refl server

theorem stampResponse_stamped {H : Type} (env : Env H) (trace : List Event) (req : RtspRequest)
    (res : RtspResponse) :
    (stampResponse env trace req res).Fileds.get CSeq = req.Fileds.get CSeq ∧
    (stampResponse env trace req res).Fileds.Has CSeq = true ∧
    (stampResponse env trace req res).Fileds.Has Date = true := by
  unfold stampResponse
  refine ⟨?_, ?_, ?_⟩
  · rw [HeadFiled.get_set_ne _ _ _ _ (by decide)]
    exact HeadFiled.get_set_self _ _ _
  · rw [HeadFiled.Has_set_ne _ _ _ _ (by decide)]
    exact HeadFiled.Has_set_self _ _ _
  · exact HeadFiled.Has_set_self _ _ _

theorem responsesOf_written {H : Type} (env : Env H) (output : Bool) (trace : List Event)
    (req : RtspRequest) (res res1 : RtspResponse)
    (hmem : res1 ∈ responsesOf (written env output trace req res)) :
    res1 = stampResponse env trace req res := by
  unfold written at hmem
  cases output
  · simp [responsesOf] at hmem
  · simpa [responsesOf] using hmem

theorem shapePlay_status {H : Type} (env : Env H) (res : RtspResponse) (tr : Option String)
    (info : List RtpInfo) : (shapePlay env res tr info).StatusCode = res.StatusCode := by
  unfold shapePlay
  cases tr <;> split_ifs <;> rfl

/-- The status of the response the method switch yields: the status the
capability callback left when one was handed the response; otherwise 400 for
a SETUP (no track matched) and 200 for every other method. -/
theorem handleMethod_status {H : Type} (env : Env H) (server : RtspServer H)
    (request : RtspRequest) (s1 : RtspServer H) (res1 : RtspResponse)
    (hM : handleMethod env server request okResponse = (s1, .ok res1)) :
    match calledBack env server request with
    | some r => res1.StatusCode = r.StatusCode
    | none => (request.Method = SETUP ∧ res1.StatusCode = 400) ∨
        (request.Method ≠ SETUP ∧ res1.StatusCode = 200) := by
  by_cases h1 : request.Method = OPTIONS
  · have hcb : calledBack env server request =
        some (env.handle.HandleOption server.handle request okResponse).res := by
      unfold calledBack; rw [if_pos h1]
    rw [handleMethod_options env server request _ h1] at hM
    simp only [Prod.mk.injEq, Except.ok.injEq] at hM
    rw [hcb, ← hM.2]
    show (if _ then _ else _ : RtspResponse).StatusCode = _
    split_ifs <;> rfl
  by_cases h2 : request.Method = DESCRIBE
  · have hcb : calledBack env server request =
        some (env.handle.HandleDescribe server.handle request okResponse).res := by
      unfold calledBack; rw [if_neg h1, if_pos h2]
    rw [handleMethod_describe env server request _ h2] at hM
    simp only [Prod.mk.injEq, Except.ok.injEq] at hM
    rw [hcb, ← hM.2]
    show (if _ then _ else _ : RtspResponse).StatusCode = _
    split_ifs <;> rfl
  by_cases h3 : request.Method = SETUP
  · have hcb : calledBack env server request =
        (matchTrack request.Uri server.tracks).map
          (fun m => (setupCall env server request m.2.2).res) := by
      unfold calledBack; rw [if_neg h1, if_neg h2, if_pos h3]
    rw [handleMethod_setup env server request _ h3] at hM
    simp only [Prod.mk.injEq, Except.ok.injEq] at hM
    rw [hcb, ← hM.2]
    cases hmatch : matchTrack request.Uri server.tracks with
    | none =>
      rw [handleSetup_unmatched env server request hmatch]
      exact Or.inl ⟨h3, rfl⟩
    | some m =>
      obtain ⟨i, key, track0⟩ := m
      by_cases hok : (setupCall env server request track0).res.StatusCode = 200
      · by_cases htcp : (setupCall env server request track0).transport.Proto = .TCP
        · rw [handleSetup_accepted_tcp env server request i key track0 hmatch hok htcp]
          rfl
        · rw [handleSetup_accepted_udp env server request i key track0 hmatch hok htcp]
          rfl
      · rw [handleSetup_rejected env server request i key track0 hmatch hok]
        rfl
  by_cases h4 : request.Method = ANNOUNCE
  · have hcb : calledBack env server request = none := by
      unfold calledBack; rw [if_neg h1, if_neg h2, if_neg h3, if_pos h4]
    rw [handleMethod_announce env server request _ h4] at hM
    rw [hcb]
    refine Or.inr ⟨h3, ?_⟩
    cases hA : handleAnnounce env server request with
    | mk s2 e =>
      rw [hA] at hM
      cases e with
      | some err => simp at hM
      | none =>
        simp only [Prod.mk.injEq, Except.ok.injEq] at hM
        rw [← hM.2]; rfl
  by_cases h5 : request.Method = PLAY
  · have hcb : calledBack env server request =
        some (env.handle.HandlePlay server.handle request okResponse (rangeOf env request)
          (gatherRtpInfo server.tracks)).res := by
      unfold calledBack; rw [if_neg h1, if_neg h2, if_neg h3, if_neg h4, if_pos h5]
    rw [handleMethod_play env server request _ h5] at hM
    simp only [Prod.mk.injEq, Except.ok.injEq] at hM
    rw [hcb, ← hM.2]
    exact shapePlay_status env _ _ _
  by_cases h6 : request.Method = RECORD
  · have hcb : calledBack env server request =
        some (env.handle.HandleRecord server.handle request okResponse (rangeOf env request)
          (gatherRtpInfo server.tracks)).res := by
      unfold calledBack; rw [if_neg h1, if_neg h2, if_neg h3, if_neg h4, if_neg h5, if_pos h6]
    rw [handleMethod_record env server request _ h6] at hM
    simp only [Prod.mk.injEq, Except.ok.injEq] at hM
    rw [hcb, ← hM.2]
    exact shapePlay_status env _ _ _
  by_cases h7 : request.Method = TEARDOWN
  · have hcb : calledBack env server request =
        some (env.handle.HandleTeardown server.handle request okResponse).res := by
      unfold calledBack
      rw [if_neg h1, if_neg h2, if_neg h3, if_neg h4, if_neg h5, if_neg h6, if_pos h7]
    rw [handleMethod_teardown env server request _ h7] at hM
    simp only [Prod.mk.injEq, Except.ok.injEq] at hM
    rw [hcb, ← hM.2]
  by_cases h8 : request.Method = PAUSE
  · have hcb : calledBack env server request =
        some (env.handle.HandlePause server.handle request okResponse).res := by
      unfold calledBack
      rw [if_neg h1, if_neg h2, if_neg h3, if_neg h4, if_neg h5, if_neg h6, if_neg h7,
        if_pos h8]
    rw [handleMethod_pause env server request _ h8] at hM
    simp only [Prod.mk.injEq, Except.ok.injEq] at hM
    rw [hcb, ← hM.2]
  by_cases h9 : request.Method = SET_PARAMETER
  · have hcb : calledBack env server request =
        some (env.handle.HandleSetParameter server.handle request okResponse).res := by
      unfold calledBack
      rw [if_neg h1, if_neg h2, if_neg h3, if_neg h4, if_neg h5, if_neg h6, if_neg h7,
        if_neg h8, if_pos h9]
    rw [handleMethod_setParameter env server request _ h9] at hM
    simp only [Prod.mk.injEq, Except.ok.injEq] at hM
    rw [hcb, ← hM.2]
  by_cases h10 : request.Method = GET_PARAMETER
  · have hcb : calledBack env server request =
        some (env.handle.HandleGetParameter server.handle request okResponse).res := by
      unfold calledBack
      rw [if_neg h1, if_neg h2, if_neg h3, if_neg h4, if_neg h5, if_neg h6, if_neg h7,
        if_neg h8, if_neg h9, if_pos h10]
    rw [handleMethod_getParameter env server request _ h10] at hM
    simp only [Prod.mk.injEq, Except.ok.injEq] at hM
    rw [hcb, ← hM.2]
  · have hcb : calledBack env server request = none := by
      unfold calledBack
      rw [if_neg h1, if_neg h2, if_neg h3, if_neg h4, if_neg h5, if_neg h6, if_neg h7,
        if_neg h8, if_neg h9, if_neg h10]
    unfold handleMethod at hM
    rw [if_neg h1, if_neg h2, if_neg h3, if_neg h4, if_neg h5, if_neg h6, if_neg h7, if_neg h8,
      if_neg h9, if_neg h10] at hM
    simp only [Prod.mk.injEq, Except.ok.injEq] at hM
    rw [hcb]
    refine Or.inr ⟨h3, ?_⟩
    rw [← hM.2]; rfl

theorem calledBack_afterAuth {H : Type} (env : Env H) (server : RtspServer H)
    (request : RtspRequest) :
    calledBack env (afterAuth server request) request = calledBack env server request := by
  unfold calledBack setupCall
  rw [(afterAuth_frame server request).2.2.2.2.2.1, (afterAuth_frame server request).2.2.2.2.1]

/-- What a request that passes both gates adds to the event log: events of the
method case that are not responses, then, unless ANNOUNCE returned an SDP
error, the one response of the method case, stamped. -/
theorem handleRequest_answer {H : Type} (env : Env H) (server : RtspServer H) (b : Bytes)
    (ret : Nat) (request : RtspRequest)
    (hparse : env.parseRequest b = (ret, .ok request))
    (hauth : authPasses env server request = true)
    (hsess : sessionPasses server request = true) :
    ∃ s err pre, handleRequest env server b = .ret (s, ret, err) ∧
      (handleMethod env (afterAuth server request) request okResponse).1.trace =
        server.trace ++ pre ∧
      responsesOf pre = [] ∧
      ((∃ e, (handleMethod env (afterAuth server request) request okResponse).2 = .error e ∧
          s.trace = server.trace ++ pre) ∨
       (∃ res1, (handleMethod env (afterAuth server request) request okResponse).2 = .ok res1 ∧
          s.trace = server.trace ++ pre ++
            written env server.output (server.trace ++ pre) request res1)) := by
  obtain ⟨hout, pre, htrace, hquiet⟩ :=
    Quiet_trans (afterAuth_quiet server request)
      (handleMethod_quiet env (afterAuth server request) request)
  have hs : sessionPasses (afterAuth server request) request = true := by
    rw [sessionPasses_afterAuth]; exact hsess
  have hreq := handleRequest_authorized env server b ret request hparse hauth
  rw [handleSession_pass env _ request hs] at hreq
  cases hM : handleMethod env (afterAuth server request) request okResponse with
  | mk s1 e =>
    rw [hM] at hreq htrace hout
    simp only [] at htrace hout
    cases e with
    | error e1 =>
      exact ⟨_, _, pre, hreq, htrace, hquiet, Or.inl ⟨e1, rfl, htrace⟩⟩
    | ok res1 =>
      refine ⟨_, _, pre, hreq, htrace, hquiet, Or.inr ⟨res1, rfl, ?_⟩⟩
      simp only []
      rw [sendRespones_state]
      show s1.trace ++ written env s1.output s1.trace request res1 = _
      rw [htrace, hout]

theorem afterAuth_sdp {H : Type} (server : RtspServer H) (request : RtspRequest) :
    (afterAuth server request).sdpMedias = server.sdpMedias ∧
    (afterAuth server request).isRecord = server.isRecord := by
  unfold afterAuth
  split_ifs <;> exact ⟨rfl, rfl⟩

theorem responsesOf_stamped {H : Type} (env : Env H) (output : Bool) (trace pre : List Event)
    (request : RtspRequest) (res1 res : RtspResponse) (hpre : responsesOf pre = [])
    (hmem : res ∈ responsesOf (pre ++ written env output trace request res1)) :
    res = stampResponse env trace request res1 := by
  rw [responsesOf_append, hpre, List.nil_append] at hmem
  exact responsesOf_written env output trace request res1 res hmem

/-- A call of `handleRequest` returns, or faults on the nil authenticator
before any event is added. -/
theorem handleRequest_outcome {H : Type} (env : Env H) (server : RtspServer H) (b : Bytes) :
    (∃ s ret err, handleRequest env server b = .ret (s, ret, err)) ∨
      handleRequest env server b = .fault server.trace := by
  unfold handleRequest
  rcases env.parseRequest b with ⟨r0, e | request⟩
  · exact Or.inl ⟨_, _, _, rfl⟩
  · simp only []
    split_ifs
    · cases server.auth with
      | none => exact Or.inr rfl
      | some a =>
        simp only []
        split_ifs
        · exact Or.inl ⟨_, _, _, rfl⟩
        · exact Or.inl ⟨_, _, _, rfl⟩
    · exact Or.inl ⟨_, _, _, rfl⟩

/-- C12: every response a call of `handleRequest` writes has a CSeq header,
equal to the CSeq header of the request it answers, and a Date header; and
when the request passes both gates, the callback (if one is handed the
response) leaves the status 200 it was handed, and the engine does not set
400 (a SETUP that matches no track), the response written has status 200.
The call returns, unless it faults on a nil authenticator before anything is
written. -/
theorem responses_echo_cseq_and_date {H : Type} (env : Env H) (server : RtspServer H)
    (b : Bytes) :
    (∀ s ret err, handleRequest env server b = .ret (s, ret, err) →
      ∃ added, s.trace = server.trace ++ added ∧
        ∀ res ∈ responsesOf added, ∃ request, (env.parseRequest b).2 = .ok request ∧
          res.Fileds.Has CSeq = true ∧
          res.Fileds.get CSeq = request.Fileds.get CSeq ∧
          res.Fileds.Has Date = true) ∧
    (∀ s ret err request, handleRequest env server b = .ret (s, ret, err) →
      (env.parseRequest b).2 = .ok request →
      authPasses env server request = true →
      sessionPasses server request = true →
      (match calledBack env server request with
        | some r => r.StatusCode = 200
        | none => request.Method ≠ SETUP) →
      ∃ added, s.trace = server.trace ++ added ∧
        ∀ res ∈ responsesOf added, res.StatusCode = 200) ∧
    ((∃ s ret err, handleRequest env server b = .ret (s, ret, err)) ∨
      handleRequest env server b = .fault server.trace) := by
  refine ⟨?_, ?_, handleRequest_outcome env server b⟩
  · intro s ret err hret
    rcases hp : env.parseRequest b with ⟨r0, e | request⟩
    · unfold handleRequest at hret
      rw [hp] at hret
      simp only [Outcome.ret.injEq, Prod.mk.injEq] at hret
      refine ⟨[], by rw [← hret.1, List.append_nil], ?_⟩
      intro res hres
      simp [responsesOf] at hres
    · have hgood : ∀ (trace : List Event) (res1 res : RtspResponse),
          res = stampResponse env trace request res1 →
          ∃ request1, (r0, (Except.ok request : Except RtspError RtspRequest)).2 = .ok request1 ∧
            res.Fileds.Has CSeq = true ∧
            res.Fileds.get CSeq = request1.Fileds.get CSeq ∧
            res.Fileds.Has Date = true := by
        intro trace res1 res hres
        obtain ⟨h1, h2, h3⟩ := stampResponse_stamped env trace request res1
        rw [hres]
        exact ⟨request, rfl, h2, h1, h3⟩
      by_cases hauth : authPasses env server request = true
      · by_cases hsess : sessionPasses server request = true
        · obtain ⟨s', err', pre, hreq, _, hquiet, hcase⟩ :=
            handleRequest_answer env server b r0 request hp hauth hsess
          rw [hreq] at hret
          simp only [Outcome.ret.injEq, Prod.mk.injEq] at hret
          rw [← hret.1]
          rcases hcase with ⟨e, _, htr⟩ | ⟨res1, _, htr⟩
          · refine ⟨pre, htr, ?_⟩
            intro res hres
            rw [hquiet] at hres
            cases hres
          · refine ⟨pre ++ written env server.output (server.trace ++ pre) request res1,
              by rw [htr, List.append_assoc], ?_⟩
            intro res hres
            exact hgood _ res1 res (responsesOf_stamped env _ _ pre request res1 res hquiet hres)
        · rw [handleRequest_authorized env server b r0 request hp hauth,
            handleSession_mismatch env _ request
              (by rw [sessionPasses_afterAuth]; simpa using hsess),
            sendRespones_state] at hret
          simp only [Outcome.ret.injEq, Prod.mk.injEq] at hret
          rw [← hret.1]
          refine ⟨written env (afterAuth server request).output (afterAuth server request).trace
            request { okResponse with StatusCode := Session_Not_Found }, ?_, ?_⟩
          · show (afterAuth server request).trace ++ _ = _
            rw [(afterAuth_frame server request).1]
          · intro res hres
            exact hgood _ _ res (responsesOf_written env _ _ request _ res hres)
      · rcases handleRequest_denied env server b r0 request hp (by simpa using hauth) with
          hf | ⟨a, ha⟩
        · rw [hf] at hret
          cases hret
        · rw [ha] at hret
          unfold handleUnAuth at hret
          rw [sendRespones_state] at hret
          simp only [Outcome.ret.injEq, Prod.mk.injEq] at hret
          rw [← hret.1]
          refine ⟨written env server.output server.trace request
            { Version := "", StatusCode := 401,
              Fileds := HeadFiled.empty.set WWWAuthenticate (env.wwwAuthenticate a),
              Body := "" }, rfl, ?_⟩
          intro res hres
          exact hgood _ _ res (responsesOf_written env _ _ request _ res hres)
  · intro s ret err request hret hp2 hauth hsess hdef
    have hp : env.parseRequest b = ((env.parseRequest b).1, .ok request) := by rw [← hp2]
    obtain ⟨s', err', pre, hreq, _, hquiet, hcase⟩ :=
      handleRequest_answer env server b _ request hp hauth hsess
    rw [hreq] at hret
    simp only [Outcome.ret.injEq, Prod.mk.injEq] at hret
    rw [← hret.1]
    rcases hcase with ⟨e, _, htr⟩ | ⟨res1, hres1, htr⟩
    · refine ⟨pre, htr, ?_⟩
      intro res hres
      rw [hquiet] at hres
      cases hres
    · refine ⟨pre ++ written env server.output (server.trace ++ pre) request res1,
        by rw [htr, List.append_assoc], ?_⟩
      intro res hres
      rw [responsesOf_stamped env _ _ pre request res1 res hquiet hres, stampResponse_status]
      have hst := handleMethod_status env (afterAuth server request) request
        (handleMethod env (afterAuth server request) request okResponse).1 res1
        (by rw [← hres1])
      rw [calledBack_afterAuth] at hst
      cases hcb : calledBack env server request with
      | some r =>
        rw [hcb] at hst hdef
        simp only [] at hst hdef
        rw [hst, hdef]
      | none =>
        rw [hcb] at hst hdef
        simp only [] at hst hdef
        rcases hst with ⟨hm, _⟩ | ⟨_, h200⟩
        · exact absurd hm hdef
        · exact h200

theorem responses_echo_cseq_and_date_witness :
    ∃ added, optionsServer.trace = freshServer.trace ++ added ∧
      ∀ res ∈ responsesOf added, ∃ request,
        ((textEnv acceptAll).parseRequest optionsRequest).2 = .ok request ∧
        res.Fileds.Has CSeq = true ∧
        res.Fileds.get CSeq = request.Fileds.get CSeq ∧
        res.Fileds.Has Date = true :=
  (responses_echo_cseq_and_date (textEnv acceptAll) freshServer optionsRequest).1
    optionsServer 40 none (by rfl)

/-- A request that passes both gates and whose method case is a delegation to
one callback: the callback is logged, its `AddTrack` calls are run, and the
response is sent; session id, channel counter and record flag stay. -/
theorem handleRequest_delegated {H : Type} (env : Env H) (server : RtspServer H) (b : Bytes)
    (ret : Nat) (request : RtspRequest) (call : HandleCall) (r : HandleResult H)
    (res1 : RtspResponse)
    (hparse : env.parseRequest b = (ret, .ok request))
    (hauth : authPasses env server request = true)
    (hsess : sessionPasses server request = true)
    (hM : handleMethod env (afterAuth server request) request okResponse =
      (applyHandle env (afterAuth server request) call r, .ok res1)) :
    ∃ s err, handleRequest env server b = .ret (s, ret, err) ∧
      s.trace = server.trace ++ [Event.callback call] ++
        written env server.output (server.trace ++ [Event.callback call]) request res1 ∧
      Untouched server s ∧
      s.isRecord = server.isRecord ∧
      s.handle = r.handle ∧
      (r.addTracks = [] → s.tracks = server.tracks) := by
  obtain ⟨h1, h2, h3, h4, h5, h6, _⟩ := afterAuth_frame server request
  obtain ⟨ht, ho⟩ := applyHandle_trace env (afterAuth server request) call r
  refine ⟨_, _, handleRequest_dispatch env server b ret request _ res1 hparse hauth hsess hM,
    ?_, ?_, ?_, ?_, ?_⟩
  · rw [sendRespones_state]
    show (applyHandle env (afterAuth server request) call r).trace ++
      written env (applyHandle env (afterAuth server request) call r).output
        (applyHandle env (afterAuth server request) call r).trace request res1 = _
    rw [ht, ho, h1, h2]
  · exact ((afterAuth_untouched server request).trans
      (applyHandle_untouched env _ call r)).trans (sendRespones_untouched env _ request res1)
  · rw [sendRespones_state]
    show (applyHandle env (afterAuth server request) call r).isRecord = _
    unfold applyHandle
    rw [(foldl_AddTrack_trace env r.addTracks _).2.2.2.1]
    exact (afterAuth_sdp server request).2
  · rw [sendRespones_state]
    show (applyHandle env (afterAuth server request) call r).handle = _
    unfold applyHandle
    rw [(foldl_AddTrack_trace env r.addTracks _).2.2.1]
  · intro hnil
    rw [sendRespones_state]
    show (applyHandle env (afterAuth server request) call r).tracks = _
    unfold applyHandle
    rw [hnil]
    exact h5

/-- C13: for every OPTIONS request that passes the authentication gate and
the session gate, `HandleOption` is invoked exactly once and one response is
written, with the status the callback left; if that status is 200 the
response has the Public header
"OPTIONS,SET_PARAMETER,GET_PARAMETER,SETUP,DESCRIBE,PLAY,ANNOUNCE,RECORD,TEARDOWN,PAUSE";
otherwise the engine adds no Public header (the header is as the callback
left it). -/
theorem options_lists_public_methods {H : Type} (env : Env H) (server : RtspServer H)
    (b : Bytes) (ret : Nat) (request : RtspRequest)
    (hparse : env.parseRequest b = (ret, .ok request))
    (hauth : authPasses env server request = true)
    (hsess : sessionPasses server request = true)
    (hm : request.Method = OPTIONS) :
    ∃ s err res, handleRequest env server b = .ret (s, ret, err) ∧
      s.trace = server.trace ++ [Event.callback (.option request)] ++
        (if server.output then [Event.write res] else []) ∧
      callbacksOf s.trace = callbacksOf server.trace ++ [.option request] ∧
      res.StatusCode =
        (env.handle.HandleOption server.handle request okResponse).res.StatusCode ∧
      ((env.handle.HandleOption server.handle request okResponse).res.StatusCode = 200 →
        res.Fileds.get Public = publicMethods) ∧
      ((env.handle.HandleOption server.handle request okResponse).res.StatusCode ≠ 200 →
        res.Fileds.Has Public =
          (env.handle.HandleOption server.handle request okResponse).res.Fileds.Has Public ∧
        res.Fileds.get Public =
          (env.handle.HandleOption server.handle request okResponse).res.Fileds.get Public)
    := by
  have hM := handleMethod_options env (afterAuth server request) request okResponse hm
  rw [(afterAuth_frame server request).2.2.2.2.2.1] at hM
  obtain ⟨s, err, hreq, htrace, _⟩ :=
    handleRequest_delegated env server b ret request _ _ _ hparse hauth hsess hM
  refine ⟨s, err, stampResponse env (server.trace ++ [Event.callback (.option request)]) request
    (if (env.handle.HandleOption server.handle request okResponse).res.StatusCode = 200 then
      { (env.handle.HandleOption server.handle request okResponse).res with
        Fileds := (env.handle.HandleOption server.handle request okResponse).res.Fileds.set
          Public publicMethods }
     else (env.handle.HandleOption server.handle request okResponse).res),
    hreq, htrace, ?_, ?_, ?_, ?_⟩
  · rw [htrace, callbacksOf_append, callbacksOf_written, List.append_nil, callbacksOf_append]
    rfl
  · rw [stampResponse_status]
    split_ifs <;> rfl
  · intro h200
    rw [stampResponse_get _ _ _ _ _ (by decide) (by decide), if_pos h200]
    exact HeadFiled.get_set_self _ _ _
  · intro hne
    rw [stampResponse_get _ _ _ _ _ (by decide) (by decide),
      stampResponse_Has _ _ _ _ _ (by decide) (by decide), if_neg hne]
    exact ⟨rfl, rfl⟩

theorem options_lists_public_methods_witness :
    ∃ s err res, handleRequest (textEnv acceptAll) freshServer optionsRequest =
        .ret (s, 40, err) ∧
      s.trace = freshServer.trace ++
        [Event.callback (.option
          { Method := "OPTIONS", Uri := "rtsp://h/s", Version := "RTSP/1.0",
            Fileds := ⟨[("CSeq", "1")]⟩, Body := "" })] ++
        (if freshServer.output then [Event.write res] else []) ∧
      callbacksOf s.trace = callbacksOf freshServer.trace ++
        [.option { Method := "OPTIONS", Uri := "rtsp://h/s", Version := "RTSP/1.0",
                   Fileds := ⟨[("CSeq", "1")]⟩, Body := "" }] ∧
      res.StatusCode = 200 ∧
      ((200 : Nat) = 200 → res.Fileds.get Public = publicMethods) ∧
      ((200 : Nat) ≠ 200 → res.Fileds.Has Public = false ∧ res.Fileds.get Public = "") :=
  options_lists_public_methods (textEnv acceptAll) freshServer optionsRequest 40
    { Method := "OPTIONS", Uri := "rtsp://h/s", Version := "RTSP/1.0",
      Fileds := ⟨[("CSeq", "1")]⟩, Body := "" }
    (by rfl) (by decide) (by decide) (by decide)

/-- Only ANNOUNCE can end the method switch with an error. -/
theorem handleMethod_error {H : Type} (env : Env H) (server : RtspServer H)
    (request : RtspRequest) (res : RtspResponse) (e : RtspError)
    (hM : (handleMethod env server request res).2 = .error e) :
    request.Method = ANNOUNCE := by
  by_contra hm
  unfold handleMethod at hM
  simp only [] at hM
  split_ifs at hM

/-- C14: for every request that passes both gates and whose method hands the
response object to a capability callback (every method of the switch but
ANNOUNCE; for SETUP, when a track is matched), one response is written and its
status code is the one the callback left in the response object.  ANNOUNCE,
whose callback is not handed the response, is answered with the status 200 the
response object holds. -/
theorem callback_status_passes_through {H : Type} (env : Env H) (server : RtspServer H)
    (b : Bytes) (ret : Nat) (request : RtspRequest)
    (hparse : env.parseRequest b = (ret, .ok request))
    (hauth : authPasses env server request = true)
    (hsess : sessionPasses server request = true) :
    (∀ r, calledBack env server request = some r →
      ∃ s err pre res, handleRequest env server b = .ret (s, ret, err) ∧
        s.trace = server.trace ++ pre ++ (if server.output then [Event.write res] else []) ∧
        responsesOf pre = [] ∧
        res.StatusCode = r.StatusCode) ∧
    (request.Method = ANNOUNCE →
      (env.parserSdp server.sdpMedias request.Body).2 = none →
      ∃ s err pre res, handleRequest env server b = .ret (s, ret, err) ∧
        s.trace = server.trace ++ pre ++ (if server.output then [Event.write res] else []) ∧
        responsesOf pre = [] ∧
        res.StatusCode = 200) := by
  obtain ⟨s, err, pre, hreq, _, hquiet, hcase⟩ :=
    handleRequest_answer env server b ret request hparse hauth hsess
  constructor
  · intro r hcb
    rcases hcase with ⟨e, he, _⟩ | ⟨res1, hres1, htr⟩
    · exfalso
      by_cases hm : request.Method = ANNOUNCE
      · unfold calledBack at hcb
        rw [hm, if_neg (by decide), if_neg (by decide), if_neg (by decide), if_pos rfl] at hcb
        cases hcb
      · exact hm (handleMethod_error env _ request _ e he)
    · refine ⟨s, err, pre, stampResponse env (server.trace ++ pre) request res1, hreq, htr, hquiet,
        ?_⟩
      have hst := handleMethod_status env (afterAuth server request) request
        (handleMethod env (afterAuth server request) request okResponse).1 res1
        (by rw [← hres1])
      rw [calledBack_afterAuth, hcb] at hst
      exact hst
  · intro hm hsdp
    have hA : (handleAnnounce env (afterAuth server request) request).2 = none := by
      unfold handleAnnounce
      simp only []
      rw [(afterAuth_sdp server request).1, hsdp]
    rcases hcase with ⟨e, he, _⟩ | ⟨res1, hres1, htr⟩
    · exfalso
      rw [handleMethod_announce env _ request _ hm] at he
      cases hB : handleAnnounce env (afterAuth server request) request with
      | mk s1 e1 =>
        rw [hB] at he hA
        simp only [] at hA
        rw [hA] at he
        cases he
    · refine ⟨s, err, pre, stampResponse env (server.trace ++ pre) request res1, hreq, htr, hquiet,
        ?_⟩
      have hst := handleMethod_status env (afterAuth server request) request
        (handleMethod env (afterAuth server request) request okResponse).1 res1
        (by rw [← hres1])
      have hcb : calledBack env server request = none := by
        unfold calledBack
        rw [hm, if_neg (by decide), if_neg (by decide), if_neg (by decide), if_pos rfl]
      rw [calledBack_afterAuth, hcb] at hst
      rcases hst with ⟨hs, _⟩ | ⟨_, h200⟩
      · rw [hm] at hs
        exact absurd hs (by decide)
      · exact h200

theorem callback_status_passes_through_witness :
    ∃ s err pre res, handleRequest (textEnv playServer) describedServer setupTcpRequest =
        .ret (s, 77, err) ∧
      s.trace = describedServer.trace ++ pre ++
        (if describedServer.output then [Event.write res] else []) ∧
      responsesOf pre = [] ∧
      res.StatusCode = 461 :=
  (callback_status_passes_through (textEnv playServer) describedServer setupTcpRequest 77
    { Method := "SETUP", Uri := "rtsp://h/s/track0", Version := "RTSP/1.0",
      Fileds := ⟨[("CSeq", "3"), ("Transport", "RTP/AVP/TCP;unicast")]⟩, Body := "" }
    (by rfl) (by decide) (by decide)).1
    { Version := "RTSP/1.0", StatusCode := 461, Fileds := HeadFiled.empty, Body := "" }
    (by decide)

/-- The TEARDOWN case for every environment: a TEARDOWN request that passes
both gates is handed to `HandleTeardown` once and one response is written, the
one the callback left, with CSeq and Date stamped.  The engine records
nothing of it: its session id, channel counter, output sink and record flag
are what they were, and so are its tracks unless the callback registered
one. -/
theorem teardown_delegates {H : Type} (env : Env H) (server : RtspServer H)
    (b : Bytes) (ret : Nat) (request : RtspRequest)
    (hparse : env.parseRequest b = (ret, .ok request))
    (hauth : authPasses env server request = true)
    (hsess : sessionPasses server request = true)
    (hm : request.Method = TEARDOWN) :
    ∃ s err res, handleRequest env server b = .ret (s, ret, err) ∧
      s.trace = server.trace ++ [Event.callback (.teardown request)] ++
        (if server.output then [Event.write res] else []) ∧
      res = stampResponse env (server.trace ++ [Event.callback (.teardown request)]) request
        (env.handle.HandleTeardown server.handle request okResponse).res ∧
      s.sessionId = server.sessionId ∧
      s.interleaved = server.interleaved ∧
      s.output = server.output ∧
      s.isRecord = server.isRecord ∧
      s.handle = (env.handle.HandleTeardown server.handle request okResponse).handle ∧
      ((env.handle.HandleTeardown server.handle request okResponse).addTracks = [] →
        s.tracks = server.tracks) ∧
      (∀ next, sessionPasses s next = sessionPasses server next) := by
  have hM := handleMethod_teardown env (afterAuth server request) request okResponse hm
  rw [(afterAuth_frame server request).2.2.2.2.2.1] at hM
  obtain ⟨s, err, hreq, htrace, hun, hrec, hh, htracks⟩ :=
    handleRequest_delegated env server b ret request _ _ _ hparse hauth hsess hM
  refine ⟨s, err, _, hreq, htrace, rfl, hun.1, hun.2.1, hun.2.2.2, hrec, hh, htracks, ?_⟩
  intro next
  unfold sessionPasses
  rw [hun.1]

theorem teardown_delegates_witness :
    ∃ s err res, handleRequest (textEnv acceptAll) tcpServer teardownRequest =
        .ret (s, 62, err) ∧
      s.trace = tcpServer.trace ++
        [Event.callback (.teardown
          { Method := "TEARDOWN", Uri := "rtsp://h/s", Version := "RTSP/1.0",
            Fileds := ⟨[("CSeq", "6"), ("Session", "0123456789")]⟩, Body := "" })] ++
        (if tcpServer.output then [Event.write res] else []) ∧
      res = { Version := "RTSP/1.0", StatusCode := 200,
              Fileds := ⟨[("CSeq", "6"), ("Date", "01 Jan 70 00:00:00 GMT")]⟩, Body := "" } ∧
      s.sessionId = "0123456789" ∧
      s.interleaved = 2 ∧
      s.output = true ∧
      s.isRecord = false ∧
      s.handle = () ∧
      (([] : List RtspTrack) = [] → s.tracks = tcpServer.tracks) ∧
      (∀ next, sessionPasses s next = sessionPasses tcpServer next) :=
  teardown_delegates (textEnv acceptAll) tcpServer teardownRequest 62
    { Method := "TEARDOWN", Uri := "rtsp://h/s", Version := "RTSP/1.0",
      Fileds := ⟨[("CSeq", "6"), ("Session", "0123456789")]⟩, Body := "" }
    (by rfl) (by decide) (by decide) (by decide)

/-- C15 (failing input): the engine, with the session "0123456789" active,
handles a TEARDOWN request and answers it 200.  Afterwards its session id is
still "0123456789", and the OPTIONS request fed next, within that session, is
dispatched like any other: `HandleOption` is invoked and a 200 response is
written. -/
theorem teardown_is_not_terminal :
    tcpServer.sessionId = "0123456789" ∧
    (serverOf tcpServer
      (feed (textEnv acceptAll) tcpServer [teardownRequest])).sessionId = "0123456789" ∧
    callbacksOf (addedTo tcpServer.trace
      (feed (textEnv acceptAll) tcpServer [teardownRequest, optionsSessionRequest])) =
      [.teardown
         { Method := "TEARDOWN", Uri := "rtsp://h/s", Version := "RTSP/1.0",
           Fileds := ⟨[("CSeq", "6"), ("Session", "0123456789")]⟩, Body := "" },
       .option
         { Method := "OPTIONS", Uri := "rtsp://h/s", Version := "RTSP/1.0",
           Fileds := ⟨[("CSeq", "7"), ("Session", "0123456789")]⟩, Body := "" }] ∧
    statusesOf (addedTo tcpServer.trace
      (feed (textEnv acceptAll) tcpServer [teardownRequest, optionsSessionRequest])) =
      [200, 200] := by
  refine ⟨by decide, by decide, by decide, by decide⟩

/-! ## Theorems: track registration -/

theorem insertTrack_length_of_mem (tracks : List (String × RtspTrack)) (k : String)
    (t : RtspTrack) (hmem : k ∈ tracks.map (fun kt => kt.1)) :
    (insertTrack tracks k t).length = tracks.length := by
  induction tracks with
  | nil => simp at hmem
  | cons kt rest ih =>
    obtain ⟨k0, t0⟩ := kt
    unfold insertTrack
    by_cases h : k0 = k
    · rw [if_pos h]; rfl
    · rw [if_neg h]
      have hrest : k ∈ rest.map (fun kt => kt.1) := by
        simp only [List.map_cons, List.mem_cons] at hmem
        rcases hmem with h1 | h1
        · exact absurd h1.symm h
        · exact h1
      simp only [List.length_cons, ih hrest]

theorem insertTrack_mem (tracks : List (String × RtspTrack)) (k : String) (t : RtspTrack) :
    k ∈ (insertTrack tracks k t).map (fun kt => kt.1) := by
  induction tracks with
  | nil => simp [insertTrack]
  | cons kt rest ih =>
    obtain ⟨k0, t0⟩ := kt
    unfold insertTrack
    by_cases h : k0 = k
    · rw [if_pos h]; simp
    · rw [if_neg h]
      simp only [List.map_cons, List.mem_cons]
      exact Or.inr ih

/-- Registering a second track under a name that is already registered: when
the SDP codec appends one media block for the description of that track, the
SDP context grows by one block while the track map keeps its size. -/
theorem AddTrack_same_name {H : Type} (env : Env H) (server : RtspServer H)
    (t1 t2 : RtspTrack)
    (hsdp : ∀ medias uri,
      (env.parserSdp medias (env.mediaDescripe { t2 with uri := uri })).1.length =
        medias.length + 1)
    (hname : t2.TrackName = t1.TrackName) :
    (AddTrack env (AddTrack env server t1) t2).tracks.length =
      (AddTrack env server t1).tracks.length ∧
    (AddTrack env (AddTrack env server t1) t2).sdpMedias.length =
      (AddTrack env server t1).sdpMedias.length + 1 := by
  constructor
  · show (insertTrack (insertTrack server.tracks t1.TrackName _) t2.TrackName _).length = _
    rw [hname]
    exact insertTrack_length_of_mem _ _ _ (insertTrack_mem _ _ _)
  · exact hsdp _ _

theorem AddTrack_same_name_witness :
    (AddTrack (textEnv playServer) (AddTrack (textEnv playServer) freshServer videoTrack)
      videoTrack).tracks.length =
      (AddTrack (textEnv playServer) freshServer videoTrack).tracks.length ∧
    (AddTrack (textEnv playServer) (AddTrack (textEnv playServer) freshServer videoTrack)
      videoTrack).sdpMedias.length =
      (AddTrack (textEnv playServer) freshServer videoTrack).sdpMedias.length + 1 :=
  AddTrack_same_name (textEnv playServer) freshServer videoTrack videoTrack
    (by
      intro medias uri
      show (medias ++ _).length = _
      rw [List.length_append]
      rfl)
    rfl

/-- C16 (failing input): a fresh engine of the play server example handles two
DESCRIBE requests; `HandleDescribe` registers the video track on each.  After
the first the engine holds one track and one media block; after the second it
holds one track (the map entry "video" was replaced) and two media blocks, and
the second DESCRIBE response describes two streams.  The same holds for two
direct `AddTrack` calls with tracks of the same name. -/
theorem describe_twice_duplicates_media :
    describedServer.tracks.length = 1 ∧
    describedServer.sdpMedias.length = 1 ∧
    describedTwiceServer.tracks.map (fun kt => kt.1) = ["video"] ∧
    describedTwiceServer.sdpMedias.map (fun m => m.MediaType) = ["video", "video"] ∧
    bodiesOf describedTwiceServer.trace = ["video", "video,video"] ∧
    (AddTrack (textEnv playServer) (AddTrack (textEnv playServer) freshServer videoTrack)
      videoTrack).tracks.length = 1 ∧
    (AddTrack (textEnv playServer) (AddTrack (textEnv playServer) freshServer videoTrack)
      videoTrack).sdpMedias.length = 2 := by
  refine ⟨by decide, by decide, by decide, by decide, by decide, by decide, by decide⟩

/-! ## Theorems: leading spaces -/

theorem indexNonSpace_spaces (k : Nat) (msg : Bytes) (hne : msg ≠ [])
    (hhead : msg.head? ≠ some 32) :
    indexNonSpace (List.replicate k 32 ++ msg) = some k := by
  induction k with
  | zero =>
    cases msg with
    | nil => exact absurd rfl hne
    | cons x xs =>
      simp only [List.replicate_zero, List.nil_append]
      unfold indexNonSpace
      rw [if_neg]
      intro hx
      apply hhead
      rw [hx]; rfl
  | succ n ih =>
    rw [List.replicate_succ, List.cons_append]
    unfold indexNonSpace
    rw [if_pos rfl, ih]
    rfl

theorem indexNonSpace_all_spaces (buf : Bytes) (hall : ∀ x ∈ buf, x = 32) :
    indexNonSpace buf = none := by
  induction buf with
  | nil => rfl
  | cons x xs ih =>
    unfold indexNonSpace
    rw [if_pos (hall x (List.mem_cons_self _ _)),
      ih (fun y hy => hall y (List.mem_cons_of_mem _ hy))]
    rfl

/-- A text unit behind `k+1` spaces is handled exactly as the unit without the
spaces: in particular the byte count returned is the one of the unit alone. -/
theorem inputUnit_leading_spaces {H : Type} (env : Env H) (server : RtspServer H) (k : Nat)
    (msg : Bytes) (hne : msg ≠ []) (hhead : msg.head? ≠ some 32) :
    inputUnit env server (List.replicate (k + 1) 32 ++ msg) =
      if ([82, 84, 83, 80] : Bytes).isPrefixOf msg then handleResponse env server msg
      else handleRequest env server msg := by
  unfold inputUnit
  rw [if_neg (by rw [List.replicate_succ, List.cons_append, List.head?_cons]; decide)]
  unfold handleRtspMessage
  rw [indexNonSpace_spaces (k + 1) msg hne hhead]
  simp only [List.drop_left']
  rw [List.drop_left' (by rw [List.length_replicate])]

/-- C18 (failing input): the buffer holds one space, the OPTIONS request of
the specification (40 bytes) and a DESCRIBE request.  The unit at the front
is handled and 40 is returned as its byte count, so the loop of `Input`
drops 40 bytes where the space and the request are 41: the next unit begins
at the last byte of the OPTIONS request, and the DESCRIBE request is not
dispatched (without the space it is).  With the space and the OPTIONS request
alone, the last byte of the request stays in the carry-over buffer. -/
theorem leading_space_shifts_next_unit :
    optionsRequest.length = 40 ∧
    inputUnit (textEnv acceptAll) freshServer (32 :: optionsRequest ++ describeRequest) =
      .ret (optionsServer, 40, none) ∧
    (32 :: optionsRequest ++ describeRequest).drop 40 = 10 :: describeRequest ∧
    callbacksOf (eventsOf
      (feed (textEnv acceptAll) freshServer [32 :: optionsRequest ++ describeRequest])) =
      [.option { Method := "OPTIONS", Uri := "rtsp://h/s", Version := "RTSP/1.0",
                 Fileds := ⟨[("CSeq", "1")]⟩, Body := "" }] ∧
    callbacksOf (eventsOf
      (feed (textEnv acceptAll) freshServer [optionsRequest ++ describeRequest])) =
      [.option { Method := "OPTIONS", Uri := "rtsp://h/s", Version := "RTSP/1.0",
                 Fileds := ⟨[("CSeq", "1")]⟩, Body := "" },
       .describe { Method := "DESCRIBE", Uri := "rtsp://h/s", Version := "RTSP/1.0",
                   Fileds := ⟨[("CSeq", "2")]⟩, Body := "" }] ∧
    (serverOf freshServer
      (feed (textEnv acceptAll) freshServer [32 :: optionsRequest])).buffer = [10] := by
  refine ⟨by decide, by rfl, by decide, by decide, by decide, by decide⟩

/-! ## Theorems: a rejected SETUP -/

/-- C19 (failing input): the play server holds one track with control URI
"track0".  A SETUP over TCP for "rtsp://h/s/track0" is rejected by the
callback with 461; afterwards the control URI of the track is
"rtsp://h/s/track0".  A later SETUP over UDP for "rtsp://127.0.0.1/s/track0",
whose URI contains the original control URI "track0", no longer locates the
track and is answered 400; from the state before the rejected SETUP the same
request is answered 200. -/
theorem rejected_setup_rewrites_control_uri :
    describedServer.tracks.map (fun kt => kt.2.uri) = ["track0"] ∧
    statusesOf rejectedServer.trace = [200, 461] ∧
    rejectedServer.tracks.map (fun kt => kt.2.uri) = ["rtsp://h/s/track0"] ∧
    (requestOf setupUdpOtherHostRequest).map (fun r => (r.Method, r.Uri)) =
      some ("SETUP", "rtsp://127.0.0.1/s/track0") ∧
    stringsContains "rtsp://127.0.0.1/s/track0" "track0" = true ∧
    statusesOf (addedTo rejectedServer.trace
      (feed (textEnv playServer) rejectedServer [setupUdpOtherHostRequest])) = [400] ∧
    statusesOf (addedTo describedServer.trace
      (feed (textEnv playServer) describedServer [setupUdpOtherHostRequest])) = [200] := by
  refine ⟨by decide, by decide, by decide, by decide, by decide, by decide, by decide⟩

/-! ## Theorems: input of spaces -/

/-- C20 (failing input): whenever the carry-over buffer followed by the data
is not empty and holds nothing but spaces, `Input` does not return: the skip
of leading spaces in `handleRtspMessage` finds no other byte, the index is -1
and the slice `msg[idx:]` faults. -/
theorem Input_faults_on_spaces {H : Type} (env : Env H) (server : RtspServer H)
    (data : Bytes) (hne : server.buffer ++ data ≠ [])
    (hall : ∀ x ∈ server.buffer ++ data, x = 32) :
    Input env server data = .fault server.trace := by
  have hlen : (server.buffer ++ data).length ≠ 0 := by
    intro h; exact hne (List.length_eq_zero.mp h)
  have htrace : (stageInput server data).1.trace = server.trace := by
    unfold stageInput
    split_ifs <;> rfl
  have hhead : (server.buffer ++ data).head? ≠ some 36 := by
    cases hb : server.buffer ++ data with
    | nil => exact absurd hb hne
    | cons x xs =>
      have hx := hall x (by rw [hb]; exact List.mem_cons_self _ _)
      rw [hx, List.head?_cons]; decide
  unfold Input
  simp only [stageInput_bytes]
  cases hfuel : (server.buffer ++ data).length with
  | zero => exact absurd hfuel hlen
  | succ f =>
    unfold inputLoop
    rw [if_neg hlen]
    unfold inputUnit
    rw [if_neg hhead]
    unfold handleRtspMessage
    rw [indexNonSpace_all_spaces _ hall, htrace]

theorem Input_faults_on_spaces_witness :
    Input (textEnv acceptAll) freshServer [32, 32] = .fault freshServer.trace :=
  Input_faults_on_spaces (textEnv acceptAll) freshServer [32, 32] (by decide) (by decide)

/-! ## Theorems: a fatal error in the middle of the input -/

/-- When the unit in front of `rest` ends in an error other than
`errNeedMore`, after the units before it were processed, `Input` returns the
state of the loop as it is: the tail that stores the unconsumed bytes
(lines 117-126) is not run. -/
theorem Input_fatal_skips_store {H : Type} (env : Env H) (server : RtspServer H)
    (data : Bytes) (server1 : RtspServer H) (rest : Bytes) (server2 : RtspServer H)
    (n : Nat) (err : RtspError)
    (hunits : Units env (stageInput server data).1 (server.buffer ++ data) server1 rest)
    (hne : rest ≠ [])
    (hstep : inputUnit env server1 rest = .ret (server2, n, some err))
    (hfatal : err ≠ .errNeedMore) :
    Input env server data = .ret (server2, some err) := by
  have hlen : rest.length ≠ 0 := fun h => hne (List.length_eq_zero.mp h)
  unfold Input
  simp only [stageInput_bytes]
  obtain ⟨fuel1, h1, h2⟩ := inputLoop_units env _ _ _ _ hunits _ (le_refl _)
  rw [h2]
  cases fuel1 with
  | zero => omega
  | succ f =>
    unfold inputLoop
    rw [if_neg hlen, hstep]
    simp only []
    rw [if_neg hfatal]

/-- C21 (failing input): the OPTIONS request of the specification arrives in
two reads, the second of which goes on with a complete unit that is not a
well-formed message.  The first read leaves the first line in the carry-over
buffer.  The second read dispatches the OPTIONS request (`HandleOption` is
invoked) and returns the error of the malformed unit; the carry-over buffer
then holds the whole OPTIONS request again, followed by the malformed unit.
The next read (a DESCRIBE request) dispatches the OPTIONS request a second
time.  With an empty carry-over buffer at the call, the same bytes in one read
leave nothing behind and the OPTIONS request is dispatched once. -/
theorem fatal_error_replays_dispatched_units :
    carryServer.buffer = optionsFirstLine ∧
    optionsFirstLine ++ optionsRestThenMalformed = optionsRequest ++ bytesOf "BAD\r\n\r\n" ∧
    Input (textEnv acceptAll) carryServer optionsRestThenMalformed =
      .ret (fatalServer, some (.failure 1)) ∧
    callbacksOf fatalServer.trace =
      [.option { Method := "OPTIONS", Uri := "rtsp://h/s", Version := "RTSP/1.0",
                 Fileds := ⟨[("CSeq", "1")]⟩, Body := "" }] ∧
    fatalServer.buffer = optionsRequest ++ bytesOf "BAD\r\n\r\n" ∧
    callbacksOf (addedTo fatalServer.trace
      (feed (textEnv acceptAll) fatalServer [describeRequest])) =
      [.option { Method := "OPTIONS", Uri := "rtsp://h/s", Version := "RTSP/1.0",
                 Fileds := ⟨[("CSeq", "1")]⟩, Body := "" }] ∧
    statusesOf (eventsOf (feed (textEnv acceptAll) freshServer
      [optionsFirstLine, optionsRestThenMalformed, describeRequest])) = [200, 200] ∧
    callbacksOf (eventsOf (feed (textEnv acceptAll) freshServer
      [optionsFirstLine ++ optionsRestThenMalformed, describeRequest])) =
      [.option { Method := "OPTIONS", Uri := "rtsp://h/s", Version := "RTSP/1.0",
                 Fileds := ⟨[("CSeq", "1")]⟩, Body := "" },
       .describe { Method := "DESCRIBE", Uri := "rtsp://h/s", Version := "RTSP/1.0",
                   Fileds := ⟨[("CSeq", "2")]⟩, Body := "" }] := by
  refine ⟨by decide, by decide, by rfl, by decide, by decide, by decide, by decide, by decide⟩

/-! ## Theorems: the construction options -/

/-- With `WithAuthType` naming a scheme the factory knows, `NewRtspServer`
keeps the authenticator exactly as the factory returned it, in either order of
the options: `setUserInfo` and `setRealm` are not called. -/
theorem NewRtspServer_auth_type {H : Type} (env : Env H) (handle : H)
    (userName passwd authType : String) (a : Authenticator)
    (ha : env.createAuthByAuthenticate authType = some a) :
    NewRtspServer env handle [.WithUserInfo userName passwd, .WithAuthType authType] =
      .ret { RtspServer.initial handle with
             userName := userName, passwd := passwd, auth := some a,
             sdpAttrs := [("control", "*")] } ∧
    NewRtspServer env handle [.WithAuthType authType, .WithUserInfo userName passwd] =
      .ret { RtspServer.initial handle with
             userName := userName, passwd := passwd, auth := some a,
             sdpAttrs := [("control", "*")] } := by
  constructor
  · unfold NewRtspServer
    simp only [List.foldl_cons, List.foldl_nil, ServerOption.apply, ha]
    rw [if_neg (by simp)]
  · unfold NewRtspServer
    simp only [List.foldl_cons, List.foldl_nil, ServerOption.apply, ha]
    rw [if_neg (by simp)]

theorem NewRtspServer_auth_type_witness :
    NewRtspServer (textEnv acceptAll) () [.WithUserInfo "u" "p", .WithAuthType "Basic"] =
      .ret { RtspServer.initial () with
             userName := "u", passwd := "p",
             auth := some { scheme := "Basic", userName := "", passwd := "", realm := "",
                            method := "" },
             sdpAttrs := [("control", "*")] } ∧
    NewRtspServer (textEnv acceptAll) () [.WithAuthType "Basic", .WithUserInfo "u" "p"] =
      .ret { RtspServer.initial () with
             userName := "u", passwd := "p",
             auth := some { scheme := "Basic", userName := "", passwd := "", realm := "",
                            method := "" },
             sdpAttrs := [("control", "*")] } :=
  NewRtspServer_auth_type (textEnv acceptAll) () "u" "p" "Basic" _ (by rfl)

/-- C22 (failing input): `NewRtspServer` with the options `WithUserInfo("u",
"p")` and `WithAuthType("Basic")`, in either order, returns an engine whose
credentials are "u" and "p" and whose authenticator is the one the factory
made for "Basic", with no user name, password or realm set.  With
`WithUserInfo("u", "p")` alone the authenticator holds "u", "p" and the realm
"gomedia server".  A DESCRIBE request carrying the credentials "u" and "p" is
answered 401 by the first engine and 200 by the second. -/
theorem auth_type_option_skips_user_info :
    faulted (NewRtspServer (textEnv acceptAll) ()
      [.WithUserInfo "u" "p", .WithAuthType "Basic"]) = false ∧
    (authTypeServer.userName, authTypeServer.passwd, authTypeServer.realm) =
      ("u", "p", "gomedia server") ∧
    authTypeServer.auth =
      some { scheme := "Basic", userName := "", passwd := "", realm := "", method := "" } ∧
    (serverOf freshServer (NewRtspServer (textEnv acceptAll) ()
      [.WithAuthType "Basic", .WithUserInfo "u" "p"])).auth =
      some { scheme := "Basic", userName := "", passwd := "", realm := "", method := "" } ∧
    authFreshServer.auth =
      some { scheme := "Digest", userName := "u", passwd := "p", realm := "gomedia server",
             method := "" } ∧
    statusesOf (eventsOf (feed (textEnv acceptAll) authTypeServer [describeAuthRequest])) =
      [401] ∧
    statusesOf (eventsOf (feed (textEnv acceptAll) authFreshServer [describeAuthRequest])) =
      [200] := by
  refine ⟨by decide, by decide, by decide, by decide, by decide, by decide, by decide⟩

/-! ## Theorems: the frames of the interleaving sink -/

theorem byteOfInt_natCast (n : Nat) : (byteOfInt (n : Int)).val = n % 256 := by
  simp only [byteOfInt, Fin.ofNat]
  omega

/-- The layout of the frame the interleaving sink builds, for a descriptor
holding the channel pair (c, c + 1). -/
theorem interleavedPacket_layout (t : RtspTransport) (c : Nat)
    (ht : t.Interleaved = ((c : Int), (c : Int) + 1)) (b : Bytes) (isRtcp : Bool) :
    (interleavedPacket t b isRtcp).length = 4 + b.length ∧
    (interleavedPacket t b isRtcp).getD 0 0 = 36 ∧
    ((interleavedPacket t b isRtcp).getD 1 0).val = (if isRtcp then c + 1 else c) % 256 ∧
    ((interleavedPacket t b isRtcp).getD 2 0).val = b.length % 65536 / 256 ∧
    ((interleavedPacket t b isRtcp).getD 3 0).val = b.length % 65536 % 256 ∧
    (interleavedPacket t b isRtcp).drop 4 = b := by
  refine ⟨length_interleavedPacket t b isRtcp, by simp [interleavedPacket], ?_, ?_, ?_,
    by simp [interleavedPacket]⟩
  · rw [channel_interleavedPacket, ht]
    cases isRtcp
    · simp only [Bool.false_eq_true, if_false]
      exact byteOfInt_natCast c
    · simp only [if_true]
      have h := byteOfInt_natCast (c + 1)
      rw [Nat.cast_add, Nat.cast_one] at h
      exact h
  · simp only [interleavedPacket, List.cons_append, List.nil_append, List.getD_cons_succ,
      List.getD_cons_zero, Fin.ofNat]
    omega
  · simp only [interleavedPacket, List.cons_append, List.nil_append, List.getD_cons_succ,
      List.getD_cons_zero, Fin.ofNat]
    omega

/-- C23: a SETUP that the callback accepts with a TCP-interleaved transport,
on an engine whose channel counter is c, leaves on the matched track the
interleaving sink of a descriptor holding the pair (c, c + 1).  For every
packet b and either kind (RTP or RTCP), the frame that sink builds has
4 + len(b) bytes: 0x24, the channel (c, or c + 1 for RTCP) mod 256, len(b) mod
65536 in two bytes big-endian, then b.  The length field, as
`hanleRtpOverRtsp` reads it, equals len(b) exactly when len(b) <= 65535, and
the channel byte equals the channel exactly when the channel is <= 255. -/
theorem sink_frame_layout {H : Type} (env : Env H) (server : RtspServer H)
    (request : RtspRequest) (i : Nat) (key : String) (track0 : RtspTrack) (c : Nat)
    (hmatch : matchTrack request.Uri server.tracks = some (i, key, track0))
    (hok : (setupCall env server request track0).res.StatusCode = 200)
    (htcp : (setupCall env server request track0).transport.Proto = .TCP)
    (hc : server.interleaved = (c : Int)) :
    ∃ transport track,
      (handleSetup env server request okResponse).1.tracks =
        server.tracks.set i (key, track) ∧
      track.onPacket = some (.interleavedSink transport) ∧
      transport.Interleaved = ((c : Int), (c : Int) + 1) ∧
      ∀ (b : Bytes) (isRtcp : Bool),
        (interleavedPacket transport b isRtcp).length = 4 + b.length ∧
        (interleavedPacket transport b isRtcp).getD 0 0 = 36 ∧
        ((interleavedPacket transport b isRtcp).getD 1 0).val =
          (if isRtcp then c + 1 else c) % 256 ∧
        ((interleavedPacket transport b isRtcp).getD 2 0).val = b.length % 65536 / 256 ∧
        ((interleavedPacket transport b isRtcp).getD 3 0).val = b.length % 65536 % 256 ∧
        (interleavedPacket transport b isRtcp).drop 4 = b ∧
        (bigEndianUint16 (interleavedPacket transport b isRtcp) = b.length ↔
          b.length ≤ 65535) ∧
        (((interleavedPacket transport b isRtcp).getD 1 0).val =
            (if isRtcp then c + 1 else c) ↔
          (if isRtcp then c + 1 else c) ≤ 255) := by
  have hsetup := handleSetup_accepted_tcp env server request i key track0 hmatch hok htcp
  refine ⟨{ (setupCall env server request track0).transport with
            Interleaved := (server.interleaved, server.interleaved + 1) },
          { track0 with
            uri := request.Uri,
            onPacket := some (.interleavedSink
              { (setupCall env server request track0).transport with
                Interleaved := (server.interleaved, server.interleaved + 1) }),
            transport := some
              { (setupCall env server request track0).transport with
                Interleaved := (server.interleaved, server.interleaved + 1) } },
          ?_, ?_, ?_, ?_⟩
  · rw [hsetup]
  · rfl
  · simp only [hc]
  · intro b isRtcp
    obtain ⟨h1, h2, h3, h4, h5, h6⟩ :=
      interleavedPacket_layout
        { (setupCall env server request track0).transport with
          Interleaved := (server.interleaved, server.interleaved + 1) } c
        (by simp only [hc]) b isRtcp
    refine ⟨h1, h2, h3, h4, h5, h6, ?_, ?_⟩
    · rw [uint16_interleavedPacket]
      omega
    · rw [h3]
      omega

theorem sink_frame_layout_witness :
    ∃ transport track,
      (handleSetup (textEnv acceptAll) describedServer
        { Method := "SETUP", Uri := "rtsp://h/s/track0", Version := "RTSP/1.0",
          Fileds := ⟨[("CSeq", "3"), ("Transport", "RTP/AVP/TCP;unicast")]⟩, Body := "" }
        okResponse).1.tracks = describedServer.tracks.set 0 ("video", track) ∧
      track.onPacket = some (.interleavedSink transport) ∧
      transport.Interleaved = (((0 : Nat) : Int), ((0 : Nat) : Int) + 1) ∧
      ∀ (b : Bytes) (isRtcp : Bool),
        (interleavedPacket transport b isRtcp).length = 4 + b.length ∧
        (interleavedPacket transport b isRtcp).getD 0 0 = 36 ∧
        ((interleavedPacket transport b isRtcp).getD 1 0).val =
          (if isRtcp then 0 + 1 else 0) % 256 ∧
        ((interleavedPacket transport b isRtcp).getD 2 0).val = b.length % 65536 / 256 ∧
        ((interleavedPacket transport b isRtcp).getD 3 0).val = b.length % 65536 % 256 ∧
        (interleavedPacket transport b isRtcp).drop 4 = b ∧
        (bigEndianUint16 (interleavedPacket transport b isRtcp) = b.length ↔
          b.length ≤ 65535) ∧
        (((interleavedPacket transport b isRtcp).getD 1 0).val =
            (if isRtcp then 0 + 1 else 0) ↔
          (if isRtcp then 0 + 1 else 0) ≤ 255) :=
  sink_frame_layout (textEnv acceptAll) describedServer
    { Method := "SETUP", Uri := "rtsp://h/s/track0", Version := "RTSP/1.0",
      Fileds := ⟨[("CSeq", "3"), ("Transport", "RTP/AVP/TCP;unicast")]⟩, Body := "" }
    0 "video" { videoTrack with uri := "track0" } 0
    (by decide) (by decide) (by decide) (by decide)

end Rtsp
